import Mathlib

/-! The nxtos USB device driver (`src/nxtos/usb.c`).

A shallow embedding of the driver: the UDP peripheral is a record of registers
together with the chronological list of the register accesses the driver made;
the driver state `usb_state` is a record; every C function is a Lean function on
the pair of both. A call that never returns (a wait loop the hardware never
releases) or that stores outside an array has the result `none`.

`usb_init` and `usb_test` only drive collaborators outside `usb.c` (clock, pins,
interrupt controller, display) and are not embedded; `usb_disable` is empty.
-/

namespace Nxtos

/-! ## Constants of `usb.c` -/

/-- The `MIN(x, y)` macro: `(x < y ? x : y)`. -/
def MIN (x y : Nat) : Nat := if x < y then x else y

def NMB_ENDPOINTS : Nat := 4
def NMB_USED_ENDPOINTS : Nat := 3
def MAX_ENDPT0_SIZE : Nat := 8
def MAX_RCV_SIZE : Nat := 64
def MAX_SND_SIZE : Nat := 64

def USB_BMREQUEST_DIR : Nat := 0x80
def USB_BMREQUEST_H_TO_D : Nat := 0x0
def USB_BMREQUEST_D_TO_H : Nat := 0x80
def USB_BMREQUEST_RCPT : Nat := 0x0F
def USB_BMREQUEST_RCPT_DEV : Nat := 0x0
def USB_BMREQUEST_RCPT_INT : Nat := 0x1
def USB_BMREQUEST_RCPT_EPT : Nat := 0x2
def USB_BMREQUEST_RCPT_OTH : Nat := 0x3

def USB_BREQUEST_GET_STATUS : Nat := 0x0
def USB_BREQUEST_CLEAR_FEATURE : Nat := 0x1
def USB_BREQUEST_SET_FEATURE : Nat := 0x3
def USB_BREQUEST_SET_ADDRESS : Nat := 0x5
def USB_BREQUEST_GET_DESCRIPTOR : Nat := 0x6
def USB_BREQUEST_SET_DESCRIPTOR : Nat := 0x7
def USB_BREQUEST_GET_CONFIG : Nat := 0x8
def USB_BREQUEST_SET_CONFIG : Nat := 0x9
def USB_BREQUEST_GET_INTERFACE : Nat := 0xA
def USB_BREQUEST_SET_INTERFACE : Nat := 0xB

def USB_WVALUE_TYPE : Nat := 0xFF <<< 8
def USB_DESC_TYPE_DEVICE : Nat := 1
def USB_DESC_TYPE_CONFIG : Nat := 2
def USB_DESC_TYPE_STR : Nat := 3
def USB_DESC_TYPE_INT : Nat := 4
def USB_DESC_TYPE_ENDPT : Nat := 5
def USB_WVALUE_INDEX : Nat := 0xFF

def BM_ATTR_RESERVED_7 : Nat := 0x80
def BM_ATTR_SELF_POWERED : Nat := 0x40
def BM_ATTR_REMOTE_WAKEUP : Nat := 0x20
def BM_ATTR_RESERVED_4_0 : Nat := 0x00
def B_ENDPOINT_ADDR_DIR_IN : Nat := 0x80
def B_ENDPOINT_ADDR_RESERVED_6_4 : Nat := 0x00
def BM_ATTR_ENDPT_BULK : Nat := 0x02

/-! ## Register bits of `at91sam7s256.h`

The chip header is not among the sources; the values are those of the
AT91SAM7S UDP register map. -/

def AT91C_UDP_TXCOMP : Nat := 0x1 <<< 0
def AT91C_UDP_RX_DATA_BK0 : Nat := 0x1 <<< 1
def AT91C_UDP_RXSETUP : Nat := 0x1 <<< 2
def AT91C_UDP_ISOERROR : Nat := 0x1 <<< 3
def AT91C_UDP_TXPKTRDY : Nat := 0x1 <<< 4
def AT91C_UDP_FORCESTALL : Nat := 0x1 <<< 5
def AT91C_UDP_RX_DATA_BK1 : Nat := 0x1 <<< 6
def AT91C_UDP_DIR : Nat := 0x1 <<< 7
def AT91C_UDP_EPTYPE_CTRL : Nat := 0x0 <<< 8
def AT91C_UDP_EPTYPE_BULK_OUT : Nat := 0x2 <<< 8
def AT91C_UDP_EPTYPE_BULK_IN : Nat := 0x6 <<< 8
def AT91C_UDP_EPEDS : Nat := 0x1 <<< 15
def AT91C_UDP_RXBYTECNT : Nat := 0x7FF <<< 16

def AT91C_UDP_EPINT0 : Nat := 0x1 <<< 0
def AT91C_UDP_RXSUSP : Nat := 0x1 <<< 8
def AT91C_UDP_RXRSM : Nat := 0x1 <<< 9
def AT91C_UDP_SOFINT : Nat := 0x1 <<< 11
def AT91C_UDP_ENDBUSRES : Nat := 0x1 <<< 12
def AT91C_UDP_WAKEUP : Nat := 0x1 <<< 13

def AT91C_UDP_FEN : Nat := 0x1 <<< 8
def AT91C_UDP_FADDEN : Nat := 0x1 <<< 0
def AT91C_UDP_CONFG : Nat := 0x1 <<< 1

/-- Bitwise complement `~x` of a 32-bit value. -/
def not32 (x : Nat) : Nat := 0xFFFFFFFF ^^^ (x % 2 ^ 32)

/-- Array cell update: `f[i] = v`. -/
def upd {α : Type} (f : Nat → α) (i : Nat) (v : α) : Nat → α :=
  fun j => if j = i then v else f j

/-! ## Pointers to bytes -/

/-- A `U8 *`: the bytes of the object pointed into and the offset inside it.
The objects the driver sends from are constant while a transfer runs. -/
structure Ptr where
  obj : List Nat
  off : Nat
deriving DecidableEq, Repr

/-- The null pointer: it points into no object. -/
def NULL : Ptr := ⟨[], 0⟩

/-- The byte load `*ptr` (a byte outside the object reads as 0). -/
def Ptr.deref (p : Ptr) : Nat := p.obj.getD p.off 0 % 256

/-- Pointer arithmetic `ptr + n`. -/
def Ptr.add (p : Ptr) (n : Nat) : Ptr := { p with off := p.off + n }

/-! ## The UDP peripheral -/

/-- One access of the driver to a UDP register, as written in the source. -/
inductive Event where
  | csr_set (e flags : Nat)
  | csr_clear (e flags : Nat)
  | csr_write (e v : Nat)
  | fdr_write (e b : Nat)
  | fdr_read (e b : Nat)
  | icr (v : Nat)
  | idr (v : Nat)
  | ier (v : Nat)
  | rstep (v : Nat)
  | faddr (v : Nat)
  | glbstate (v : Nat)
deriving DecidableEq, Repr

/-- The registers of the UDP. `csr e` is `UDP_CSR[e]`; `fdr e` holds the bytes
the host has put into the FIFO of endpoint `e`, next byte first; `engine` is
the sequence of values the USB engine gives `UDP_CSR[0]` while the processor
polls it; `log` lists every register access made so far, oldest first. -/
structure Udp where
  csr : Nat → Nat
  isr : Nat
  imr : Nat
  ier : Nat
  rstep : Nat
  faddr : Nat
  glbstate : Nat
  fdr : Nat → List Nat
  engine : List Nat
  log : List Event

/-- Append one access to the log. -/
def Udp.emit (u : Udp) (ev : Event) : Udp := { u with log := u.log ++ [ev] }

/-- Plain store `AT91C_UDP_CSR[e] = v`. -/
def Udp.write_csr (u : Udp) (e v : Nat) : Udp :=
  { u with csr := upd u.csr e v, log := u.log ++ [Event.csr_write e v] }

/-- Store of one byte into the FIFO: `AT91C_UDP_FDR[e] = b`. -/
def Udp.write_fdr (u : Udp) (e b : Nat) : Udp := u.emit (Event.fdr_write e b)

/-- Load from `AT91C_UDP_FDR[e]`: pops the next byte of the FIFO (0 when the
FIFO is empty). -/
def Udp.read_fdr (u : Udp) (e : Nat) : Nat × Udp :=
  let b := (u.fdr e).headD 0
  (b, { u with fdr := upd u.fdr e (u.fdr e).tail, log := u.log ++ [Event.fdr_read e b] })

/-- Store to `UDP_ICR`: clears the written bits of the interrupt status. -/
def Udp.write_icr (u : Udp) (v : Nat) : Udp :=
  { u with isr := u.isr &&& not32 v, log := u.log ++ [Event.icr v] }

/-- Store to `UDP_IDR`: masks the written interrupts. -/
def Udp.write_idr (u : Udp) (v : Nat) : Udp :=
  { u with imr := u.imr &&& not32 v, log := u.log ++ [Event.idr v] }

/-- Store to `UDP_IER`: unmasks the written interrupts. -/
def Udp.write_ier (u : Udp) (v : Nat) : Udp :=
  { u with ier := v, imr := u.imr ||| v, log := u.log ++ [Event.ier v] }

/-- Store to `UDP_RSTEP`. -/
def Udp.write_rstep (u : Udp) (v : Nat) : Udp :=
  { u with rstep := v, log := u.log ++ [Event.rstep v] }

/-- Store to `UDP_FADDR`. -/
def Udp.write_faddr (u : Udp) (v : Nat) : Udp :=
  { u with faddr := v, log := u.log ++ [Event.faddr v] }

/-- Store to `UDP_GLBSTATE`. -/
def Udp.write_glbstate (u : Udp) (v : Nat) : Udp :=
  { u with glbstate := v, log := u.log ++ [Event.glbstate v] }

/-- The function `usb_csr_clear_flag`: `CSR[endpoint] &= ~flags`, then wait until the
flags read back clear (they do at the first test, see `usb_csr_clear_flag_sync`). -/
def usb_csr_clear_flag (endpoint flags : Nat) (u : Udp) : Udp :=
  { u with csr := upd u.csr endpoint (u.csr endpoint &&& not32 flags),
           log := u.log ++ [Event.csr_clear endpoint flags] }

/-- The function `usb_csr_set_flag`: `CSR[endpoint] |= flags`, then wait until the
flags read back set (they do at the first test, see `usb_csr_set_flag_sync`). -/
def usb_csr_set_flag (endpoint flags : Nat) (u : Udp) : Udp :=
  { u with csr := upd u.csr endpoint (u.csr endpoint ||| flags),
           log := u.log ++ [Event.csr_set endpoint flags] }

/-- The bytes stored into the FIFO of endpoint `e` according to a log, in order. -/
def fifo_written (e : Nat) (log : List Event) : List Nat :=
  log.filterMap fun ev =>
    match ev with
    | Event.fdr_write e1 b => if e1 = e then some b else none
    | _ => none

/-- The bytes loaded from the FIFO of endpoint `e` according to a log, in order. -/
def fifo_read (e : Nat) (log : List Event) : List Nat :=
  log.filterMap fun ev =>
    match ev with
    | Event.fdr_read e1 b => if e1 = e then some b else none
    | _ => none

/-- The flag words handed to `usb_csr_set_flag` for endpoint `e` according to a log. -/
def flags_set (e : Nat) (log : List Event) : List Nat :=
  log.filterMap fun ev =>
    match ev with
    | Event.csr_set e1 f => if e1 = e then some f else none
    | _ => none

/-! ## Descriptors -/

/-- Size of `usb_config_desc_t` with its members laid out back to back, as the
source comment `b_length = 9` describes it. -/
def sizeof_usb_config_desc_t : Nat := 9

/-- Size of `usb_int_desc_t` with its members laid out back to back
(`b_length = 9 bytes`). -/
def sizeof_usb_int_desc_t : Nat := 9

/-- Size of `usb_endpoint_desc_t` with its members laid out back to back
(`b_length = 7 bytes`). -/
def sizeof_usb_endpoint_desc_t : Nat := 7

/-- The `FULL_CONFIG_SIZE` macro. -/
def FULL_CONFIG_SIZE (nmb_interfaces nmb_endpoints_per_int : Nat) : Nat :=
  sizeof_usb_config_desc_t
    + (nmb_interfaces * sizeof_usb_int_desc_t)
    + (nmb_interfaces * nmb_endpoints_per_int * sizeof_usb_endpoint_desc_t)

/-- The two bytes of a `U16` member, low byte first. -/
def le16 (v : Nat) : List Nat := [v % 256, v / 256 % 256]

/-- Bytes of `usb_dev_desc`. -/
def usb_dev_desc : List Nat :=
  [18, USB_DESC_TYPE_DEVICE] ++ le16 0x0200 ++ [2, 0, 0, MAX_ENDPT0_SIZE]
    ++ le16 0x0694 ++ le16 0xFF00 ++ le16 0 ++ [1, 2, 0, 1]

/-- Member `usb_nxtos_full_config.config.w_total_length`. -/
def usb_nxtos_full_config_w_total_length : Nat := FULL_CONFIG_SIZE 1 2

/-- Bytes of `usb_nxtos_full_config`, its members laid out back to back:
configuration, interface, endpoint 1, endpoint 2. -/
def usb_nxtos_full_config : List Nat :=
  ([9, USB_DESC_TYPE_CONFIG] ++ le16 usb_nxtos_full_config_w_total_length
      ++ [1, 1, 0, BM_ATTR_RESERVED_7 ||| BM_ATTR_SELF_POWERED ||| BM_ATTR_RESERVED_4_0, 0])
    ++ ([9, USB_DESC_TYPE_INT] ++ [0, 0, 2, 0xFF, 0xFF, 0xFF, 0])
    ++ ([7, USB_DESC_TYPE_ENDPT]
          ++ [B_ENDPOINT_ADDR_DIR_IN ||| B_ENDPOINT_ADDR_RESERVED_6_4 ||| 0x1, BM_ATTR_ENDPT_BULK]
          ++ le16 MAX_RCV_SIZE ++ [0])
    ++ ([7, USB_DESC_TYPE_ENDPT]
          ++ [B_ENDPOINT_ADDR_RESERVED_6_4 ||| 0x2, BM_ATTR_ENDPT_BULK]
          ++ le16 MAX_SND_SIZE ++ [0])

/-- Bytes of `usb_string_desc` (language identifier). -/
def usb_string_desc : List Nat := [4, USB_DESC_TYPE_STR] ++ le16 0x0809

/-- The table `usb_strings`: each entry is its header followed by the characters
of the string literal and the terminating zero. -/
def usb_strings : List (List Nat) :=
  [ [2 + 4 + 1, USB_DESC_TYPE_STR, 76, 69, 71, 79, 0],
    [2 + 3 + 1, USB_DESC_TYPE_STR, 78, 88, 84, 0] ]

/-! ## Driver state -/

/-- The record `usb_state`. -/
structure UsbState where
  isr : Nat
  nmb_int : Nat
  last_isr : Nat
  last_udp_isr : Nat
  last_udp_csr0 : Nat
  last_udp_csr1 : Nat
  x : Nat
  y : Nat
  current_config : Nat
  current_rx_bank : Nat
  is_suspended : Nat
  ds_data : Nat → Ptr
  ds_length : Nat → Nat
  dr_buffer : Nat → List Nat
  dr_buffer_used : Nat → Nat
  dr_overloaded : Nat

/-- The machine: driver state, peripheral, and the value `systick_get_ms()` returns. -/
structure Sys where
  usb_state : UsbState
  udp : Udp
  systick_ms : Nat

/-- The initialiser `usb_state = { 0 }`; both receive buffers have `size` bytes. -/
def usb_state_init (size : Nat) : UsbState :=
  { isr := 0, nmb_int := 0, last_isr := 0, last_udp_isr := 0, last_udp_csr0 := 0,
    last_udp_csr1 := 0, x := 0, y := 0,
    current_config := 0, current_rx_bank := 0, is_suspended := 0,
    ds_data := fun _ => NULL, ds_length := fun _ => 0,
    dr_buffer := fun _ => List.replicate size 0,
    dr_buffer_used := fun _ => 0, dr_overloaded := 0 }

/-! ## Endpoint engine -/

/-- The loop `while(packet_size) { AT91C_UDP_FDR[0] = *ptr; ptr++; packet_size--; }`. -/
def usb_send_data_loop : Nat → Ptr → Udp → Ptr × Udp
  | 0, ptr, u => (ptr, u)
  | packet_size + 1, ptr, u =>
      usb_send_data_loop packet_size (ptr.add 1) (u.write_fdr 0 ptr.deref)

/-- The function `usb_send_data`. -/
def usb_send_data (endpoint : Nat) (ptr : Ptr) (length : Nat) (s : Sys) : Sys :=
  let packet_size :=
    if endpoint = 0 then MIN MAX_ENDPT0_SIZE length else MIN MAX_SND_SIZE length
  let length := length - packet_size
  let r := usb_send_data_loop packet_size ptr s.udp
  let st := { s.usb_state with
    ds_data := upd s.usb_state.ds_data endpoint r.1,
    ds_length := upd s.usb_state.ds_length endpoint length }
  let u := usb_csr_set_flag endpoint AT91C_UDP_TXPKTRDY r.2
  let u := u.write_csr 0 (u.csr 0 &&& not32 AT91C_UDP_RX_DATA_BK0)
  { s with usb_state := st, udp := u }

/-- The loop `for (i = 0 ; i < total; i++) usb_state.dr_buffer[buf][i] = AT91C_UDP_FDR[1];`
run from index `i` for the given number of remaining rounds. A store past the
end of the buffer has no defined result. -/
def usb_read_data_loop (buf : Nat) : Nat → Nat → Sys → Option Sys
  | 0, _, s => some s
  | n + 1, i, s =>
      let r := s.udp.read_fdr 1
      if i < (s.usb_state.dr_buffer buf).length then
        usb_read_data_loop buf n (i + 1)
          { s with
            udp := r.2,
            usb_state := { s.usb_state with
              dr_buffer := upd s.usb_state.dr_buffer buf
                ((s.usb_state.dr_buffer buf).set i (r.1 % 256)) } }
      else none

/-- The function `usb_read_data`. -/
def usb_read_data (endpoint : Nat) (s : Sys) : Option Sys :=
  if endpoint = 1 then
    let total := (s.udp.csr endpoint &&& AT91C_UDP_RXBYTECNT) >>> 16
    let st := s.usb_state
    let buf := if st.dr_buffer_used 1 = 0 then 1 else 0
    let st :=
      if st.dr_buffer_used 1 = 0 then st
      else if st.dr_buffer_used 0 > 0 then { st with dr_overloaded := 1 } else st
    let st := { st with dr_buffer_used := upd st.dr_buffer_used buf total }
    match usb_read_data_loop buf total 0 { s with usb_state := st } with
    | none => none
    | some s1 =>
        let u := s1.udp
        let u := u.write_csr 1 (u.csr 1 &&& not32 s1.usb_state.current_rx_bank)
        let bank :=
          if s1.usb_state.current_rx_bank = AT91C_UDP_RX_DATA_BK0 then AT91C_UDP_RX_DATA_BK1
          else AT91C_UDP_RX_DATA_BK0
        some { s1 with udp := u, usb_state := { s1.usb_state with current_rx_bank := bank } }
  else
    let u := s.udp
    some { s with
      udp := u.write_csr endpoint
        (u.csr endpoint &&& not32 (AT91C_UDP_RX_DATA_BK0 ||| AT91C_UDP_RX_DATA_BK1)) }

/-! ## Control transfers -/

/-- The function `usb_send_stall`. -/
def usb_send_stall (s : Sys) : Sys :=
  { s with
    usb_state := { s.usb_state with x := 0xFFFFFFFF },
    udp := usb_csr_set_flag 0 AT91C_UDP_FORCESTALL s.udp }

/-- The function `usb_send_null`. -/
def usb_send_null (s : Sys) : Sys := usb_send_data 0 NULL 0 s

/-- The record `usb_setup_packet_t`. -/
structure usb_setup_packet_t where
  bm_request_type : Nat
  b_request : Nat
  w_value : Nat
  w_index : Nat
  w_length : Nat
deriving DecidableEq, Repr

/-- The eight FIFO loads at the head of `usb_manage_setup_packet`, in source order
(the left operand of each `|` is loaded first). -/
def usb_read_setup_packet (u : Udp) : usb_setup_packet_t × Udp :=
  let r0 := u.read_fdr 0
  let r1 := r0.2.read_fdr 0
  let r2 := r1.2.read_fdr 0
  let r3 := r2.2.read_fdr 0
  let r4 := r3.2.read_fdr 0
  let r5 := r4.2.read_fdr 0
  let r6 := r5.2.read_fdr 0
  let r7 := r6.2.read_fdr 0
  ({ bm_request_type := r0.1 % 256,
     b_request := r1.1 % 256,
     w_value := ((r2.1 &&& 0xFF) ||| (r3.1 <<< 8)) % 65536,
     w_index := ((r4.1 &&& 0xFF) ||| (r5.1 <<< 8)) % 65536,
     w_length := ((r6.1 &&& 0xFF) ||| (r7.1 <<< 8)) % 65536 }, r7.2)

/-- The loop `while(!(AT91C_UDP_CSR[0] & AT91C_UDP_TXCOMP));`. Each test that finds
TXCOMP clear is followed by the next value the USB engine gives `UDP_CSR[0]`;
when the engine has no further value the register stays as it is and the loop
never exits. -/
def usb_wait_txcomp : List Nat → Udp → Option Udp
  | [], u =>
      if u.csr 0 &&& AT91C_UDP_TXCOMP ≠ 0 then some { u with engine := [] } else none
  | v :: rest, u =>
      if u.csr 0 &&& AT91C_UDP_TXCOMP ≠ 0 then some { u with engine := v :: rest }
      else usb_wait_txcomp rest { u with csr := upd u.csr 0 v }

/-- The `USB_BREQUEST_GET_DESCRIPTOR` case of `usb_manage_setup_packet`. An index
outside the table `usb_strings` has no defined result. -/
def usb_get_descriptor (packet : usb_setup_packet_t) (s : Sys) : Option Sys :=
  let index := (packet.w_value &&& USB_WVALUE_INDEX) % 256
  let type := (packet.w_value &&& USB_WVALUE_TYPE) >>> 8
  if type = USB_DESC_TYPE_DEVICE then
    some (usb_send_data 0 ⟨usb_dev_desc, 0⟩ (MIN (usb_dev_desc.headD 0) packet.w_length) s)
  else if type = USB_DESC_TYPE_CONFIG then
    let s := usb_send_data 0 ⟨usb_nxtos_full_config, 0⟩
      (MIN usb_nxtos_full_config_w_total_length packet.w_length) s
    if usb_nxtos_full_config_w_total_length < packet.w_length then
      some (usb_send_null s)
    else some s
  else if type = USB_DESC_TYPE_STR then
    if packet.w_value &&& USB_WVALUE_INDEX = 0 then
      some (usb_send_data 0 ⟨usb_string_desc, 0⟩
        (MIN (usb_string_desc.headD 0) packet.w_length) s)
    else
      match usb_strings.get? (index - 1) with
      | none => none
      | some str => some (usb_send_data 0 ⟨str, 0⟩ (MIN (str.headD 0) packet.w_length) s)
  else
    some (usb_send_stall s)

/-- The head of `usb_manage_setup_packet`: the packet is loaded from the FIFO, the
direction is turned for a device-to-host request, and RXSETUP is cleared. -/
def usb_setup_begin (s : Sys) : usb_setup_packet_t × Sys :=
  let r := usb_read_setup_packet s.udp
  let packet := r.1
  let u := r.2
  let u :=
    if packet.bm_request_type &&& USB_BMREQUEST_DIR = USB_BMREQUEST_D_TO_H then
      usb_csr_set_flag 0 AT91C_UDP_DIR u
    else u
  let u := usb_csr_clear_flag 0 AT91C_UDP_RXSETUP u
  (packet, { s with udp := u })

/-- The `switch (packet.b_request)` of `usb_manage_setup_packet`. -/
def usb_setup_dispatch (packet : usb_setup_packet_t) (s : Sys) : Option Sys :=
  if packet.b_request = USB_BREQUEST_GET_STATUS then
    let rcpt := packet.bm_request_type &&& USB_BMREQUEST_RCPT
    let value16 :=
      if rcpt = USB_BMREQUEST_RCPT_DEV then 1
      else if rcpt = USB_BMREQUEST_RCPT_INT then 0
      else if rcpt = USB_BMREQUEST_RCPT_EPT then 0
      else 0
    some (usb_send_data 0 ⟨le16 value16, 0⟩ 2 s)
  else if packet.b_request = USB_BREQUEST_CLEAR_FEATURE
      ∨ packet.b_request = USB_BREQUEST_SET_FEATURE then
    some (usb_send_null s)
  else if packet.b_request = USB_BREQUEST_SET_ADDRESS then
    let s := usb_send_null s
    match usb_wait_txcomp s.udp.engine s.udp with
    | none => none
    | some u =>
        let u := usb_csr_clear_flag 0 AT91C_UDP_TXCOMP u
        let u := u.write_faddr (AT91C_UDP_FEN ||| packet.w_value)
        let u := u.write_glbstate (if packet.w_value > 0 then AT91C_UDP_FADDEN else 0)
        some { s with udp := u }
  else if packet.b_request = USB_BREQUEST_GET_DESCRIPTOR then
    usb_get_descriptor packet s
  else if packet.b_request = USB_BREQUEST_GET_CONFIG then
    some (usb_send_data 0 ⟨[s.usb_state.current_config], 0⟩ 1 s)
  else if packet.b_request = USB_BREQUEST_SET_CONFIG then
    let s := { s with usb_state := { s.usb_state with current_config := packet.w_value % 256 } }
    let s := usb_send_null s
    let u := s.udp.write_glbstate
      (if packet.w_value > 0 then AT91C_UDP_CONFG ||| AT91C_UDP_FADDEN else AT91C_UDP_FADDEN)
    some { s with udp := u }
  else
    some (usb_send_stall s)

/-- The function `usb_manage_setup_packet`. -/
def usb_manage_setup_packet (s : Sys) : Option Sys :=
  let r := usb_setup_begin s
  usb_setup_dispatch r.1 r.2

/-! ## Interrupt service routine -/

/-- The loop `for (endpoint = 0; endpoint < NMB_ENDPOINTS ; endpoint++)
if (*AT91C_UDP_ISR & (1 << endpoint)) break;` with the given number of rounds left. -/
def usb_isr_scan (isr : Nat) : Nat → Nat → Nat
  | 0, endpoint => endpoint
  | n + 1, endpoint =>
      if isr &&& (1 <<< endpoint) ≠ 0 then endpoint else usb_isr_scan isr n (endpoint + 1)

/-- The test `usb_state.ds_length > 0` of `usb_isr`: the array is not indexed, so
the address of a member of a static object is compared with zero. -/
def ds_length_address_positive : Bool := true

/-- The end-of-bus-reset branch of `usb_isr`. -/
def usb_isr_endbusres (s : Sys) : Sys :=
  let u := s.udp
  let u := u.write_icr AT91C_UDP_ENDBUSRES
  let u := u.write_icr AT91C_UDP_RXSUSP
  let u := u.write_icr AT91C_UDP_RXRSM
  let u := u.write_rstep (not32 0)
  let u := u.write_rstep 0
  let u := u.write_faddr (AT91C_UDP_FEN ||| 0x0)
  let st := { s.usb_state with current_config := 0, current_rx_bank := 0, is_suspended := 0 }
  let u := u.write_idr (not32 0)
  let u := u.write_ier (u.ier ||| (0x7 ||| (0x3 <<< 8)))
  let u := u.write_csr 0 (AT91C_UDP_EPEDS ||| AT91C_UDP_EPTYPE_CTRL)
  let u := u.write_csr 1 (AT91C_UDP_EPEDS ||| AT91C_UDP_EPTYPE_BULK_IN)
  let u := u.write_csr 2 (AT91C_UDP_EPEDS ||| AT91C_UDP_EPTYPE_BULK_OUT)
  let u := u.write_csr 3 0
  { s with usb_state := st, udp := u }

/-- The part of `usb_isr` after the end-of-bus-reset test. -/
def usb_isr_events (s : Sys) : Option Sys :=
  let s :=
    if s.udp.isr &&& AT91C_UDP_RXSUSP ≠ 0 then
      { s with udp := s.udp.write_icr AT91C_UDP_RXSUSP,
               usb_state := { s.usb_state with is_suspended := 1 } }
    else s
  let s :=
    if s.udp.isr &&& AT91C_UDP_RXRSM ≠ 0 then
      { s with udp := s.udp.write_icr AT91C_UDP_RXRSM,
               usb_state := { s.usb_state with is_suspended := 0 } }
    else s
  let endpoint := usb_isr_scan s.udp.isr NMB_ENDPOINTS 0
  let s := if endpoint = 0 then { s with udp := s.udp.write_icr AT91C_UDP_EPINT0 } else s
  if endpoint = 0 ∧ s.udp.csr 0 &&& AT91C_UDP_RXSETUP ≠ 0 then
    usb_manage_setup_packet s
  else if endpoint < NMB_ENDPOINTS ∧ s.udp.csr endpoint &&& AT91C_UDP_TXCOMP ≠ 0 then
    let s := { s with udp := usb_csr_clear_flag endpoint AT91C_UDP_TXCOMP s.udp }
    if ds_length_address_positive then
      some (usb_send_data endpoint (s.usb_state.ds_data endpoint)
        (s.usb_state.ds_length endpoint) s)
    else some s
  else if endpoint < NMB_ENDPOINTS ∧ s.udp.csr endpoint &&& AT91C_UDP_RXBYTECNT ≠ 0 then
    usb_read_data endpoint s
  else
    let u := s.udp.write_icr AT91C_UDP_WAKEUP
    let u := u.write_icr AT91C_UDP_SOFINT
    some { s with udp := u }

/-- The head of `usb_isr`: the diagnostic snapshots, then the acknowledgement of a
sent stall. -/
def usb_isr_entry (s : Sys) : Sys :=
  let st := s.usb_state
  let st := { st with
    nmb_int := (st.nmb_int + 1) % 2 ^ 32,
    last_isr := s.systick_ms,
    last_udp_isr := s.udp.isr,
    last_udp_csr0 := s.udp.csr 0,
    last_udp_csr1 := s.udp.csr 1 }
  let s := { s with usb_state := st }
  if s.udp.csr 0 &&& AT91C_UDP_ISOERROR ≠ 0 then
    { s with udp := usb_csr_clear_flag 0 (AT91C_UDP_FORCESTALL ||| AT91C_UDP_ISOERROR) s.udp }
  else s

/-- The function `usb_isr`. -/
def usb_isr (s : Sys) : Option Sys :=
  let s := usb_isr_entry s
  if s.udp.isr &&& AT91C_UDP_ENDBUSRES ≠ 0 then
    some (usb_isr_endbusres s)
  else
    usb_isr_events s

/-! ## Foreground interface -/

/-- The function `usb_can_send`. -/
def usb_can_send (s : Sys) : Nat :=
  if s.usb_state.is_suspended = 0 ∧ s.usb_state.ds_length 1 > 0 then 1 else 0

/-- The function `usb_send`. While the wait condition holds the loop spins and only an
interrupt can end it; the call then has no result of its own. -/
def usb_send (data : Ptr) (length : Nat) (s : Sys) : Option Sys :=
  if s.usb_state.is_suspended ≠ 0 ∨ s.usb_state.ds_length 1 > 0 then none
  else some (usb_send_data 1 data length s)

/-- The function `usb_has_data`. -/
def usb_has_data (s : Sys) : Nat := s.usb_state.dr_buffer_used 1

/-- The function `usb_get_buffer`. -/
def usb_get_buffer (s : Sys) : List Nat := s.usb_state.dr_buffer 1

/-- The function `usb_overloaded`. -/
def usb_overloaded (s : Sys) : Nat := s.usb_state.dr_overloaded

/-- The library call `memcpy(dst, src, n)` on two disjoint arrays; a count larger than
either array has no defined result. -/
def memcpy (dst src : List Nat) (n : Nat) : Option (List Nat) :=
  if n ≤ dst.length ∧ n ≤ src.length then some (src.take n ++ dst.drop n) else none

/-- The function `usb_flush_buffer`. -/
def usb_flush_buffer (s : Sys) : Option Sys :=
  let st := { s.usb_state with dr_overloaded := 0 }
  match memcpy (st.dr_buffer 1) (st.dr_buffer 0) (st.dr_buffer_used 0) with
  | none => none
  | some b1 =>
      let st := { st with dr_buffer := upd st.dr_buffer 1 b1 }
      let st := { st with dr_buffer_used := upd st.dr_buffer_used 1 (st.dr_buffer_used 0) }
      let st := { st with dr_buffer_used := upd st.dr_buffer_used 0 0 }
      some { s with usb_state := st }

/-! ## Test fixtures -/

/-- A peripheral with every register zero, empty FIFOs and an empty log. -/
def udp_idle : Udp :=
  { csr := fun _ => 0, isr := 0, imr := 0, ier := 0, rstep := 0, faddr := 0, glbstate := 0,
    fdr := fun _ => [], engine := [], log := [] }

/-- The machine right after start-up: zeroed driver state, idle peripheral. -/
def sys_init (size : Nat) : Sys :=
  { usb_state := usb_state_init size, udp := udp_idle, systick_ms := 0 }

/-- The machine `s` at the moment a SETUP packet with the given bytes sits in the FIFO of
endpoint 0: the endpoint-0 interrupt is pending and RXSETUP is set. -/
def sys_setup (bytes : List Nat) (s : Sys) : Sys :=
  { s with udp := { s.udp with
      fdr := upd s.udp.fdr 0 bytes,
      isr := s.udp.isr ||| AT91C_UDP_EPINT0,
      csr := upd s.udp.csr 0 (s.udp.csr 0 ||| AT91C_UDP_RXSETUP) } }

/-- A configured machine in the middle of its work when the host resets the bus: 5 bytes
are still to be sent on endpoint 1, both receive buffers hold a 10-byte packet, an overrun
is recorded, the bus is suspended, and ENDBUSRES is pending. -/
def sys_busy_reset : Sys :=
  { sys_init 64 with
    usb_state := { usb_state_init 64 with
      current_config := 1, current_rx_bank := AT91C_UDP_RX_DATA_BK1, is_suspended := 1,
      ds_length := upd (fun _ => 0) 1 5,
      dr_buffer_used := fun _ => 10, dr_overloaded := 1 },
    udp := { udp_idle with isr := AT91C_UDP_ENDBUSRES } }

/-- The machine after the last packet of a transfer on endpoint 1 has been acknowledged:
nothing is left to send, TXCOMP is set in CSR[1] and the endpoint-1 interrupt is pending. -/
def sys_txcomp_idle : Sys :=
  { sys_init 64 with
    udp := { udp_idle with
      isr := 1 <<< 1,
      csr := upd udp_idle.csr 1
        (AT91C_UDP_EPEDS ||| AT91C_UDP_EPTYPE_BULK_IN ||| AT91C_UDP_TXCOMP) } }

/-- The machine when the host has sent a 10-byte packet to endpoint 2, the bulk OUT
endpoint: the bytes are in its FIFO, CSR[2] shows bank 0 filled and a byte count of 10,
and the endpoint-2 interrupt is pending. -/
def sys_rx_endpoint2 : Sys :=
  { sys_init 64 with
    udp := { udp_idle with
      isr := 1 <<< 2,
      csr := upd udp_idle.csr 2
        (AT91C_UDP_EPEDS ||| AT91C_UDP_EPTYPE_BULK_OUT ||| AT91C_UDP_RX_DATA_BK0 ||| (10 <<< 16)),
      fdr := upd udp_idle.fdr 2 [1, 2, 3, 4, 5, 6, 7, 8, 9, 10] } }

/-- The USB engine finishing the transmission of the packet handed over on endpoint `e`:
TXPKTRDY is cleared and TXCOMP set in CSR[e], and the interrupt of the endpoint is raised. -/
def udp_txcomp (e : Nat) (u : Udp) : Udp :=
  { u with
    csr := upd u.csr e ((u.csr e &&& not32 AT91C_UDP_TXPKTRDY) ||| AT91C_UDP_TXCOMP),
    isr := u.isr ||| (1 <<< e) }

/-- The given number of rounds of: the engine finishes the packet on endpoint `e`, then
`usb_isr` runs. -/
def txcomp_rounds (e : Nat) : Nat → Sys → Option Sys
  | 0, s => some s
  | n + 1, s =>
      match usb_isr { s with udp := udp_txcomp e s.udp } with
      | none => none
      | some t => txcomp_rounds e n t

/-- SETUP packet GET_DESCRIPTOR, type CONFIGURATION, index 0, wLength 255, arriving at the
start-up state. -/
def sys_get_config_255 : Sys := sys_setup [0x80, 0x06, 0x00, 0x02, 0x00, 0x00, 0xFF, 0x00] (sys_init 64)

/-- SETUP packet GET_DESCRIPTOR, type DEVICE, index 1, wLength 18, arriving at the start-up
state. -/
def sys_get_device_index1 : Sys :=
  sys_setup [0x80, 0x06, 0x01, 0x01, 0x00, 0x00, 0x12, 0x00] (sys_init 64)

/-- SETUP packet GET_DESCRIPTOR, type 4 (interface), index 0, wLength 9, arriving at the
start-up state. -/
def sys_get_interface_desc : Sys :=
  sys_setup [0x80, 0x06, 0x00, 0x04, 0x00, 0x00, 0x09, 0x00] (sys_init 64)

/-- SETUP packet SET_CONFIGURATION with wValue 2, arriving at the start-up state. -/
def sys_set_config_2 : Sys :=
  sys_setup [0x00, 0x09, 0x02, 0x00, 0x00, 0x00, 0x00, 0x00] (sys_init 64)

/-- The bytes `p[0], ..., p[n-1]`. -/
def Ptr.bytes (p : Ptr) : Nat → List Nat
  | 0 => []
  | n + 1 => p.deref :: (p.add 1).bytes n

/-- The packet size computed by `usb_send_data`. -/
def packet_size_of (endpoint length : Nat) : Nat :=
  if endpoint = 0 then MIN MAX_ENDPT0_SIZE length else MIN MAX_SND_SIZE length

/-- The largest packet of endpoint `e` as the specification gives it: `maxpkt(0) = 8` and
`maxpkt(1) = maxpkt(2) = 64` (64 for every endpoint other than 0). -/
def maxpkt : Nat → Nat
  | 0 => 8
  | _ => 64

/-- A machine whose interrupt-side receive buffer holds a 3-byte packet: the buffers are
4 bytes long, `dr_buffer[0]` starts with 7, 8, 9 and `dr_buffer_used[0]` is 3, an overrun
is recorded, and the foreground buffer still shows an older 2-byte packet. -/
def sys_rx_pending : Sys :=
  { sys_init 4 with
    usb_state := { usb_state_init 4 with
      current_config := 1, current_rx_bank := AT91C_UDP_RX_DATA_BK1,
      dr_buffer := upd (upd (fun _ => [0, 0, 0, 0]) 0 [7, 8, 9, 0]) 1 [1, 2, 0, 0],
      dr_buffer_used := upd (upd (fun _ => 0) 0 3) 1 2,
      dr_overloaded := 1 } }

/-- SETUP packet GET_STATUS for the device, arriving at the start-up state. -/
def sys_get_status_device : Sys :=
  sys_setup [0x80, 0x00, 0x00, 0x00, 0x00, 0x00, 0x02, 0x00] (sys_init 64)

/-- SETUP packet SET_CONFIGURATION with wValue 1, arriving at the start-up state. -/
def sys_set_config_1 : Sys :=
  sys_setup [0x00, 0x09, 0x01, 0x00, 0x00, 0x00, 0x00, 0x00] (sys_init 64)

/-- The peripheral when the SETUP packet GET_CONFIGURATION has arrived. -/
def udp_get_config : Udp := (sys_setup [0x80, 0x08, 0x00, 0x00, 0x00, 0x00, 0x01, 0x00] (sys_init 64)).udp

/-- SETUP packet SET_INTERFACE (recipient interface, wValue 0, wIndex 0), arriving at the
start-up state. -/
def sys_set_interface : Sys :=
  sys_setup [0x01, 0x0B, 0x00, 0x00, 0x00, 0x00, 0x00, 0x00] (sys_init 64)

/-- The machine when the host has acknowledged a stall on endpoint 0: FORCESTALL and
ISOERROR (stall sent) are set in CSR[0] and the endpoint-0 interrupt is pending. -/
def sys_stall_sent : Sys :=
  { sys_init 64 with
    udp := { udp_idle with
      isr := AT91C_UDP_EPINT0,
      csr := upd udp_idle.csr 0
        (AT91C_UDP_EPEDS ||| AT91C_UDP_EPTYPE_CTRL ||| AT91C_UDP_FORCESTALL
          ||| AT91C_UDP_ISOERROR) } }

/-- SETUP packet SET_ADDRESS with wValue 7, arriving at the start-up state; the USB engine
will show CSR[0] with TXPKTRDY still set at the first two polls and with TXCOMP at the
third. -/
def sys_set_address_7 : Sys :=
  { sys_setup [0x00, 0x05, 0x07, 0x00, 0x00, 0x00, 0x00, 0x00] (sys_init 64) with
    udp := { (sys_setup [0x00, 0x05, 0x07, 0x00, 0x00, 0x00, 0x00, 0x00] (sys_init 64)).udp with
      engine := [AT91C_UDP_TXPKTRDY, AT91C_UDP_TXPKTRDY, AT91C_UDP_TXCOMP] } }

/-- The values of `n` successive loads from a FIFO holding `l` (0 once it is empty). -/
def fifo_take (l : List Nat) : Nat → List Nat
  | 0 => []
  | n + 1 => l.headD 0 :: fifo_take l.tail n

/-- The byte count `total` that `usb_read_data` takes from CSR[1]. -/
def rx_total (u : Udp) : Nat := (u.csr 1 &&& AT91C_UDP_RXBYTECNT) >>> 16

/-- The receive buffer `usb_read_data` chooses: the foreground buffer 1 when it is free,
else the interrupt buffer 0. -/
def rx_buf (st : UsbState) : Nat := if st.dr_buffer_used 1 = 0 then 1 else 0

/-- The peripheral `u` after the host has delivered the packet `pkt` to endpoint 1: the
bytes are in the FIFO and CSR[1] holds bank 0 filled and the byte count. -/
def udp_rx_packet (pkt : List Nat) (u : Udp) : Udp :=
  { u with
    fdr := upd u.fdr 1 pkt,
    csr := upd u.csr 1 (AT91C_UDP_EPEDS ||| AT91C_UDP_RX_DATA_BK0 ||| (pkt.length <<< 16)),
    isr := u.isr ||| (1 <<< 1) }

/-- The start-up machine with the bank set to `AT91C_UDP_RX_DATA_BK0` and a 3-byte packet
delivered to endpoint 1. -/
def sys_rx_bank0 : Sys :=
  { sys_init 64 with
    usb_state := { usb_state_init 64 with current_rx_bank := AT91C_UDP_RX_DATA_BK0 },
    udp := udp_rx_packet [0x11, 0x22, 0x33] udp_idle }

/-- Three 10-byte packets as the host sends them in the overrun scenario. -/
def rx_packet_a : List Nat := [1, 2, 3, 4, 5, 6, 7, 8, 9, 10]

/-- The second 10-byte packet. -/
def rx_packet_b : List Nat := [11, 12, 13, 14, 15, 16, 17, 18, 19, 20]

/-- The third 10-byte packet. -/
def rx_packet_c : List Nat := [21, 22, 23, 24, 25, 26, 27, 28, 29, 30]

/-- Nothing but a transfer on endpoint 0 is going on: no end of bus reset, suspend or
resume is pending in UDP_ISR, and CSR[0] shows neither a sent stall nor a SETUP packet. -/
def ep0_quiet (s : Sys) : Prop :=
  s.udp.isr &&& AT91C_UDP_ENDBUSRES = 0
    ∧ s.udp.isr &&& AT91C_UDP_RXSUSP = 0
    ∧ s.udp.isr &&& AT91C_UDP_RXRSM = 0
    ∧ s.udp.csr 0 &&& AT91C_UDP_ISOERROR = 0
    ∧ s.udp.csr 0 &&& AT91C_UDP_RXSETUP = 0

/-- SETUP packet GET_DESCRIPTOR, type DEVICE, index 0, wLength 64, arriving at the start-up
state. -/
def sys_get_device_64 : Sys :=
  sys_setup [0x80, 0x06, 0x00, 0x01, 0x00, 0x00, 0x40, 0x00] (sys_init 64)

/-- A buffer of 150 bytes 0, 1, ..., 149 handed to `usb_send`. -/
def send_buffer_150 : Ptr := ⟨List.range 150, 0⟩

/-- The start-up machine with a received packet waiting in bank 0 of endpoint 0:
RX_DATA_BK0 is set in `CSR[0]`, next to the enable bit. -/
def sys_bank0_pending : Sys :=
  { sys_init 64 with
    udp := { udp_idle with
      csr := upd udp_idle.csr 0 (AT91C_UDP_EPEDS ||| AT91C_UDP_RX_DATA_BK0) } }

/-- SETUP packet SET_CONFIGURATION with wValue 0x0100, arriving at the start-up state. -/
def sys_set_config_0x0100 : Sys :=
  sys_setup [0x00, 0x09, 0x00, 0x01, 0x00, 0x00, 0x00, 0x00] (sys_init 64)

/-- The start-up machine (`current_rx_bank == 0`) with a 3-byte packet delivered to
endpoint 1. -/
def sys_rx_startup : Sys :=
  { sys_init 64 with udp := udp_rx_packet [0x11, 0x22, 0x33] udp_idle }

/-! ## Basic facts -/

theorem usb_csr_set_flag_sync (e flags : Nat) (u : Udp) :
    (usb_csr_set_flag e flags u).csr e &&& flags = flags := by
  simp only [usb_csr_set_flag, upd, if_true]
  apply Nat.eq_of_testBit_eq
  intro i
  simp only [Nat.testBit_and, Nat.testBit_or]
  cases u.csr e |>.testBit i <;> cases flags.testBit i <;> rfl

theorem usb_csr_clear_flag_sync (e flags : Nat) (u : Udp) (h : flags < 2 ^ 32) :
    (usb_csr_clear_flag e flags u).csr e &&& flags = 0 := by
  have hm : flags % 2 ^ 32 = flags := Nat.mod_eq_of_lt h
  have hff : (0xFFFFFFFF : Nat) = 2 ^ 32 - 1 := by norm_num
  simp only [usb_csr_clear_flag, upd, if_true, not32, hm, hff]
  apply Nat.eq_of_testBit_eq
  intro i
  simp only [Nat.testBit_and, Nat.testBit_xor, Nat.testBit_two_pow_sub_one, Nat.zero_testBit]
  by_cases hi : i < 32
  · cases (u.csr e).testBit i <;> cases flags.testBit i <;> simp [hi]
  · have hf : flags.testBit i = false := by
      apply Nat.testBit_eq_false_of_lt
      exact lt_of_lt_of_le h (Nat.pow_le_pow_right (by norm_num) (by omega))
    simp [hf]

theorem fifo_written_append (e : Nat) (l1 l2 : List Event) :
    fifo_written e (l1 ++ l2) = fifo_written e l1 ++ fifo_written e l2 := by
  simp [fifo_written]

theorem fifo_written_map_fdr_write (e e1 : Nat) (bs : List Nat) :
    fifo_written e (bs.map (Event.fdr_write e1)) = if e1 = e then bs else [] := by
  induction bs with
  | nil => simp [fifo_written]
  | cons b bs ih =>
      by_cases h : e1 = e <;> simp_all [fifo_written]

theorem usb_send_data_loop_eq (n : Nat) (p : Ptr) (u : Udp) :
    usb_send_data_loop n p u
      = (p.add n, { u with log := u.log ++ (p.bytes n).map (Event.fdr_write 0) }) := by
  induction n generalizing p u with
  | zero => simp [usb_send_data_loop, Ptr.bytes, Ptr.add]
  | succ n ih =>
      simp only [usb_send_data_loop, ih, Ptr.bytes, Udp.write_fdr, Udp.emit, Ptr.add,
        List.map_cons, List.append_assoc, List.singleton_append, Nat.add_assoc]
      simp [Nat.add_comm 1 n]

theorem packet_size_of_eq (endpoint length : Nat) :
    packet_size_of endpoint length = min length (if endpoint = 0 then 8 else 64) := by
  unfold packet_size_of MIN MAX_ENDPT0_SIZE MAX_SND_SIZE
  split <;> split <;> omega

theorem usb_send_data_log (e : Nat) (p : Ptr) (L : Nat) (s : Sys) :
    (usb_send_data e p L s).udp.log
      = s.udp.log ++ (p.bytes (packet_size_of e L)).map (Event.fdr_write 0)
          ++ [Event.csr_set e AT91C_UDP_TXPKTRDY]
          ++ [Event.csr_write 0
                ((upd s.udp.csr e (s.udp.csr e ||| AT91C_UDP_TXPKTRDY)) 0
                  &&& not32 AT91C_UDP_RX_DATA_BK0)] := by
  simp [usb_send_data, usb_send_data_loop_eq, usb_csr_set_flag, Udp.write_csr, packet_size_of]

theorem upd_same {α : Type} (f : Nat → α) (i : Nat) (v : α) : upd f i v i = v := by
  simp [upd]

theorem upd_other {α : Type} (f : Nat → α) (i j : Nat) (v : α) (h : j ≠ i) :
    upd f i v j = f j := by
  simp [upd, h]

theorem upd_upd {α : Type} (f : Nat → α) (i : Nat) (v w : α) :
    upd (upd f i v) i w = upd f i w := by
  funext j
  by_cases h : j = i <;> simp [upd, h]

theorem usb_send_data_usb_state (e : Nat) (p : Ptr) (L : Nat) (s : Sys) :
    (usb_send_data e p L s).usb_state
      = { s.usb_state with
          ds_data := upd s.usb_state.ds_data e (p.add (packet_size_of e L)),
          ds_length := upd s.usb_state.ds_length e (L - packet_size_of e L) } := by
  simp [usb_send_data, usb_send_data_loop_eq, packet_size_of]

theorem usb_send_data_csr (e : Nat) (p : Ptr) (L : Nat) (s : Sys) :
    (usb_send_data e p L s).udp.csr
      = upd (upd s.udp.csr e (s.udp.csr e ||| AT91C_UDP_TXPKTRDY)) 0
          ((upd s.udp.csr e (s.udp.csr e ||| AT91C_UDP_TXPKTRDY)) 0
            &&& not32 AT91C_UDP_RX_DATA_BK0) := by
  simp [usb_send_data, usb_send_data_loop_eq, usb_csr_set_flag, Udp.write_csr]

/-! ## C1: where `usb_send_data` puts the packet -/

/-- C1, as the code behaves: for every endpoint other than 0, `usb_send_data` stores the
`min(L, 64)` packet bytes `p[0], ..., p[pkt-1]`, in order, into the FIFO of endpoint 0, and
stores nothing into the FIFO of the endpoint it was called for. -/
theorem usb_send_data_fills_fifo_zero (e : Nat) (p : Ptr) (L : Nat) (s : Sys) (he : e ≠ 0) :
    fifo_written 0 (usb_send_data e p L s).udp.log
        = fifo_written 0 s.udp.log ++ p.bytes (min L 64)
      ∧ fifo_written e (usb_send_data e p L s).udp.log = fifo_written e s.udp.log := by
  have hp : packet_size_of e L = min L 64 := by
    rw [packet_size_of_eq]; simp [he]
  have h0 : (0 : Nat) ≠ e := fun h => he h.symm
  rw [usb_send_data_log, hp]
  simp only [fifo_written_append, fifo_written_map_fdr_write]
  constructor
  · simp [fifo_written]
  · simp [fifo_written, h0]

/-- C1 at `usb_send_data(1, p, 3)` with `p = {0xAA, 0xBB, 0xCC}`. -/
theorem usb_send_data_fills_fifo_zero_witness :
    (1 : Nat) ≠ 0
      ∧ (fifo_written 0 (usb_send_data 1 ⟨[0xAA, 0xBB, 0xCC], 0⟩ 3 (sys_init 64)).udp.log
            = fifo_written 0 (sys_init 64).udp.log ++ Ptr.bytes ⟨[0xAA, 0xBB, 0xCC], 0⟩ (min 3 64)
          ∧ fifo_written 1 (usb_send_data 1 ⟨[0xAA, 0xBB, 0xCC], 0⟩ 3 (sys_init 64)).udp.log
            = fifo_written 1 (sys_init 64).udp.log) :=
  ⟨by decide, usb_send_data_fills_fifo_zero 1 ⟨[0xAA, 0xBB, 0xCC], 0⟩ 3 (sys_init 64) (by decide)⟩

/-! ## C2: `usb_can_send` -/

/-- C2, as the code behaves: in every state that is not suspended and has nothing left to
send on endpoint 1, `usb_can_send` returns 0 (false). -/
theorem usb_can_send_idle_false (s : Sys) (hs : s.usb_state.is_suspended = 0)
    (hl : s.usb_state.ds_length 1 = 0) : usb_can_send s = 0 := by
  simp [usb_can_send, hs, hl]

/-- C2 at the start-up state. -/
theorem usb_can_send_idle_false_witness :
    (sys_init 64).usb_state.is_suspended = 0 ∧ (sys_init 64).usb_state.ds_length 1 = 0
      ∧ usb_can_send (sys_init 64) = 0 :=
  ⟨rfl, rfl, usb_can_send_idle_false (sys_init 64) rfl rfl⟩

/-! ## C6: the driver state after an end-of-bus-reset interrupt -/

theorem usb_isr_entry_isr (s : Sys) : (usb_isr_entry s).udp.isr = s.udp.isr := by
  unfold usb_isr_entry
  by_cases hiso : s.udp.csr 0 &&& AT91C_UDP_ISOERROR ≠ 0
  · simp only [if_pos hiso]; rfl
  · simp only [if_neg hiso]

theorem usb_isr_entry_usb_state (s : Sys) :
    (usb_isr_entry s).usb_state
      = { s.usb_state with
          nmb_int := (s.usb_state.nmb_int + 1) % 2 ^ 32, last_isr := s.systick_ms,
          last_udp_isr := s.udp.isr, last_udp_csr0 := s.udp.csr 0,
          last_udp_csr1 := s.udp.csr 1 } := by
  unfold usb_isr_entry
  by_cases hiso : s.udp.csr 0 &&& AT91C_UDP_ISOERROR ≠ 0
  · simp only [if_pos hiso]
  · simp only [if_neg hiso]

theorem usb_isr_entry_udp (s : Sys) (hiso : s.udp.csr 0 &&& AT91C_UDP_ISOERROR = 0) :
    (usb_isr_entry s).udp = s.udp := by
  unfold usb_isr_entry
  simp only [hiso, ne_eq, not_true_eq_false, if_false]

theorem usb_isr_of_endbusres (s : Sys) (h : s.udp.isr &&& AT91C_UDP_ENDBUSRES ≠ 0) :
    ∃ u n, usb_isr s = some
      { s with
        udp := u,
        usb_state := { s.usb_state with
          nmb_int := n, last_isr := s.systick_ms, last_udp_isr := s.udp.isr,
          last_udp_csr0 := s.udp.csr 0, last_udp_csr1 := s.udp.csr 1,
          current_config := 0, current_rx_bank := 0, is_suspended := 0 } } := by
  refine ⟨(usb_isr_endbusres (usb_isr_entry s)).udp, (s.usb_state.nmb_int + 1) % 2 ^ 32, ?_⟩
  have h1 : (usb_isr_entry s).udp.isr &&& AT91C_UDP_ENDBUSRES ≠ 0 := by
    rw [usb_isr_entry_isr]; exact h
  have h2 : (usb_isr_entry s).systick_ms = s.systick_ms := by
    unfold usb_isr_entry
    by_cases hiso : s.udp.csr 0 &&& AT91C_UDP_ISOERROR ≠ 0
    · simp only [if_pos hiso]
    · simp only [if_neg hiso]
  simp only [usb_isr, if_pos h1, usb_isr_endbusres, usb_isr_entry_usb_state, h2]

/-- C6, refuted: the end-of-bus-reset interrupt taken in `sys_busy_reset` returns with
`ds_length[1]` still 5, both `dr_buffer_used` still 10 and `dr_overloaded` still 1. -/
theorem usb_isr_endbusres_keeps_cursors :
    (sys_busy_reset.udp.isr &&& AT91C_UDP_ENDBUSRES ≠ 0)
      ∧ (usb_isr sys_busy_reset).map (fun t =>
          (t.usb_state.ds_length 1, t.usb_state.dr_buffer_used 0, t.usb_state.dr_buffer_used 1,
            t.usb_state.dr_overloaded)) = some (5, 10, 10, 1) := by
  constructor
  · decide
  · rfl

/-- C6, amended: after one `usb_isr` invocation with ENDBUSRES set in UDP_ISR, whatever the
state before, `current_config` and `is_suspended` are 0, while `ds_length[e]` for every
endpoint, both `dr_buffer_used` and `dr_overloaded` are what they were before the
interrupt. -/
theorem usb_isr_endbusres_state (s : Sys) (h : s.udp.isr &&& AT91C_UDP_ENDBUSRES ≠ 0) :
    ∃ t, usb_isr s = some t
      ∧ t.usb_state.current_config = 0
      ∧ t.usb_state.is_suspended = 0
      ∧ (∀ e, t.usb_state.ds_length e = s.usb_state.ds_length e)
      ∧ t.usb_state.dr_buffer_used 0 = s.usb_state.dr_buffer_used 0
      ∧ t.usb_state.dr_buffer_used 1 = s.usb_state.dr_buffer_used 1
      ∧ t.usb_state.dr_overloaded = s.usb_state.dr_overloaded := by
  obtain ⟨u, n, hu⟩ := usb_isr_of_endbusres s h
  exact ⟨_, hu, rfl, rfl, fun _ => rfl, rfl, rfl, rfl⟩

/-- C6, amended, at `sys_busy_reset`. -/
theorem usb_isr_endbusres_state_witness :
    (sys_busy_reset.udp.isr &&& AT91C_UDP_ENDBUSRES ≠ 0)
      ∧ ∃ t, usb_isr sys_busy_reset = some t
        ∧ t.usb_state.current_config = 0
        ∧ t.usb_state.is_suspended = 0
        ∧ (∀ e, t.usb_state.ds_length e = sys_busy_reset.usb_state.ds_length e)
        ∧ t.usb_state.dr_buffer_used 0 = sys_busy_reset.usb_state.dr_buffer_used 0
        ∧ t.usb_state.dr_buffer_used 1 = sys_busy_reset.usb_state.dr_buffer_used 1
        ∧ t.usb_state.dr_overloaded = sys_busy_reset.usb_state.dr_overloaded :=
  ⟨by decide, usb_isr_endbusres_state sys_busy_reset (by decide)⟩

/-! ## C9: the current receive bank -/

/-- C9, as the code behaves: in the zero-initialised state, and after every `usb_isr`
invocation with ENDBUSRES set, `current_rx_bank` is 0, which is neither
`AT91C_UDP_RX_DATA_BK0` nor `AT91C_UDP_RX_DATA_BK1`. -/
theorem current_rx_bank_zero_after_reset (size : Nat) (s : Sys)
    (h : s.udp.isr &&& AT91C_UDP_ENDBUSRES ≠ 0) :
    ((usb_state_init size).current_rx_bank ≠ AT91C_UDP_RX_DATA_BK0
        ∧ (usb_state_init size).current_rx_bank ≠ AT91C_UDP_RX_DATA_BK1)
      ∧ ∃ t, usb_isr s = some t
        ∧ t.usb_state.current_rx_bank ≠ AT91C_UDP_RX_DATA_BK0
        ∧ t.usb_state.current_rx_bank ≠ AT91C_UDP_RX_DATA_BK1 := by
  have hb0 : (0 : Nat) ≠ AT91C_UDP_RX_DATA_BK0 := by decide
  have hb1 : (0 : Nat) ≠ AT91C_UDP_RX_DATA_BK1 := by decide
  refine ⟨⟨hb0, hb1⟩, ?_⟩
  obtain ⟨u, n, hu⟩ := usb_isr_of_endbusres s h
  exact ⟨_, hu, hb0, hb1⟩

/-- C9 at `sys_busy_reset`, whose bank before the reset is `AT91C_UDP_RX_DATA_BK1`. -/
theorem current_rx_bank_zero_after_reset_witness :
    (sys_busy_reset.udp.isr &&& AT91C_UDP_ENDBUSRES ≠ 0)
      ∧ (((usb_state_init 64).current_rx_bank ≠ AT91C_UDP_RX_DATA_BK0
          ∧ (usb_state_init 64).current_rx_bank ≠ AT91C_UDP_RX_DATA_BK1)
        ∧ ∃ t, usb_isr sys_busy_reset = some t
          ∧ t.usb_state.current_rx_bank ≠ AT91C_UDP_RX_DATA_BK0
          ∧ t.usb_state.current_rx_bank ≠ AT91C_UDP_RX_DATA_BK1) :=
  ⟨by decide, current_rx_bank_zero_after_reset 64 sys_busy_reset (by decide)⟩

/-! ## C3: the TXCOMP branch of `usb_isr` -/

theorem flags_set_append (e : Nat) (l1 l2 : List Event) :
    flags_set e (l1 ++ l2) = flags_set e l1 ++ flags_set e l2 := by
  simp [flags_set]

theorem flags_set_map_fdr_write (e e1 : Nat) (bs : List Nat) :
    flags_set e (bs.map (Event.fdr_write e1)) = [] := by
  induction bs with
  | nil => simp [flags_set]
  | cons b bs ih => simp_all [flags_set]

theorem usb_isr_of_no_reset (s : Sys) (hres : s.udp.isr &&& AT91C_UDP_ENDBUSRES = 0) :
    usb_isr s = usb_isr_events (usb_isr_entry s) := by
  have h1 : ¬ ((usb_isr_entry s).udp.isr &&& AT91C_UDP_ENDBUSRES ≠ 0) := by
    rw [usb_isr_entry_isr]; simp [hres]
  simp only [usb_isr, if_neg h1]

theorem usb_isr_events_txcomp (s : Sys) (e : Nat)
    (hsusp : s.udp.isr &&& AT91C_UDP_RXSUSP = 0)
    (hrsm : s.udp.isr &&& AT91C_UDP_RXRSM = 0)
    (he : usb_isr_scan s.udp.isr NMB_ENDPOINTS 0 = e) (he4 : e < NMB_ENDPOINTS)
    (hsetup : e = 0 → s.udp.csr 0 &&& AT91C_UDP_RXSETUP = 0)
    (htx : s.udp.csr e &&& AT91C_UDP_TXCOMP ≠ 0) :
    usb_isr_events s
      = some (usb_send_data e (s.usb_state.ds_data e) (s.usb_state.ds_length e)
          { s with
            udp := usb_csr_clear_flag e AT91C_UDP_TXCOMP
              (if e = 0 then s.udp.write_icr AT91C_UDP_EPINT0 else s.udp) }) := by
  unfold usb_isr_events
  simp only [hsusp, hrsm, ne_eq, not_true_eq_false, if_false, he]
  by_cases h0 : e = 0
  · subst h0
    simp [Udp.write_icr, hsetup rfl, htx, he4, ds_length_address_positive]
  · simp [h0, htx, he4, ds_length_address_positive]

/-- C3, as the code behaves: when `usb_isr` handles a TXCOMP event on an endpoint `e` whose
`ds_length[e]` is 0, it still hands a packet to the USB engine: `usb_csr_set_flag(e,
AT91C_UDP_TXPKTRDY)` is called once more. No byte is written to any FIFO and `ds_length[e]`
stays 0, so the packet is a zero-length one. -/
theorem usb_isr_txcomp_idle_sends_packet (s : Sys) (e : Nat)
    (hiso : s.udp.csr 0 &&& AT91C_UDP_ISOERROR = 0)
    (hres : s.udp.isr &&& AT91C_UDP_ENDBUSRES = 0)
    (hsusp : s.udp.isr &&& AT91C_UDP_RXSUSP = 0)
    (hrsm : s.udp.isr &&& AT91C_UDP_RXRSM = 0)
    (he : usb_isr_scan s.udp.isr NMB_ENDPOINTS 0 = e) (he4 : e < NMB_ENDPOINTS)
    (hsetup : e = 0 → s.udp.csr 0 &&& AT91C_UDP_RXSETUP = 0)
    (htx : s.udp.csr e &&& AT91C_UDP_TXCOMP ≠ 0)
    (hlen : s.usb_state.ds_length e = 0) :
    ∃ t, usb_isr s = some t
      ∧ flags_set e t.udp.log = flags_set e s.udp.log ++ [AT91C_UDP_TXPKTRDY]
      ∧ (∀ f, fifo_written f t.udp.log = fifo_written f s.udp.log)
      ∧ t.usb_state.ds_length e = 0 := by
  have hudp : (usb_isr_entry s).udp = s.udp := usb_isr_entry_udp s hiso
  have hlen1 : (usb_isr_entry s).usb_state.ds_length e = 0 := by
    rw [usb_isr_entry_usb_state]; exact hlen
  have hev := usb_isr_events_txcomp (usb_isr_entry s) e (by rw [hudp]; exact hsusp)
    (by rw [hudp]; exact hrsm) (by rw [hudp]; exact he) he4 (by rw [hudp]; exact hsetup)
    (by rw [hudp]; exact htx)
  rw [hudp, hlen1] at hev
  refine ⟨_, (usb_isr_of_no_reset s hres).trans hev, ?_, ?_, ?_⟩
  · rw [usb_send_data_log]
    have hp : packet_size_of e 0 = 0 := by rw [packet_size_of_eq]; simp
    by_cases h0 : e = 0
    · subst h0
      simp [hp, Ptr.bytes, flags_set, usb_csr_clear_flag, Udp.write_icr]
    · have h0' : (0 : Nat) ≠ e := fun h => h0 h.symm
      simp [hp, Ptr.bytes, flags_set, usb_csr_clear_flag, h0, h0']
  · intro f
    rw [usb_send_data_log]
    have hp : packet_size_of e 0 = 0 := by rw [packet_size_of_eq]; simp
    by_cases h0 : e = 0
    · subst h0
      simp [hp, Ptr.bytes, fifo_written, usb_csr_clear_flag, Udp.write_icr]
    · simp [hp, Ptr.bytes, fifo_written, usb_csr_clear_flag, h0]
  · rw [usb_send_data_usb_state]
    simp [upd]

/-- C3 at `sys_txcomp_idle` (endpoint 1). -/
theorem usb_isr_txcomp_idle_sends_packet_witness :
    (sys_txcomp_idle.udp.csr 0 &&& AT91C_UDP_ISOERROR = 0
      ∧ sys_txcomp_idle.udp.isr &&& AT91C_UDP_ENDBUSRES = 0
      ∧ sys_txcomp_idle.udp.isr &&& AT91C_UDP_RXSUSP = 0
      ∧ sys_txcomp_idle.udp.isr &&& AT91C_UDP_RXRSM = 0
      ∧ usb_isr_scan sys_txcomp_idle.udp.isr NMB_ENDPOINTS 0 = 1
      ∧ 1 < NMB_ENDPOINTS
      ∧ ((1 : Nat) = 0 → sys_txcomp_idle.udp.csr 0 &&& AT91C_UDP_RXSETUP = 0)
      ∧ sys_txcomp_idle.udp.csr 1 &&& AT91C_UDP_TXCOMP ≠ 0
      ∧ sys_txcomp_idle.usb_state.ds_length 1 = 0)
    ∧ ∃ t, usb_isr sys_txcomp_idle = some t
      ∧ flags_set 1 t.udp.log = flags_set 1 sys_txcomp_idle.udp.log ++ [AT91C_UDP_TXPKTRDY]
      ∧ (∀ f, fifo_written f t.udp.log = fifo_written f sys_txcomp_idle.udp.log)
      ∧ t.usb_state.ds_length 1 = 0 :=
  ⟨by decide, usb_isr_txcomp_idle_sends_packet sys_txcomp_idle 1 (by decide) (by decide)
    (by decide) (by decide) (by decide) (by decide) (by decide) (by decide) (by decide)⟩

/-! ## C5: a packet received on endpoint 2 -/

theorem usb_isr_events_rx (s : Sys) (e : Nat)
    (hsusp : s.udp.isr &&& AT91C_UDP_RXSUSP = 0)
    (hrsm : s.udp.isr &&& AT91C_UDP_RXRSM = 0)
    (he : usb_isr_scan s.udp.isr NMB_ENDPOINTS 0 = e) (he0 : e ≠ 0) (he4 : e < NMB_ENDPOINTS)
    (htx : s.udp.csr e &&& AT91C_UDP_TXCOMP = 0)
    (hrx : s.udp.csr e &&& AT91C_UDP_RXBYTECNT ≠ 0) :
    usb_isr_events s = usb_read_data e s := by
  unfold usb_isr_events
  simp only [hsusp, hrsm, ne_eq, not_true_eq_false, if_false, he]
  simp [he0, htx, hrx, he4]

theorem usb_read_data_other (e : Nat) (s : Sys) (he : e ≠ 1) :
    usb_read_data e s
      = some { s with
          udp := s.udp.write_csr e
            (s.udp.csr e &&& not32 (AT91C_UDP_RX_DATA_BK0 ||| AT91C_UDP_RX_DATA_BK1)) } := by
  simp only [usb_read_data, if_neg he]

/-- C5, as the code behaves: when `usb_isr` handles a received-data event on endpoint 2
(non-zero RXBYTECNT, no TXCOMP), it only clears both bank bits in CSR[2]: no byte is
loaded from the FIFO, and `dr_buffer`, `dr_buffer_used` and `dr_overloaded` are what they
were before. -/
theorem usb_isr_rx_endpoint2_discards (s : Sys)
    (hiso : s.udp.csr 0 &&& AT91C_UDP_ISOERROR = 0)
    (hres : s.udp.isr &&& AT91C_UDP_ENDBUSRES = 0)
    (hsusp : s.udp.isr &&& AT91C_UDP_RXSUSP = 0)
    (hrsm : s.udp.isr &&& AT91C_UDP_RXRSM = 0)
    (he : usb_isr_scan s.udp.isr NMB_ENDPOINTS 0 = 2)
    (htx : s.udp.csr 2 &&& AT91C_UDP_TXCOMP = 0)
    (hrx : s.udp.csr 2 &&& AT91C_UDP_RXBYTECNT ≠ 0) :
    ∃ t, usb_isr s = some t
      ∧ t.usb_state.dr_buffer = s.usb_state.dr_buffer
      ∧ t.usb_state.dr_buffer_used = s.usb_state.dr_buffer_used
      ∧ t.usb_state.dr_overloaded = s.usb_state.dr_overloaded
      ∧ t.udp.fdr = s.udp.fdr
      ∧ t.udp.log = s.udp.log ++ [Event.csr_write 2
          (s.udp.csr 2 &&& not32 (AT91C_UDP_RX_DATA_BK0 ||| AT91C_UDP_RX_DATA_BK1))] := by
  have hudp : (usb_isr_entry s).udp = s.udp := usb_isr_entry_udp s hiso
  have hev := usb_isr_events_rx (usb_isr_entry s) 2 (by rw [hudp]; exact hsusp)
    (by rw [hudp]; exact hrsm) (by rw [hudp]; exact he) (by decide) (by decide)
    (by rw [hudp]; exact htx) (by rw [hudp]; exact hrx)
  have hrd := usb_read_data_other 2 (usb_isr_entry s) (by decide)
  refine ⟨_, (usb_isr_of_no_reset s hres).trans (hev.trans hrd), ?_, ?_, ?_, ?_, ?_⟩
  all_goals simp [usb_isr_entry_usb_state, hudp, Udp.write_csr]

/-- C5 at `sys_rx_endpoint2`. -/
theorem usb_isr_rx_endpoint2_discards_witness :
    (sys_rx_endpoint2.udp.csr 0 &&& AT91C_UDP_ISOERROR = 0
      ∧ sys_rx_endpoint2.udp.isr &&& AT91C_UDP_ENDBUSRES = 0
      ∧ sys_rx_endpoint2.udp.isr &&& AT91C_UDP_RXSUSP = 0
      ∧ sys_rx_endpoint2.udp.isr &&& AT91C_UDP_RXRSM = 0
      ∧ usb_isr_scan sys_rx_endpoint2.udp.isr NMB_ENDPOINTS 0 = 2
      ∧ sys_rx_endpoint2.udp.csr 2 &&& AT91C_UDP_TXCOMP = 0
      ∧ sys_rx_endpoint2.udp.csr 2 &&& AT91C_UDP_RXBYTECNT ≠ 0)
    ∧ ∃ t, usb_isr sys_rx_endpoint2 = some t
      ∧ t.usb_state.dr_buffer = sys_rx_endpoint2.usb_state.dr_buffer
      ∧ t.usb_state.dr_buffer_used = sys_rx_endpoint2.usb_state.dr_buffer_used
      ∧ t.usb_state.dr_overloaded = sys_rx_endpoint2.usb_state.dr_overloaded
      ∧ t.udp.fdr = sys_rx_endpoint2.udp.fdr
      ∧ t.udp.log = sys_rx_endpoint2.udp.log ++ [Event.csr_write 2
          (sys_rx_endpoint2.udp.csr 2
            &&& not32 (AT91C_UDP_RX_DATA_BK0 ||| AT91C_UDP_RX_DATA_BK1))] :=
  ⟨by decide, usb_isr_rx_endpoint2_discards sys_rx_endpoint2 (by decide) (by decide)
    (by decide) (by decide) (by decide) (by decide) (by decide)⟩

/-! ## Control transfers: decoding and dispatch -/

theorem usb_csr_set_flag_log (e flags : Nat) (u : Udp) :
    (usb_csr_set_flag e flags u).log = u.log ++ [Event.csr_set e flags] := rfl

theorem usb_csr_clear_flag_log (e flags : Nat) (u : Udp) :
    (usb_csr_clear_flag e flags u).log = u.log ++ [Event.csr_clear e flags] := rfl

theorem read_fdr_log (u : Udp) (e : Nat) :
    (u.read_fdr e).2.log = u.log ++ [Event.fdr_read e (u.read_fdr e).1] := rfl

theorem fifo_written_read_fdr (u : Udp) (e f : Nat) :
    fifo_written f (u.read_fdr e).2.log = fifo_written f u.log := by
  simp [read_fdr_log, fifo_written]

theorem flags_set_read_fdr (u : Udp) (e f : Nat) :
    flags_set f (u.read_fdr e).2.log = flags_set f u.log := by
  simp [read_fdr_log, flags_set]

theorem fifo_written_read_setup_packet (u : Udp) (f : Nat) :
    fifo_written f (usb_read_setup_packet u).2.log = fifo_written f u.log := by
  simp only [usb_read_setup_packet, fifo_written_read_fdr]

theorem flags_set_read_setup_packet (u : Udp) (f : Nat) :
    flags_set f (usb_read_setup_packet u).2.log = flags_set f u.log := by
  simp only [usb_read_setup_packet, flags_set_read_fdr]

theorem usb_setup_begin_usb_state (s : Sys) : (usb_setup_begin s).2.usb_state = s.usb_state := by
  simp [usb_setup_begin]

theorem usb_setup_begin_packet (s : Sys) :
    (usb_setup_begin s).1 = (usb_read_setup_packet s.udp).1 := rfl

theorem usb_setup_begin_fifo_written (s : Sys) (f : Nat) :
    fifo_written f (usb_setup_begin s).2.udp.log = fifo_written f s.udp.log := by
  unfold usb_setup_begin
  by_cases hd : (usb_read_setup_packet s.udp).1.bm_request_type &&& USB_BMREQUEST_DIR
      = USB_BMREQUEST_D_TO_H
  · simp only [if_pos hd, usb_csr_clear_flag_log, usb_csr_set_flag_log, fifo_written_append,
      fifo_written_read_setup_packet]
    simp [fifo_written]
  · simp only [if_neg hd, usb_csr_clear_flag_log, fifo_written_append,
      fifo_written_read_setup_packet]
    simp [fifo_written]

theorem usb_setup_begin_flags_set (s : Sys) :
    flags_set 0 (usb_setup_begin s).2.udp.log
      = flags_set 0 s.udp.log
          ++ (if (usb_setup_begin s).1.bm_request_type &&& USB_BMREQUEST_DIR
                = USB_BMREQUEST_D_TO_H then [AT91C_UDP_DIR] else []) := by
  rw [usb_setup_begin_packet]
  unfold usb_setup_begin
  by_cases hd : (usb_read_setup_packet s.udp).1.bm_request_type &&& USB_BMREQUEST_DIR
      = USB_BMREQUEST_D_TO_H
  · simp only [if_pos hd, usb_csr_clear_flag_log, usb_csr_set_flag_log, flags_set_append,
      flags_set_read_setup_packet]
    simp [flags_set]
  · simp only [if_neg hd, usb_csr_clear_flag_log, flags_set_append,
      flags_set_read_setup_packet]
    simp [flags_set]

theorem usb_send_data_fifo_written (e : Nat) (p : Ptr) (L : Nat) (s : Sys) (f : Nat) :
    fifo_written f (usb_send_data e p L s).udp.log
      = fifo_written f s.udp.log ++ (if 0 = f then p.bytes (packet_size_of e L) else []) := by
  rw [usb_send_data_log]
  simp only [fifo_written_append, fifo_written_map_fdr_write]
  simp [fifo_written]

theorem usb_send_data_flags_set (e : Nat) (p : Ptr) (L : Nat) (s : Sys) (f : Nat) :
    flags_set f (usb_send_data e p L s).udp.log
      = flags_set f s.udp.log ++ (if e = f then [AT91C_UDP_TXPKTRDY] else []) := by
  rw [usb_send_data_log]
  simp only [flags_set_append, flags_set_map_fdr_write, List.append_nil, List.append_assoc]
  by_cases h : e = f <;> simp [flags_set, h]

theorem usb_send_stall_log (s : Sys) :
    (usb_send_stall s).udp.log = s.udp.log ++ [Event.csr_set 0 AT91C_UDP_FORCESTALL] := by
  simp [usb_send_stall, usb_csr_set_flag]

theorem usb_setup_dispatch_config_long (pk : usb_setup_packet_t) (s : Sys)
    (hreq : pk.b_request = USB_BREQUEST_GET_DESCRIPTOR)
    (htype : (pk.w_value &&& USB_WVALUE_TYPE) >>> 8 = USB_DESC_TYPE_CONFIG)
    (hlen : usb_nxtos_full_config_w_total_length < pk.w_length) :
    usb_setup_dispatch pk s
      = some (usb_send_null (usb_send_data 0 ⟨usb_nxtos_full_config, 0⟩
          usb_nxtos_full_config_w_total_length s)) := by
  have hmin : MIN usb_nxtos_full_config_w_total_length pk.w_length
      = usb_nxtos_full_config_w_total_length := by
    simp [MIN, hlen]
  simp only [usb_setup_dispatch, hreq, usb_get_descriptor, htype, hmin, if_pos hlen]
  simp [USB_BREQUEST_GET_DESCRIPTOR, USB_BREQUEST_GET_STATUS, USB_BREQUEST_CLEAR_FEATURE,
    USB_BREQUEST_SET_FEATURE, USB_BREQUEST_SET_ADDRESS, USB_DESC_TYPE_CONFIG,
    USB_DESC_TYPE_DEVICE]

theorem usb_setup_dispatch_unknown_descriptor (pk : usb_setup_packet_t) (s : Sys)
    (hreq : pk.b_request = USB_BREQUEST_GET_DESCRIPTOR)
    (hdev : (pk.w_value &&& USB_WVALUE_TYPE) >>> 8 ≠ USB_DESC_TYPE_DEVICE)
    (hcfg : (pk.w_value &&& USB_WVALUE_TYPE) >>> 8 ≠ USB_DESC_TYPE_CONFIG)
    (hstr : (pk.w_value &&& USB_WVALUE_TYPE) >>> 8 ≠ USB_DESC_TYPE_STR) :
    usb_setup_dispatch pk s = some (usb_send_stall s) := by
  simp only [usb_setup_dispatch, hreq, usb_get_descriptor, if_neg hdev, if_neg hcfg, if_neg hstr]
  simp [USB_BREQUEST_GET_DESCRIPTOR, USB_BREQUEST_GET_STATUS, USB_BREQUEST_CLEAR_FEATURE,
    USB_BREQUEST_SET_FEATURE, USB_BREQUEST_SET_ADDRESS]

theorem usb_setup_dispatch_set_config (pk : usb_setup_packet_t) (s : Sys)
    (hreq : pk.b_request = USB_BREQUEST_SET_CONFIG) :
    usb_setup_dispatch pk s
      = some
          { usb_send_null
              { s with usb_state := { s.usb_state with current_config := pk.w_value % 256 } } with
            udp := (usb_send_null
              { s with usb_state := { s.usb_state with current_config := pk.w_value % 256 } }
                ).udp.write_glbstate
              (if pk.w_value > 0 then AT91C_UDP_CONFG ||| AT91C_UDP_FADDEN
                else AT91C_UDP_FADDEN) } := by
  simp only [usb_setup_dispatch, hreq]
  simp [USB_BREQUEST_SET_CONFIG, USB_BREQUEST_GET_DESCRIPTOR, USB_BREQUEST_GET_STATUS,
    USB_BREQUEST_CLEAR_FEATURE, USB_BREQUEST_SET_FEATURE, USB_BREQUEST_SET_ADDRESS,
    USB_BREQUEST_GET_CONFIG]

/-! ## C4: GET_DESCRIPTOR(CONFIGURATION) with a long wLength -/

/-- C4, as the code behaves: for every GET_DESCRIPTOR SETUP packet of type CONFIGURATION
whose wLength exceeds the total length of the bundle, `usb_manage_setup_packet` returns
with `ds_length[0] == 0` and `ds_data[0] == NULL`: it has put the first 8 bytes of the
bundle into the FIFO, set TXPKTRDY, and then set TXPKTRDY a second time for the
zero-length packet, whose call overwrote the cursor of the unsent remainder. -/
theorem get_config_descriptor_drops_remainder (s : Sys)
    (hreq : (usb_setup_begin s).1.b_request = USB_BREQUEST_GET_DESCRIPTOR)
    (htype : ((usb_setup_begin s).1.w_value &&& USB_WVALUE_TYPE) >>> 8 = USB_DESC_TYPE_CONFIG)
    (hlen : usb_nxtos_full_config_w_total_length < (usb_setup_begin s).1.w_length) :
    ∃ t, usb_manage_setup_packet s = some t
      ∧ t.usb_state.ds_length 0 = 0
      ∧ t.usb_state.ds_data 0 = NULL
      ∧ fifo_written 0 t.udp.log = fifo_written 0 s.udp.log ++ usb_nxtos_full_config.take 8
      ∧ flags_set 0 t.udp.log
          = flags_set 0 (usb_setup_begin s).2.udp.log
              ++ [AT91C_UDP_TXPKTRDY, AT91C_UDP_TXPKTRDY] := by
  refine ⟨_, usb_setup_dispatch_config_long _ _ hreq htype hlen, ?_, ?_, ?_, ?_⟩
  · simp [usb_send_null, usb_send_data_usb_state, upd, packet_size_of, MIN]
  · simp [usb_send_null, usb_send_data_usb_state, upd, packet_size_of, MIN, NULL, Ptr.add]
  · have hp : packet_size_of 0 usb_nxtos_full_config_w_total_length = 8 := by decide
    have hb : Ptr.bytes ⟨usb_nxtos_full_config, 0⟩ 8 = usb_nxtos_full_config.take 8 := by
      decide
    have hz : packet_size_of 0 0 = 0 := by decide
    have hn : Ptr.bytes NULL 0 = [] := rfl
    simp [usb_send_null, usb_send_data_fifo_written, usb_setup_begin_fifo_written, hp, hb, hz,
      hn]
  · simp [usb_send_null, usb_send_data_flags_set]

/-- C4 at wLength = 255: the hypotheses hold, and the four TXCOMP interrupts that follow
the SETUP interrupt put no further byte into the FIFO, so that 8 of the 32 bytes are all
the host ever receives. -/
theorem get_config_descriptor_drops_remainder_witness :
    ((usb_setup_begin sys_get_config_255).1.b_request = USB_BREQUEST_GET_DESCRIPTOR
      ∧ ((usb_setup_begin sys_get_config_255).1.w_value &&& USB_WVALUE_TYPE) >>> 8
          = USB_DESC_TYPE_CONFIG
      ∧ usb_nxtos_full_config_w_total_length < (usb_setup_begin sys_get_config_255).1.w_length)
    ∧ (∃ t, usb_manage_setup_packet sys_get_config_255 = some t
      ∧ t.usb_state.ds_length 0 = 0
      ∧ t.usb_state.ds_data 0 = NULL
      ∧ fifo_written 0 t.udp.log
          = fifo_written 0 sys_get_config_255.udp.log ++ usb_nxtos_full_config.take 8
      ∧ flags_set 0 t.udp.log
          = flags_set 0 (usb_setup_begin sys_get_config_255).2.udp.log
              ++ [AT91C_UDP_TXPKTRDY, AT91C_UDP_TXPKTRDY])
    ∧ ((usb_isr sys_get_config_255).bind (txcomp_rounds 0 4)).map
          (fun t => fifo_written 0 t.udp.log)
        = some [9, 2, 32, 0, 1, 1, 0, 0xC0] :=
  ⟨by decide,
    get_config_descriptor_drops_remainder sys_get_config_255 (by decide) (by decide) (by decide),
    by rfl⟩

/-! ## C7: GET_DESCRIPTOR requests that are stalled -/

/-- C7, refuted: GET_DESCRIPTOR for (DEVICE, index 1) is not stalled. The device
descriptor is served: its first 8 bytes are put into the FIFO, TXPKTRDY is set, 10 bytes
remain to be sent, and FORCESTALL is never set. -/
theorem get_descriptor_device_index1_served :
    ((usb_setup_begin sys_get_device_index1).1.b_request = USB_BREQUEST_GET_DESCRIPTOR
      ∧ (usb_setup_begin sys_get_device_index1).1.w_value
          = (USB_DESC_TYPE_DEVICE <<< 8) ||| 1)
    ∧ (usb_manage_setup_packet sys_get_device_index1).map
          (fun t => (flags_set 0 t.udp.log, fifo_written 0 t.udp.log, t.usb_state.ds_length 0))
        = some ([AT91C_UDP_DIR, AT91C_UDP_TXPKTRDY], [18, 1, 0, 2, 2, 0, 0, 8], 10) := by
  constructor
  · decide
  · rfl

/-- C7, amended: for every GET_DESCRIPTOR SETUP packet whose descriptor type (wValue high
byte) is not DEVICE, CONFIGURATION or STRING, `usb_manage_setup_packet` stalls: after the
packet is decoded its only register access is `usb_csr_set_flag(0, AT91C_UDP_FORCESTALL)`,
so TXPKTRDY is not set, no byte is written to any FIFO, FORCESTALL reads back set, and the
send cursors are untouched (no descriptor is looked up). -/
theorem get_descriptor_unknown_type_stalls (s : Sys)
    (hreq : (usb_setup_begin s).1.b_request = USB_BREQUEST_GET_DESCRIPTOR)
    (hdev : ((usb_setup_begin s).1.w_value &&& USB_WVALUE_TYPE) >>> 8 ≠ USB_DESC_TYPE_DEVICE)
    (hcfg : ((usb_setup_begin s).1.w_value &&& USB_WVALUE_TYPE) >>> 8 ≠ USB_DESC_TYPE_CONFIG)
    (hstr : ((usb_setup_begin s).1.w_value &&& USB_WVALUE_TYPE) >>> 8 ≠ USB_DESC_TYPE_STR) :
    ∃ t, usb_manage_setup_packet s = some t
      ∧ t.udp.log = (usb_setup_begin s).2.udp.log ++ [Event.csr_set 0 AT91C_UDP_FORCESTALL]
      ∧ flags_set 0 t.udp.log
          = flags_set 0 s.udp.log
              ++ (if (usb_setup_begin s).1.bm_request_type &&& USB_BMREQUEST_DIR
                    = USB_BMREQUEST_D_TO_H then [AT91C_UDP_DIR] else [])
              ++ [AT91C_UDP_FORCESTALL]
      ∧ (∀ f, fifo_written f t.udp.log = fifo_written f s.udp.log)
      ∧ t.udp.csr 0 &&& AT91C_UDP_FORCESTALL = AT91C_UDP_FORCESTALL
      ∧ t.usb_state.ds_data = s.usb_state.ds_data
      ∧ t.usb_state.ds_length = s.usb_state.ds_length := by
  refine ⟨_, usb_setup_dispatch_unknown_descriptor _ _ hreq hdev hcfg hstr,
    usb_send_stall_log _, ?_, ?_, ?_, ?_, ?_⟩
  · rw [usb_send_stall_log, flags_set_append, usb_setup_begin_flags_set]
    simp [flags_set]
  · intro f
    rw [usb_send_stall_log, fifo_written_append, usb_setup_begin_fifo_written]
    simp [fifo_written]
  · exact usb_csr_set_flag_sync 0 AT91C_UDP_FORCESTALL _
  · simp [usb_send_stall, usb_setup_begin_usb_state]
  · simp [usb_send_stall, usb_setup_begin_usb_state]

/-- C7, amended, at GET_DESCRIPTOR for descriptor type 4 (interface). -/
theorem get_descriptor_unknown_type_stalls_witness :
    ((usb_setup_begin sys_get_interface_desc).1.b_request = USB_BREQUEST_GET_DESCRIPTOR
      ∧ ((usb_setup_begin sys_get_interface_desc).1.w_value &&& USB_WVALUE_TYPE) >>> 8
          ≠ USB_DESC_TYPE_DEVICE
      ∧ ((usb_setup_begin sys_get_interface_desc).1.w_value &&& USB_WVALUE_TYPE) >>> 8
          ≠ USB_DESC_TYPE_CONFIG
      ∧ ((usb_setup_begin sys_get_interface_desc).1.w_value &&& USB_WVALUE_TYPE) >>> 8
          ≠ USB_DESC_TYPE_STR)
    ∧ ∃ t, usb_manage_setup_packet sys_get_interface_desc = some t
      ∧ t.udp.log = (usb_setup_begin sys_get_interface_desc).2.udp.log
          ++ [Event.csr_set 0 AT91C_UDP_FORCESTALL]
      ∧ flags_set 0 t.udp.log
          = flags_set 0 sys_get_interface_desc.udp.log
              ++ (if (usb_setup_begin sys_get_interface_desc).1.bm_request_type
                    &&& USB_BMREQUEST_DIR = USB_BMREQUEST_D_TO_H then [AT91C_UDP_DIR] else [])
              ++ [AT91C_UDP_FORCESTALL]
      ∧ (∀ f, fifo_written f t.udp.log = fifo_written f sys_get_interface_desc.udp.log)
      ∧ t.udp.csr 0 &&& AT91C_UDP_FORCESTALL = AT91C_UDP_FORCESTALL
      ∧ t.usb_state.ds_data = sys_get_interface_desc.usb_state.ds_data
      ∧ t.usb_state.ds_length = sys_get_interface_desc.usb_state.ds_length :=
  ⟨by decide,
    get_descriptor_unknown_type_stalls sys_get_interface_desc (by decide) (by decide)
      (by decide) (by decide)⟩

/-! ## C8: the values `current_config` takes -/

/-- C8, as the code behaves: SET_CONFIGURATION stores the low byte of wValue in
`current_config` without looking at it; whenever that byte is 2 or more,
`usb_manage_setup_packet` returns with `current_config` neither 0 nor 1. -/
theorem set_config_leaves_range (s : Sys)
    (hreq : (usb_setup_begin s).1.b_request = USB_BREQUEST_SET_CONFIG)
    (hval : 2 ≤ (usb_setup_begin s).1.w_value % 256) :
    ∃ t, usb_manage_setup_packet s = some t
      ∧ t.usb_state.current_config = (usb_setup_begin s).1.w_value % 256
      ∧ t.usb_state.current_config ≠ 0
      ∧ t.usb_state.current_config ≠ 1 := by
  have hcc : ∀ t, usb_manage_setup_packet s = some t →
      t.usb_state.current_config = (usb_setup_begin s).1.w_value % 256 := by
    intro t ht
    have h := (usb_setup_dispatch_set_config _ (usb_setup_begin s).2 hreq).symm.trans ht
    rw [Option.some.injEq] at h
    rw [← h]
    simp [usb_send_null, usb_send_data_usb_state]
  refine ⟨_, usb_setup_dispatch_set_config _ _ hreq, ?_⟩
  have h1 := hcc _ (usb_setup_dispatch_set_config _ _ hreq)
  refine ⟨h1, ?_, ?_⟩ <;> omega

/-- C8 at SET_CONFIGURATION with wValue = 2, taken through `usb_isr` as well:
`current_config` becomes 2. -/
theorem set_config_leaves_range_witness :
    ((usb_setup_begin sys_set_config_2).1.b_request = USB_BREQUEST_SET_CONFIG
      ∧ 2 ≤ (usb_setup_begin sys_set_config_2).1.w_value % 256)
    ∧ (∃ t, usb_manage_setup_packet sys_set_config_2 = some t
      ∧ t.usb_state.current_config = (usb_setup_begin sys_set_config_2).1.w_value % 256
      ∧ t.usb_state.current_config ≠ 0
      ∧ t.usb_state.current_config ≠ 1)
    ∧ (usb_isr sys_set_config_2).map (fun t => t.usb_state.current_config) = some 2 :=
  ⟨by decide, set_config_leaves_range sys_set_config_2 (by decide) (by decide), by rfl⟩

/-! ## Bit masks -/

theorem or_and_self (x m : Nat) : (x ||| m) &&& m = m := by
  apply Nat.eq_of_testBit_eq
  intro i
  simp only [Nat.testBit_and, Nat.testBit_or]
  cases x.testBit i <;> cases m.testBit i <;> rfl

theorem and_and_keep (x m k : Nat) (h : m &&& k = k) : (x &&& m) &&& k = x &&& k := by
  rw [Nat.and_assoc, h]

theorem and_and_zero (x m k : Nat) (h : x &&& k = 0) : (x &&& m) &&& k = 0 := by
  rw [Nat.and_assoc, Nat.and_comm m k, ← Nat.and_assoc, h, Nat.zero_and]

theorem or_and_zero (x m k : Nat) (h : x &&& k = 0) (hm : m &&& k = 0) :
    (x ||| m) &&& k = 0 := by
  rw [Nat.and_comm, Nat.and_or_distrib_left, Nat.and_comm k x, Nat.and_comm k m, h, hm]
  rfl

/-! ## C11: the send cursor after `usb_send_data` -/

theorem packet_size_of_eq_maxpkt (e L : Nat) : packet_size_of e L = min L (maxpkt e) := by
  rw [packet_size_of_eq]
  cases e <;> simp [maxpkt]

theorem usb_send_data_txpktrdy (e : Nat) (p : Ptr) (L : Nat) (s : Sys) :
    (usb_send_data e p L s).udp.csr e &&& AT91C_UDP_TXPKTRDY = AT91C_UDP_TXPKTRDY := by
  rw [usb_send_data_csr]
  by_cases h0 : e = 0
  · subst h0
    simp only [upd, if_true]
    rw [and_and_keep _ _ _ (by decide)]
    exact or_and_self _ _
  · simp only [upd, h0, if_false, if_true]
    exact or_and_self _ _

/-- C11: for every endpoint `e` (0, 1, 2, and 3 as well), pointer `p` and length `L`, after
`usb_send_data(e, p, L)` the cursor is `ds_length[e] == L - min(L, maxpkt(e))` and
`ds_data[e] == p + min(L, maxpkt(e))`, the subtraction does not underflow (the packet is
at most `L` bytes and cursor plus packet give `L` back), `usb_csr_set_flag(e, TXPKTRDY)`
has been called once and TXPKTRDY reads set in CSR[e] on return. -/
theorem usb_send_data_cursor (e : Nat) (p : Ptr) (L : Nat) (s : Sys) :
    (usb_send_data e p L s).usb_state.ds_length e = L - min L (maxpkt e)
      ∧ (usb_send_data e p L s).usb_state.ds_data e = p.add (min L (maxpkt e))
      ∧ min L (maxpkt e) ≤ L
      ∧ (usb_send_data e p L s).usb_state.ds_length e + min L (maxpkt e) = L
      ∧ flags_set e (usb_send_data e p L s).udp.log
          = flags_set e s.udp.log ++ [AT91C_UDP_TXPKTRDY]
      ∧ (usb_send_data e p L s).udp.csr e &&& AT91C_UDP_TXPKTRDY = AT91C_UDP_TXPKTRDY := by
  have hle : min L (maxpkt e) ≤ L := Nat.min_le_left _ _
  refine ⟨?_, ?_, hle, ?_, ?_, usb_send_data_txpktrdy e p L s⟩
  · simp [usb_send_data_usb_state, upd, packet_size_of_eq_maxpkt]
  · simp [usb_send_data_usb_state, upd, packet_size_of_eq_maxpkt]
  · simp only [usb_send_data_usb_state, upd, if_true, packet_size_of_eq_maxpkt]
    omega
  · simp [usb_send_data_flags_set]

/-! ## C14: `usb_flush_buffer` -/

theorem memcpy_of_le (dst src : List Nat) (n : Nat) (hd : n ≤ dst.length)
    (hs : n ≤ src.length) : memcpy dst src n = some (src.take n ++ dst.drop n) := by
  simp [memcpy, hd, hs]

theorem usb_flush_buffer_eq (s : Sys)
    (h0 : s.usb_state.dr_buffer_used 0 ≤ (s.usb_state.dr_buffer 0).length)
    (h1 : s.usb_state.dr_buffer_used 0 ≤ (s.usb_state.dr_buffer 1).length) :
    usb_flush_buffer s
      = some { s with
          usb_state := { s.usb_state with
            dr_overloaded := 0,
            dr_buffer := upd s.usb_state.dr_buffer 1
              ((s.usb_state.dr_buffer 0).take (s.usb_state.dr_buffer_used 0)
                ++ (s.usb_state.dr_buffer 1).drop (s.usb_state.dr_buffer_used 0)),
            dr_buffer_used :=
              upd (upd s.usb_state.dr_buffer_used 1 (s.usb_state.dr_buffer_used 0)) 0 0 } } := by
  have hm := memcpy_of_le (s.usb_state.dr_buffer 1) (s.usb_state.dr_buffer 0)
    (s.usb_state.dr_buffer_used 0) h1 h0
  simp only [usb_flush_buffer, hm]

/-- C14: for every driver state with `n = dr_buffer_used[0]` at most the size of the two
buffers, `usb_flush_buffer` returns with `dr_buffer[1][i]` equal to the old
`dr_buffer[0][i]` for every `i < n`, `dr_buffer_used[1] == n`, `dr_buffer_used[0] == 0` and
`dr_overloaded == 0`; `dr_buffer[0]`, the send cursors, `current_config`,
`current_rx_bank`, `is_suspended` and the peripheral are unchanged. -/
theorem usb_flush_buffer_copies (s : Sys)
    (h0 : s.usb_state.dr_buffer_used 0 ≤ (s.usb_state.dr_buffer 0).length)
    (h1 : s.usb_state.dr_buffer_used 0 ≤ (s.usb_state.dr_buffer 1).length) :
    ∃ t, usb_flush_buffer s = some t
      ∧ (∀ i, i < s.usb_state.dr_buffer_used 0 →
          (t.usb_state.dr_buffer 1)[i]? = (s.usb_state.dr_buffer 0)[i]?)
      ∧ (t.usb_state.dr_buffer 1).length = (s.usb_state.dr_buffer 1).length
      ∧ t.usb_state.dr_buffer_used 1 = s.usb_state.dr_buffer_used 0
      ∧ t.usb_state.dr_buffer_used 0 = 0
      ∧ t.usb_state.dr_overloaded = 0
      ∧ t.usb_state.dr_buffer 0 = s.usb_state.dr_buffer 0
      ∧ t.usb_state.ds_data = s.usb_state.ds_data
      ∧ t.usb_state.ds_length = s.usb_state.ds_length
      ∧ t.usb_state.current_config = s.usb_state.current_config
      ∧ t.usb_state.current_rx_bank = s.usb_state.current_rx_bank
      ∧ t.usb_state.is_suspended = s.usb_state.is_suspended
      ∧ t.udp = s.udp := by
  refine ⟨_, usb_flush_buffer_eq s h0 h1, ?_, ?_, ?_, ?_, rfl, ?_, rfl, rfl, rfl, rfl,
    rfl, rfl⟩
  · intro i hi
    simp only [upd, if_true]
    rw [List.getElem?_append_left (by simp; omega)]
    rw [List.getElem?_take_of_lt hi]
  · simp only [upd, if_true, List.length_append, List.length_take, List.length_drop]
    omega
  · simp [upd]
  · simp [upd]
  · simp [upd]

/-- C14 at `sys_rx_pending`. -/
theorem usb_flush_buffer_copies_witness :
    (sys_rx_pending.usb_state.dr_buffer_used 0 ≤ (sys_rx_pending.usb_state.dr_buffer 0).length
      ∧ sys_rx_pending.usb_state.dr_buffer_used 0
          ≤ (sys_rx_pending.usb_state.dr_buffer 1).length)
    ∧ ∃ t, usb_flush_buffer sys_rx_pending = some t
      ∧ (∀ i, i < sys_rx_pending.usb_state.dr_buffer_used 0 →
          (t.usb_state.dr_buffer 1)[i]? = (sys_rx_pending.usb_state.dr_buffer 0)[i]?)
      ∧ (t.usb_state.dr_buffer 1).length = (sys_rx_pending.usb_state.dr_buffer 1).length
      ∧ t.usb_state.dr_buffer_used 1 = sys_rx_pending.usb_state.dr_buffer_used 0
      ∧ t.usb_state.dr_buffer_used 0 = 0
      ∧ t.usb_state.dr_overloaded = 0
      ∧ t.usb_state.dr_buffer 0 = sys_rx_pending.usb_state.dr_buffer 0
      ∧ t.usb_state.ds_data = sys_rx_pending.usb_state.ds_data
      ∧ t.usb_state.ds_length = sys_rx_pending.usb_state.ds_length
      ∧ t.usb_state.current_config = sys_rx_pending.usb_state.current_config
      ∧ t.usb_state.current_rx_bank = sys_rx_pending.usb_state.current_rx_bank
      ∧ t.usb_state.is_suspended = sys_rx_pending.usb_state.is_suspended
      ∧ t.udp = sys_rx_pending.udp :=
  ⟨by decide, usb_flush_buffer_copies sys_rx_pending (by decide) (by decide)⟩

/-! ## Control transfers: the remaining requests -/

theorem usb_setup_dispatch_get_status (pk : usb_setup_packet_t) (s : Sys)
    (hreq : pk.b_request = USB_BREQUEST_GET_STATUS) :
    usb_setup_dispatch pk s
      = some (usb_send_data 0
          ⟨le16 (if pk.bm_request_type &&& USB_BMREQUEST_RCPT = USB_BMREQUEST_RCPT_DEV
            then 1 else 0), 0⟩ 2 s) := by
  simp only [usb_setup_dispatch, hreq, if_true]
  by_cases h : pk.bm_request_type &&& USB_BMREQUEST_RCPT = USB_BMREQUEST_RCPT_DEV
  · simp [h]
  · simp [h]

theorem usb_setup_dispatch_get_config (pk : usb_setup_packet_t) (s : Sys)
    (hreq : pk.b_request = USB_BREQUEST_GET_CONFIG) :
    usb_setup_dispatch pk s
      = some (usb_send_data 0 ⟨[s.usb_state.current_config], 0⟩ 1 s) := by
  simp only [usb_setup_dispatch, hreq]
  simp [USB_BREQUEST_SET_CONFIG, USB_BREQUEST_GET_DESCRIPTOR, USB_BREQUEST_GET_STATUS,
    USB_BREQUEST_CLEAR_FEATURE, USB_BREQUEST_SET_FEATURE, USB_BREQUEST_SET_ADDRESS,
    USB_BREQUEST_GET_CONFIG]

theorem usb_setup_dispatch_unsupported (pk : usb_setup_packet_t) (s : Sys)
    (h0 : pk.b_request ≠ USB_BREQUEST_GET_STATUS)
    (h1 : pk.b_request ≠ USB_BREQUEST_CLEAR_FEATURE)
    (h3 : pk.b_request ≠ USB_BREQUEST_SET_FEATURE)
    (h5 : pk.b_request ≠ USB_BREQUEST_SET_ADDRESS)
    (h6 : pk.b_request ≠ USB_BREQUEST_GET_DESCRIPTOR)
    (h8 : pk.b_request ≠ USB_BREQUEST_GET_CONFIG)
    (h9 : pk.b_request ≠ USB_BREQUEST_SET_CONFIG) :
    usb_setup_dispatch pk s = some (usb_send_stall s) := by
  simp [usb_setup_dispatch, h0, h1, h3, h5, h6, h8, h9]

theorem usb_setup_dispatch_set_address (pk : usb_setup_packet_t) (s : Sys) (u : Udp)
    (hreq : pk.b_request = USB_BREQUEST_SET_ADDRESS)
    (hw : usb_wait_txcomp (usb_send_null s).udp.engine (usb_send_null s).udp = some u) :
    usb_setup_dispatch pk s
      = some { usb_send_null s with
          udp := ((usb_csr_clear_flag 0 AT91C_UDP_TXCOMP u).write_faddr
              (AT91C_UDP_FEN ||| pk.w_value)).write_glbstate
            (if pk.w_value > 0 then AT91C_UDP_FADDEN else 0) } := by
  simp only [usb_setup_dispatch, hreq, hw]
  simp [USB_BREQUEST_GET_STATUS, USB_BREQUEST_CLEAR_FEATURE, USB_BREQUEST_SET_FEATURE,
    USB_BREQUEST_SET_ADDRESS]

theorem usb_wait_txcomp_returns (eng : List Nat) (u : Udp)
    (h : u.csr 0 &&& AT91C_UDP_TXCOMP ≠ 0 ∨ ∃ v ∈ eng, v &&& AT91C_UDP_TXCOMP ≠ 0) :
    ∃ u1, usb_wait_txcomp eng u = some u1
      ∧ u1.csr 0 &&& AT91C_UDP_TXCOMP ≠ 0
      ∧ u1.log = u.log := by
  induction eng generalizing u with
  | nil =>
      rcases h with h | ⟨v, hv, _⟩
      · exact ⟨{ u with engine := [] }, by simp only [usb_wait_txcomp, if_pos h], h, rfl⟩
      · simp at hv
  | cons v rest ih =>
      by_cases hc : u.csr 0 &&& AT91C_UDP_TXCOMP ≠ 0
      · exact ⟨{ u with engine := v :: rest }, by simp only [usb_wait_txcomp, if_pos hc],
          hc, rfl⟩
      · have hnext : ({ u with csr := upd u.csr 0 v } : Udp).csr 0 &&& AT91C_UDP_TXCOMP ≠ 0
            ∨ ∃ w ∈ rest, w &&& AT91C_UDP_TXCOMP ≠ 0 := by
          rcases h with h | ⟨w, hw, hwt⟩
          · exact absurd h hc
          · rcases List.mem_cons.mp hw with rfl | hw
            · left
              simpa [upd] using hwt
            · exact Or.inr ⟨w, hw, hwt⟩
        obtain ⟨u1, h1, h2, h3⟩ := ih _ hnext
        exact ⟨u1, by simp only [usb_wait_txcomp, if_neg hc, h1], h2, h3⟩

theorem usb_wait_txcomp_never (eng : List Nat) (u : Udp)
    (h0 : u.csr 0 &&& AT91C_UDP_TXCOMP = 0) (h : ∀ v ∈ eng, v &&& AT91C_UDP_TXCOMP = 0) :
    usb_wait_txcomp eng u = none := by
  induction eng generalizing u with
  | nil => simp [usb_wait_txcomp, h0]
  | cons v rest ih =>
      have hv : v &&& AT91C_UDP_TXCOMP = 0 := h v (List.mem_cons_self _ _)
      simp only [usb_wait_txcomp, h0, ne_eq, not_true_eq_false, if_false]
      exact ih _ (by simpa [upd] using hv) (fun w hw => h w (List.mem_cons_of_mem _ hw))

/-! ## C18: GET_STATUS -/

/-- C18: for every GET_STATUS SETUP packet `usb_manage_setup_packet` replies on endpoint 0
with exactly 2 bytes, the 16-bit status low byte first: `01 00` when the recipient
(`bmRequestType & 0x0F`) is DEVICE, `00 00` when it is INTERFACE and `00 00` when it is
ENDPOINT. The reply is one packet (TXPKTRDY set once, nothing left in the cursor), no
stall is requested (FORCESTALL is not among the flags set) and `current_config` is
unchanged. -/
theorem get_status_reply (s : Sys)
    (hreq : (usb_setup_begin s).1.b_request = USB_BREQUEST_GET_STATUS) :
    ∃ t, usb_manage_setup_packet s = some t
      ∧ ((usb_setup_begin s).1.bm_request_type &&& USB_BMREQUEST_RCPT = USB_BMREQUEST_RCPT_DEV
          → fifo_written 0 t.udp.log = fifo_written 0 s.udp.log ++ [0x01, 0x00])
      ∧ ((usb_setup_begin s).1.bm_request_type &&& USB_BMREQUEST_RCPT = USB_BMREQUEST_RCPT_INT
          → fifo_written 0 t.udp.log = fifo_written 0 s.udp.log ++ [0x00, 0x00])
      ∧ ((usb_setup_begin s).1.bm_request_type &&& USB_BMREQUEST_RCPT = USB_BMREQUEST_RCPT_EPT
          → fifo_written 0 t.udp.log = fifo_written 0 s.udp.log ++ [0x00, 0x00])
      ∧ (fifo_written 0 t.udp.log).length = (fifo_written 0 s.udp.log).length + 2
      ∧ flags_set 0 t.udp.log
          = flags_set 0 s.udp.log
              ++ (if (usb_setup_begin s).1.bm_request_type &&& USB_BMREQUEST_DIR
                    = USB_BMREQUEST_D_TO_H then [AT91C_UDP_DIR] else [])
              ++ [AT91C_UDP_TXPKTRDY]
      ∧ t.usb_state.ds_length 0 = 0
      ∧ t.usb_state.current_config = s.usb_state.current_config := by
  have hp : packet_size_of 0 2 = 2 := by decide
  have hb1 : Ptr.bytes ⟨le16 1, 0⟩ 2 = [0x01, 0x00] := by decide
  have hb0 : Ptr.bytes ⟨le16 0, 0⟩ 2 = [0x00, 0x00] := by decide
  refine ⟨_, usb_setup_dispatch_get_status _ _ hreq, ?_, ?_, ?_, ?_, ?_, ?_, ?_⟩
  · intro h
    simp [usb_send_data_fifo_written, usb_setup_begin_fifo_written, hp, h, hb1]
  · intro h
    have hn : ¬ ((usb_setup_begin s).1.bm_request_type &&& USB_BMREQUEST_RCPT
        = USB_BMREQUEST_RCPT_DEV) := by rw [h]; decide
    simp only [usb_send_data_fifo_written, usb_setup_begin_fifo_written, hp, if_neg hn, hb0,
      if_true]
  · intro h
    have hn : ¬ ((usb_setup_begin s).1.bm_request_type &&& USB_BMREQUEST_RCPT
        = USB_BMREQUEST_RCPT_DEV) := by rw [h]; decide
    simp only [usb_send_data_fifo_written, usb_setup_begin_fifo_written, hp, if_neg hn, hb0,
      if_true]
  · by_cases h : (usb_setup_begin s).1.bm_request_type &&& USB_BMREQUEST_RCPT
        = USB_BMREQUEST_RCPT_DEV
    · simp [usb_send_data_fifo_written, usb_setup_begin_fifo_written, hp, h, hb1]
    · simp [usb_send_data_fifo_written, usb_setup_begin_fifo_written, hp, h, hb0]
  · simp [usb_send_data_flags_set, usb_setup_begin_flags_set]
  · simp [usb_send_data_usb_state, upd, hp]
  · simp [usb_send_data_usb_state, usb_setup_begin_usb_state]

/-- C18 at GET_STATUS for the device: the reply is `01 00`. -/
theorem get_status_reply_witness :
    (usb_setup_begin sys_get_status_device).1.b_request = USB_BREQUEST_GET_STATUS
    ∧ (∃ t, usb_manage_setup_packet sys_get_status_device = some t
      ∧ ((usb_setup_begin sys_get_status_device).1.bm_request_type &&& USB_BMREQUEST_RCPT
            = USB_BMREQUEST_RCPT_DEV
          → fifo_written 0 t.udp.log
              = fifo_written 0 sys_get_status_device.udp.log ++ [0x01, 0x00])
      ∧ ((usb_setup_begin sys_get_status_device).1.bm_request_type &&& USB_BMREQUEST_RCPT
            = USB_BMREQUEST_RCPT_INT
          → fifo_written 0 t.udp.log
              = fifo_written 0 sys_get_status_device.udp.log ++ [0x00, 0x00])
      ∧ ((usb_setup_begin sys_get_status_device).1.bm_request_type &&& USB_BMREQUEST_RCPT
            = USB_BMREQUEST_RCPT_EPT
          → fifo_written 0 t.udp.log
              = fifo_written 0 sys_get_status_device.udp.log ++ [0x00, 0x00])
      ∧ (fifo_written 0 t.udp.log).length
          = (fifo_written 0 sys_get_status_device.udp.log).length + 2
      ∧ flags_set 0 t.udp.log
          = flags_set 0 sys_get_status_device.udp.log
              ++ (if (usb_setup_begin sys_get_status_device).1.bm_request_type
                    &&& USB_BMREQUEST_DIR = USB_BMREQUEST_D_TO_H then [AT91C_UDP_DIR] else [])
              ++ [AT91C_UDP_TXPKTRDY]
      ∧ t.usb_state.ds_length 0 = 0
      ∧ t.usb_state.current_config = sys_get_status_device.usb_state.current_config)
    ∧ (usb_isr sys_get_status_device).map (fun t => fifo_written 0 t.udp.log)
        = some [0x01, 0x00] :=
  ⟨by decide, get_status_reply sys_get_status_device (by decide), by rfl⟩

/-! ## C17: SET_CONFIGURATION followed by GET_CONFIGURATION -/

theorem and_ff_eq_mod (v : Nat) : v &&& 0xFF = v % 256 :=
  Nat.and_pow_two_sub_one_eq_mod v 8

theorem usb_manage_setup_packet_set_config (s : Sys)
    (hreq : (usb_setup_begin s).1.b_request = USB_BREQUEST_SET_CONFIG) :
    ∃ t, usb_manage_setup_packet s = some t
      ∧ t.usb_state.current_config = (usb_setup_begin s).1.w_value % 256
      ∧ flags_set 0 t.udp.log
          = flags_set 0 (usb_setup_begin s).2.udp.log ++ [AT91C_UDP_TXPKTRDY]
      ∧ (∀ f, fifo_written f t.udp.log = fifo_written f s.udp.log)
      ∧ t.udp.glbstate
          = (if (usb_setup_begin s).1.w_value > 0 then AT91C_UDP_CONFG ||| AT91C_UDP_FADDEN
              else AT91C_UDP_FADDEN) := by
  have hz : packet_size_of 0 0 = 0 := by decide
  have hn : Ptr.bytes NULL 0 = [] := rfl
  refine ⟨_, usb_setup_dispatch_set_config _ _ hreq, ?_, ?_, ?_, ?_⟩
  · simp [usb_send_null, usb_send_data_usb_state]
  · simp only [usb_send_null, Udp.write_glbstate, flags_set_append, usb_send_data_flags_set]
    simp [flags_set]
  · intro f
    simp only [usb_send_null, Udp.write_glbstate, fifo_written_append,
      usb_send_data_fifo_written, usb_setup_begin_fifo_written, hz, hn]
    simp [fifo_written]
  · simp [Udp.write_glbstate]

theorem usb_manage_setup_packet_get_config (s : Sys)
    (hreq : (usb_setup_begin s).1.b_request = USB_BREQUEST_GET_CONFIG) :
    ∃ t, usb_manage_setup_packet s = some t
      ∧ fifo_written 0 t.udp.log
          = fifo_written 0 s.udp.log ++ [s.usb_state.current_config % 256]
      ∧ flags_set 0 t.udp.log
          = flags_set 0 (usb_setup_begin s).2.udp.log ++ [AT91C_UDP_TXPKTRDY]
      ∧ t.usb_state.ds_length 0 = 0
      ∧ t.usb_state.current_config = s.usb_state.current_config := by
  have hp : packet_size_of 0 1 = 1 := by decide
  refine ⟨_, usb_setup_dispatch_get_config _ _ hreq, ?_, ?_, ?_, ?_⟩
  · rw [usb_send_data_fifo_written, usb_setup_begin_fifo_written, hp]
    simp [Ptr.bytes, Ptr.deref, usb_setup_begin_usb_state]
  · simp [usb_send_data_flags_set]
  · simp [usb_send_data_usb_state, upd, hp]
  · simp [usb_send_data_usb_state, usb_setup_begin_usb_state]

/-- C17: for every SET_CONFIGURATION SETUP packet with value `v = wValue`,
`usb_manage_setup_packet` acknowledges with a zero-length packet on endpoint 0 (TXPKTRDY
set once, no byte written to any FIFO) and leaves `current_config == v & 0xFF`. When it
then handles a GET_CONFIGURATION packet, whatever the peripheral state `u` at that time,
it answers with exactly one byte, equal to that `current_config`, in one packet, and
`current_config` is unchanged. -/
theorem set_config_get_config_round_trip (s : Sys)
    (hreq : (usb_setup_begin s).1.b_request = USB_BREQUEST_SET_CONFIG) :
    ∃ t, usb_manage_setup_packet s = some t
      ∧ t.usb_state.current_config = (usb_setup_begin s).1.w_value &&& 0xFF
      ∧ flags_set 0 t.udp.log
          = flags_set 0 (usb_setup_begin s).2.udp.log ++ [AT91C_UDP_TXPKTRDY]
      ∧ (∀ f, fifo_written f t.udp.log = fifo_written f s.udp.log)
      ∧ ∀ u : Udp,
          (usb_setup_begin { t with udp := u }).1.b_request = USB_BREQUEST_GET_CONFIG →
          ∃ t2, usb_manage_setup_packet { t with udp := u } = some t2
            ∧ fifo_written 0 t2.udp.log = fifo_written 0 u.log ++ [t.usb_state.current_config]
            ∧ flags_set 0 t2.udp.log
                = flags_set 0 (usb_setup_begin { t with udp := u }).2.udp.log
                    ++ [AT91C_UDP_TXPKTRDY]
            ∧ t2.usb_state.ds_length 0 = 0
            ∧ t2.usb_state.current_config = t.usb_state.current_config := by
  obtain ⟨t, ht, hcc, hfl, hfw, _⟩ := usb_manage_setup_packet_set_config s hreq
  refine ⟨t, ht, ?_, hfl, hfw, ?_⟩
  · rw [and_ff_eq_mod]; exact hcc
  · intro u hget
    obtain ⟨t2, ht2, h1, h2, h3, h4⟩ :=
      usb_manage_setup_packet_get_config { t with udp := u } hget
    refine ⟨t2, ht2, ?_, h2, h3, h4⟩
    have hmod : t.usb_state.current_config % 256 = t.usb_state.current_config := by
      rw [hcc]; exact Nat.mod_mod _ _
    rw [h1]
    simp only [hmod]

/-- C17 at SET_CONFIGURATION(1) followed by GET_CONFIGURATION: the answer is the byte
`0x01`. -/
theorem set_config_get_config_round_trip_witness :
    (usb_setup_begin sys_set_config_1).1.b_request = USB_BREQUEST_SET_CONFIG
    ∧ (∃ t, usb_manage_setup_packet sys_set_config_1 = some t
      ∧ t.usb_state.current_config = (usb_setup_begin sys_set_config_1).1.w_value &&& 0xFF
      ∧ flags_set 0 t.udp.log
          = flags_set 0 (usb_setup_begin sys_set_config_1).2.udp.log ++ [AT91C_UDP_TXPKTRDY]
      ∧ (∀ f, fifo_written f t.udp.log = fifo_written f sys_set_config_1.udp.log)
      ∧ ∀ u : Udp,
          (usb_setup_begin { t with udp := u }).1.b_request = USB_BREQUEST_GET_CONFIG →
          ∃ t2, usb_manage_setup_packet { t with udp := u } = some t2
            ∧ fifo_written 0 t2.udp.log = fifo_written 0 u.log ++ [t.usb_state.current_config]
            ∧ flags_set 0 t2.udp.log
                = flags_set 0 (usb_setup_begin { t with udp := u }).2.udp.log
                    ++ [AT91C_UDP_TXPKTRDY]
            ∧ t2.usb_state.ds_length 0 = 0
            ∧ t2.usb_state.current_config = t.usb_state.current_config)
    ∧ ((usb_manage_setup_packet sys_set_config_1).bind
          (fun t => usb_manage_setup_packet { t with udp := udp_get_config })).map
          (fun t2 => (fifo_written 0 t2.udp.log, t2.usb_state.current_config))
        = some ([0x01], 1) :=
  ⟨by decide, set_config_get_config_round_trip sys_set_config_1 (by decide), by rfl⟩

/-! ## C16: SET_ADDRESS -/

theorem usb_send_data_engine (e : Nat) (p : Ptr) (L : Nat) (s : Sys) :
    (usb_send_data e p L s).udp.engine = s.udp.engine := by
  simp [usb_send_data, usb_send_data_loop_eq, usb_csr_set_flag, Udp.write_csr]

theorem read_fdr_engine (u : Udp) (e : Nat) : (u.read_fdr e).2.engine = u.engine := rfl

theorem usb_read_setup_packet_engine (u : Udp) :
    (usb_read_setup_packet u).2.engine = u.engine := by
  simp only [usb_read_setup_packet, read_fdr_engine]

theorem usb_csr_set_flag_engine (e flags : Nat) (u : Udp) :
    (usb_csr_set_flag e flags u).engine = u.engine := rfl

theorem usb_csr_clear_flag_engine (e flags : Nat) (u : Udp) :
    (usb_csr_clear_flag e flags u).engine = u.engine := rfl

theorem usb_setup_begin_engine (s : Sys) : (usb_setup_begin s).2.udp.engine = s.udp.engine := by
  unfold usb_setup_begin
  by_cases hd : (usb_read_setup_packet s.udp).1.bm_request_type &&& USB_BMREQUEST_DIR
      = USB_BMREQUEST_D_TO_H
  · simp only [if_pos hd, usb_csr_clear_flag_engine, usb_csr_set_flag_engine,
      usb_read_setup_packet_engine]
  · simp only [if_neg hd, usb_csr_clear_flag_engine, usb_read_setup_packet_engine]

/-- C16: for every SET_ADDRESS SETUP packet with value `a = wValue`, provided the USB
engine at some poll shows TXCOMP in CSR[0], `usb_manage_setup_packet` returns, and after
decoding the packet its register accesses are, in this order: TXPKTRDY set on endpoint 0
(with no byte written to any FIFO, a zero-length packet), the plain store to CSR[0] that
ends `usb_send_data`, then, once the wait loop has read TXCOMP as set, TXCOMP cleared,
`FADDR = FEN | a`, and `GLBSTATE = FADDEN` if `a != 0`, else `GLBSTATE = 0`. -/
theorem set_address_sequence (s : Sys)
    (hreq : (usb_setup_begin s).1.b_request = USB_BREQUEST_SET_ADDRESS)
    (htx : ∃ v ∈ s.udp.engine, v &&& AT91C_UDP_TXCOMP ≠ 0) :
    ∃ t w u1, usb_manage_setup_packet s = some t
      ∧ usb_wait_txcomp s.udp.engine (usb_send_null (usb_setup_begin s).2).udp = some u1
      ∧ u1.csr 0 &&& AT91C_UDP_TXCOMP ≠ 0
      ∧ t.udp.log = (usb_setup_begin s).2.udp.log
          ++ [Event.csr_set 0 AT91C_UDP_TXPKTRDY, Event.csr_write 0 w,
              Event.csr_clear 0 AT91C_UDP_TXCOMP,
              Event.faddr (AT91C_UDP_FEN ||| (usb_setup_begin s).1.w_value),
              Event.glbstate
                (if (usb_setup_begin s).1.w_value ≠ 0 then AT91C_UDP_FADDEN else 0)]
      ∧ (∀ f, fifo_written f t.udp.log = fifo_written f s.udp.log)
      ∧ t.udp.csr 0 &&& AT91C_UDP_TXCOMP = 0
      ∧ t.udp.faddr = AT91C_UDP_FEN ||| (usb_setup_begin s).1.w_value
      ∧ t.udp.glbstate
          = (if (usb_setup_begin s).1.w_value ≠ 0 then AT91C_UDP_FADDEN else 0) := by
  have heng : (usb_send_null (usb_setup_begin s).2).udp.engine = s.udp.engine := by
    rw [usb_send_null, usb_send_data_engine, usb_setup_begin_engine]
  obtain ⟨u1, hw, hset, hlog⟩ :=
    usb_wait_txcomp_returns s.udp.engine (usb_send_null (usb_setup_begin s).2).udp (Or.inr htx)
  have hw1 : usb_wait_txcomp (usb_send_null (usb_setup_begin s).2).udp.engine
      (usb_send_null (usb_setup_begin s).2).udp = some u1 := by rw [heng]; exact hw
  have hz : packet_size_of 0 0 = 0 := by decide
  have hn : Ptr.bytes NULL 0 = [] := rfl
  have hg : (if (usb_setup_begin s).1.w_value > 0 then AT91C_UDP_FADDEN else 0)
      = (if (usb_setup_begin s).1.w_value ≠ 0 then AT91C_UDP_FADDEN else 0) := by
    by_cases h : (usb_setup_begin s).1.w_value = 0
    · simp [h]
    · simp [h, Nat.pos_of_ne_zero h]
  have hsl : (usb_send_null (usb_setup_begin s).2).udp.log
      = (usb_setup_begin s).2.udp.log
          ++ [Event.csr_set 0 AT91C_UDP_TXPKTRDY,
              Event.csr_write 0
                ((upd (usb_setup_begin s).2.udp.csr 0
                    ((usb_setup_begin s).2.udp.csr 0 ||| AT91C_UDP_TXPKTRDY)) 0
                  &&& not32 AT91C_UDP_RX_DATA_BK0)] := by
    rw [usb_send_null, usb_send_data_log, hz, hn]
    simp
  refine ⟨_, (upd (usb_setup_begin s).2.udp.csr 0
      ((usb_setup_begin s).2.udp.csr 0 ||| AT91C_UDP_TXPKTRDY)) 0
        &&& not32 AT91C_UDP_RX_DATA_BK0, u1,
    usb_setup_dispatch_set_address _ _ u1 hreq hw1, hw, hset, ?_, ?_, ?_, ?_, ?_⟩
  · simp only [Udp.write_glbstate, Udp.write_faddr, usb_csr_clear_flag_log, hlog, hsl, hg]
    simp
  · intro f
    simp only [Udp.write_glbstate, Udp.write_faddr, usb_csr_clear_flag_log, hlog, hsl,
      fifo_written_append, usb_setup_begin_fifo_written]
    simp [fifo_written]
  · exact usb_csr_clear_flag_sync 0 AT91C_UDP_TXCOMP u1 (by decide)
  · simp [Udp.write_glbstate, Udp.write_faddr]
  · simp only [Udp.write_glbstate, hg]

/-- C16 at SET_ADDRESS(7): a zero-length packet, then `FADDR = FEN | 7`, then
`GLBSTATE = FADDEN`. -/
theorem set_address_sequence_witness :
    ((usb_setup_begin sys_set_address_7).1.b_request = USB_BREQUEST_SET_ADDRESS
      ∧ ∃ v ∈ sys_set_address_7.udp.engine, v &&& AT91C_UDP_TXCOMP ≠ 0)
    ∧ (∃ t w u1, usb_manage_setup_packet sys_set_address_7 = some t
      ∧ usb_wait_txcomp sys_set_address_7.udp.engine
          (usb_send_null (usb_setup_begin sys_set_address_7).2).udp = some u1
      ∧ u1.csr 0 &&& AT91C_UDP_TXCOMP ≠ 0
      ∧ t.udp.log = (usb_setup_begin sys_set_address_7).2.udp.log
          ++ [Event.csr_set 0 AT91C_UDP_TXPKTRDY, Event.csr_write 0 w,
              Event.csr_clear 0 AT91C_UDP_TXCOMP,
              Event.faddr (AT91C_UDP_FEN ||| (usb_setup_begin sys_set_address_7).1.w_value),
              Event.glbstate
                (if (usb_setup_begin sys_set_address_7).1.w_value ≠ 0 then AT91C_UDP_FADDEN
                  else 0)]
      ∧ (∀ f, fifo_written f t.udp.log = fifo_written f sys_set_address_7.udp.log)
      ∧ t.udp.csr 0 &&& AT91C_UDP_TXCOMP = 0
      ∧ t.udp.faddr = AT91C_UDP_FEN ||| (usb_setup_begin sys_set_address_7).1.w_value
      ∧ t.udp.glbstate
          = (if (usb_setup_begin sys_set_address_7).1.w_value ≠ 0 then AT91C_UDP_FADDEN
              else 0))
    ∧ (usb_isr sys_set_address_7).map (fun t => (t.udp.faddr, t.udp.glbstate))
        = some (AT91C_UDP_FEN ||| 7, AT91C_UDP_FADDEN) :=
  ⟨⟨by decide, AT91C_UDP_TXCOMP, by decide, by decide⟩,
    set_address_sequence sys_set_address_7 (by decide)
      ⟨AT91C_UDP_TXCOMP, by decide, by decide⟩,
    by rfl⟩

/-! ## The receive path -/

theorem take_set_succ (l : List Nat) (i x : Nat) (h : i < l.length) :
    (l.set i x).take (i + 1) = l.take i ++ [x] := by
  induction l generalizing i with
  | nil => simp at h
  | cons a l ih =>
      cases i with
      | zero => simp
      | succ i =>
          simp only [List.set_cons_succ, List.take_succ_cons, List.cons_append]
          rw [ih i (by simpa using h)]

theorem fifo_take_append (pkt rest : List Nat) : fifo_take (pkt ++ rest) pkt.length = pkt := by
  induction pkt with
  | nil => rfl
  | cons b pkt ih => simp [fifo_take, ih]

theorem fifo_take_length (l : List Nat) (n : Nat) : (fifo_take l n).length = n := by
  induction n generalizing l with
  | zero => rfl
  | succ n ih => simp [fifo_take, ih]

theorem usb_read_data_loop_eq (buf n i : Nat) (s : Sys)
    (hfit : i + n ≤ (s.usb_state.dr_buffer buf).length) :
    usb_read_data_loop buf n i s
      = some { s with
          udp := { s.udp with
            fdr := upd s.udp.fdr 1 ((s.udp.fdr 1).drop n),
            log := s.udp.log ++ (fifo_take (s.udp.fdr 1) n).map (Event.fdr_read 1) },
          usb_state := { s.usb_state with
            dr_buffer := upd s.usb_state.dr_buffer buf
              ((s.usb_state.dr_buffer buf).take i
                ++ (fifo_take (s.udp.fdr 1) n).map (fun b => b % 256)
                ++ (s.usb_state.dr_buffer buf).drop (i + n)) } } := by
  induction n generalizing i s with
  | zero =>
      simp only [usb_read_data_loop, fifo_take, List.drop_zero, List.map_nil, List.append_nil,
        Nat.add_zero, List.take_append_drop]
      have h1 : upd s.udp.fdr 1 (s.udp.fdr 1) = s.udp.fdr := by
        funext j; by_cases hj : j = 1 <;> simp [upd, hj]
      have h2 : upd s.usb_state.dr_buffer buf (s.usb_state.dr_buffer buf)
          = s.usb_state.dr_buffer := by
        funext j; by_cases hj : j = buf <;> simp [upd, hj]
      rw [h1, h2]
  | succ n ih =>
      have hi : i < (s.usb_state.dr_buffer buf).length := by omega
      simp only [usb_read_data_loop, if_pos hi]
      have ht : ∀ x, ((s.usb_state.dr_buffer buf).set i x).take (i + 1)
          = (s.usb_state.dr_buffer buf).take i ++ [x] := fun x => take_set_succ _ _ _ hi
      have hd : ∀ x, ((s.usb_state.dr_buffer buf).set i x).drop (i + 1 + n)
          = (s.usb_state.dr_buffer buf).drop (i + (n + 1)) := by
        intro x
        rw [List.drop_set_of_lt _ _ (by omega)]
        congr 1
        omega
      rw [ih]
      · simp only [Udp.read_fdr, upd_same, upd_upd, fifo_take, List.map_cons, List.drop_tail,
          ht, hd, List.append_assoc, List.singleton_append, List.headD_eq_head?_getD]
      · simp only [upd_same, List.length_set]
        omega

theorem usb_read_data_one (s : Sys)
    (hfit : rx_total s.udp ≤ (s.usb_state.dr_buffer (rx_buf s.usb_state)).length) :
    ∃ t, usb_read_data 1 s = some t
      ∧ t.usb_state.dr_buffer (rx_buf s.usb_state)
          = (fifo_take (s.udp.fdr 1) (rx_total s.udp)).map (fun b => b % 256)
              ++ (s.usb_state.dr_buffer (rx_buf s.usb_state)).drop (rx_total s.udp)
      ∧ (∀ b, b ≠ rx_buf s.usb_state → t.usb_state.dr_buffer b = s.usb_state.dr_buffer b)
      ∧ t.usb_state.dr_buffer_used (rx_buf s.usb_state) = rx_total s.udp
      ∧ (∀ b, b ≠ rx_buf s.usb_state →
          t.usb_state.dr_buffer_used b = s.usb_state.dr_buffer_used b)
      ∧ t.usb_state.dr_overloaded
          = (if s.usb_state.dr_buffer_used 1 ≠ 0 ∧ s.usb_state.dr_buffer_used 0 > 0 then 1
              else s.usb_state.dr_overloaded)
      ∧ t.usb_state.current_rx_bank
          = (if s.usb_state.current_rx_bank = AT91C_UDP_RX_DATA_BK0 then AT91C_UDP_RX_DATA_BK1
              else AT91C_UDP_RX_DATA_BK0)
      ∧ t.udp.csr = upd s.udp.csr 1 (s.udp.csr 1 &&& not32 s.usb_state.current_rx_bank)
      ∧ t.udp.log = s.udp.log
          ++ (fifo_take (s.udp.fdr 1) (rx_total s.udp)).map (Event.fdr_read 1)
          ++ [Event.csr_write 1 (s.udp.csr 1 &&& not32 s.usb_state.current_rx_bank)]
      ∧ t.udp.fdr = upd s.udp.fdr 1 ((s.udp.fdr 1).drop (rx_total s.udp))
      ∧ t.usb_state.ds_data = s.usb_state.ds_data
      ∧ t.usb_state.ds_length = s.usb_state.ds_length
      ∧ t.usb_state.current_config = s.usb_state.current_config
      ∧ t.usb_state.is_suspended = s.usb_state.is_suspended := by
  have hrx : (s.udp.csr 1 &&& AT91C_UDP_RXBYTECNT) >>> 16 = rx_total s.udp := rfl
  by_cases h1 : s.usb_state.dr_buffer_used 1 = 0
  · have hb : rx_buf s.usb_state = 1 := by simp [rx_buf, h1]
    rw [hb] at hfit ⊢
    have hloop := usb_read_data_loop_eq 1 (rx_total s.udp) 0
      { s with usb_state := { s.usb_state with
          dr_buffer_used := upd s.usb_state.dr_buffer_used 1 (rx_total s.udp) } }
      (by simpa using hfit)
    simp only [usb_read_data, if_true, h1, hrx]
    rw [hloop]
    refine ⟨_, rfl, ?_⟩
    simp [upd, Udp.write_csr]
    exact ⟨fun b hn hb => absurd hb hn, fun b hn hb => absurd hb hn⟩
  · have hb : rx_buf s.usb_state = 0 := by simp [rx_buf, h1]
    rw [hb] at hfit ⊢
    by_cases h0 : s.usb_state.dr_buffer_used 0 > 0
    · have hloop := usb_read_data_loop_eq 0 (rx_total s.udp) 0
        { s with usb_state := { s.usb_state with
            dr_overloaded := 1,
            dr_buffer_used := upd s.usb_state.dr_buffer_used 0 (rx_total s.udp) } }
        (by simpa using hfit)
      simp only [usb_read_data, if_true, if_neg h1, if_pos h0, hrx]
      rw [hloop]
      refine ⟨_, rfl, ?_⟩
      simp [upd, Udp.write_csr, h1, h0]
      exact ⟨fun b hn hb => absurd hb hn, fun b hn hb => absurd hb hn⟩
    · have hloop := usb_read_data_loop_eq 0 (rx_total s.udp) 0
        { s with usb_state := { s.usb_state with
            dr_buffer_used := upd s.usb_state.dr_buffer_used 0 (rx_total s.udp) } }
        (by simpa using hfit)
      simp only [usb_read_data, if_true, if_neg h1, if_neg h0, hrx]
      rw [hloop]
      refine ⟨_, rfl, ?_⟩
      simp [upd, Udp.write_csr, h1, h0]
      exact ⟨fun b hn hb => absurd hb hn, fun b hn hb => absurd hb hn⟩

/-! ## C20: the bank toggle of `usb_read_data` -/

theorem and_and_of_zero (c m k : Nat) (h : m &&& k = 0) : (c &&& m) &&& k = 0 := by
  rw [Nat.and_assoc, h, Nat.and_zero]

/-- The bank toggle from a bank bit: for every driver state whose pending packet fits the
receive buffer, `usb_read_data(1)` returns; if `current_rx_bank` was `AT91C_UDP_RX_DATA_BK0` it becomes
`AT91C_UDP_RX_DATA_BK1`, and if it was `AT91C_UDP_RX_DATA_BK1` it becomes
`AT91C_UDP_RX_DATA_BK0`; CSR[1] is left as `CSR[1] & ~current_rx_bank` with the bank that
was current before the call, so that this bank bit reads clear when the bank was one of
the two bank bits, and no other CSR is touched; a second call, whatever the peripheral
state `u2` then, restores the bank the first call started from when that was one of the
two bank bits. -/
theorem usb_read_data_toggles_bank (s : Sys)
    (hfit : rx_total s.udp ≤ (s.usb_state.dr_buffer (rx_buf s.usb_state)).length) :
    ∃ t, usb_read_data 1 s = some t
      ∧ (s.usb_state.current_rx_bank = AT91C_UDP_RX_DATA_BK0
          → t.usb_state.current_rx_bank = AT91C_UDP_RX_DATA_BK1)
      ∧ (s.usb_state.current_rx_bank = AT91C_UDP_RX_DATA_BK1
          → t.usb_state.current_rx_bank = AT91C_UDP_RX_DATA_BK0)
      ∧ t.udp.csr 1 = s.udp.csr 1 &&& not32 s.usb_state.current_rx_bank
      ∧ (s.usb_state.current_rx_bank = AT91C_UDP_RX_DATA_BK0
            ∨ s.usb_state.current_rx_bank = AT91C_UDP_RX_DATA_BK1
          → t.udp.csr 1 &&& s.usb_state.current_rx_bank = 0)
      ∧ (∀ e, e ≠ 1 → t.udp.csr e = s.udp.csr e)
      ∧ ∀ u2 : Udp,
          rx_total u2 ≤ (t.usb_state.dr_buffer (rx_buf t.usb_state)).length →
          (s.usb_state.current_rx_bank = AT91C_UDP_RX_DATA_BK0
            ∨ s.usb_state.current_rx_bank = AT91C_UDP_RX_DATA_BK1) →
          ∃ t2, usb_read_data 1 { t with udp := u2 } = some t2
            ∧ t2.usb_state.current_rx_bank = s.usb_state.current_rx_bank := by
  obtain ⟨t, ht, _, _, _, _, _, hbank, hcsr, _⟩ := usb_read_data_one s hfit
  refine ⟨t, ht, ?_, ?_, ?_, ?_, ?_, ?_⟩
  · intro h
    rw [hbank, if_pos h]
  · intro h
    have hne : ¬ s.usb_state.current_rx_bank = AT91C_UDP_RX_DATA_BK0 := by rw [h]; decide
    rw [hbank, if_neg hne]
  · rw [hcsr, upd_same]
  · intro h
    rw [hcsr, upd_same]
    rcases h with h | h <;> rw [h] <;> exact and_and_of_zero _ _ _ (by decide)
  · intro e he
    rw [hcsr, upd_other _ _ _ _ he]
  · intro u2 hfit2 h
    obtain ⟨t2, ht2, _, _, _, _, _, hbank2, _⟩ := usb_read_data_one { t with udp := u2 } hfit2
    refine ⟨t2, ht2, ?_⟩
    rw [hbank2]
    show (if t.usb_state.current_rx_bank = AT91C_UDP_RX_DATA_BK0 then AT91C_UDP_RX_DATA_BK1
      else AT91C_UDP_RX_DATA_BK0) = s.usb_state.current_rx_bank
    rw [hbank]
    rcases h with h | h <;> rw [h] <;> decide

/-- The bank toggle at `sys_rx_bank0`: bank `AT91C_UDP_RX_DATA_BK0`, a 3-byte packet and
64-byte buffers. -/
theorem usb_read_data_toggles_bank_witness :
    rx_total sys_rx_bank0.udp
        ≤ (sys_rx_bank0.usb_state.dr_buffer (rx_buf sys_rx_bank0.usb_state)).length
    ∧ (∃ t, usb_read_data 1 sys_rx_bank0 = some t
      ∧ (sys_rx_bank0.usb_state.current_rx_bank = AT91C_UDP_RX_DATA_BK0
          → t.usb_state.current_rx_bank = AT91C_UDP_RX_DATA_BK1)
      ∧ (sys_rx_bank0.usb_state.current_rx_bank = AT91C_UDP_RX_DATA_BK1
          → t.usb_state.current_rx_bank = AT91C_UDP_RX_DATA_BK0)
      ∧ t.udp.csr 1 = sys_rx_bank0.udp.csr 1 &&& not32 sys_rx_bank0.usb_state.current_rx_bank
      ∧ (sys_rx_bank0.usb_state.current_rx_bank = AT91C_UDP_RX_DATA_BK0
            ∨ sys_rx_bank0.usb_state.current_rx_bank = AT91C_UDP_RX_DATA_BK1
          → t.udp.csr 1 &&& sys_rx_bank0.usb_state.current_rx_bank = 0)
      ∧ (∀ e, e ≠ 1 → t.udp.csr e = sys_rx_bank0.udp.csr e)
      ∧ ∀ u2 : Udp,
          rx_total u2 ≤ (t.usb_state.dr_buffer (rx_buf t.usb_state)).length →
          (sys_rx_bank0.usb_state.current_rx_bank = AT91C_UDP_RX_DATA_BK0
            ∨ sys_rx_bank0.usb_state.current_rx_bank = AT91C_UDP_RX_DATA_BK1) →
          ∃ t2, usb_read_data 1 { t with udp := u2 } = some t2
            ∧ t2.usb_state.current_rx_bank = sys_rx_bank0.usb_state.current_rx_bank)
    ∧ (usb_read_data 1 sys_rx_bank0).map
          (fun t => (t.usb_state.current_rx_bank, t.udp.csr 1 &&& AT91C_UDP_RX_DATA_BK0))
        = some (AT91C_UDP_RX_DATA_BK1, 0) :=
  ⟨by decide, usb_read_data_toggles_bank sys_rx_bank0 (by decide), by rfl⟩

/-- C20, as the code behaves: in every driver state with `current_rx_bank == 0`, the value
the initialiser `usb_state = { 0 }` and the bus-reset handler give it, whose pending packet
fits the receive buffer, `usb_read_data(1)` returns having cleared no bit of `CSR[1]`: the
32-bit register is unchanged, so both bank bits RX_DATA_BK0 and RX_DATA_BK1 read as before
the call, and `current_rx_bank` has become `AT91C_UDP_RX_DATA_BK0`. A second call, whatever
the peripheral state `u2` then, leaves `current_rx_bank == AT91C_UDP_RX_DATA_BK1`: two
successive calls do not restore the original bank. -/
theorem usb_read_data_bank_zero (s : Sys)
    (hfit : rx_total s.udp ≤ (s.usb_state.dr_buffer (rx_buf s.usb_state)).length)
    (hbank : s.usb_state.current_rx_bank = 0) :
    ∃ t, usb_read_data 1 s = some t
      ∧ t.udp.csr 1 = s.udp.csr 1 % 2 ^ 32
      ∧ t.udp.csr 1 &&& AT91C_UDP_RX_DATA_BK0 = s.udp.csr 1 &&& AT91C_UDP_RX_DATA_BK0
      ∧ t.udp.csr 1 &&& AT91C_UDP_RX_DATA_BK1 = s.udp.csr 1 &&& AT91C_UDP_RX_DATA_BK1
      ∧ t.usb_state.current_rx_bank = AT91C_UDP_RX_DATA_BK0
      ∧ ∀ u2 : Udp,
          rx_total u2 ≤ (t.usb_state.dr_buffer (rx_buf t.usb_state)).length →
          ∃ t2, usb_read_data 1 { t with udp := u2 } = some t2
            ∧ t2.usb_state.current_rx_bank = AT91C_UDP_RX_DATA_BK1
            ∧ t2.usb_state.current_rx_bank ≠ s.usb_state.current_rx_bank := by
  obtain ⟨t, ht, _, _, _, _, _, hb, hcsr, _⟩ := usb_read_data_one s hfit
  have hne : ¬ s.usb_state.current_rx_bank = AT91C_UDP_RX_DATA_BK0 := by rw [hbank]; decide
  have hc : t.udp.csr 1 = s.udp.csr 1 &&& not32 0 := by rw [hcsr, upd_same, hbank]
  have hb1 : t.usb_state.current_rx_bank = AT91C_UDP_RX_DATA_BK0 := by rw [hb, if_neg hne]
  refine ⟨t, ht, ?_, ?_, ?_, hb1, ?_⟩
  · rw [hc]
    exact Nat.and_pow_two_sub_one_eq_mod _ 32
  · rw [hc]
    exact and_and_keep _ _ _ (by decide)
  · rw [hc]
    exact and_and_keep _ _ _ (by decide)
  · intro u2 hfit2
    obtain ⟨t2, ht2, _, _, _, _, _, hb2, _⟩ := usb_read_data_one { t with udp := u2 } hfit2
    have hb3 : t2.usb_state.current_rx_bank = AT91C_UDP_RX_DATA_BK1 := by
      rw [hb2]
      show (if t.usb_state.current_rx_bank = AT91C_UDP_RX_DATA_BK0 then AT91C_UDP_RX_DATA_BK1
        else AT91C_UDP_RX_DATA_BK0) = AT91C_UDP_RX_DATA_BK1
      rw [if_pos hb1]
    refine ⟨t2, ht2, hb3, ?_⟩
    rw [hb3, hbank]
    decide

/-- C20 at the start-up state with a 3-byte packet on endpoint 1: `CSR[1]` stays
`EPEDS | RX_DATA_BK0 | 3 << 16` (229378) with RX_DATA_BK0 still set, the bank goes from 0 to
`AT91C_UDP_RX_DATA_BK0` (2), and after a second call it is `AT91C_UDP_RX_DATA_BK1` (64). -/
theorem usb_read_data_bank_zero_witness :
    (rx_total sys_rx_startup.udp
        ≤ (sys_rx_startup.usb_state.dr_buffer (rx_buf sys_rx_startup.usb_state)).length
      ∧ sys_rx_startup.usb_state.current_rx_bank = 0)
    ∧ (∃ t, usb_read_data 1 sys_rx_startup = some t
      ∧ t.udp.csr 1 = sys_rx_startup.udp.csr 1 % 2 ^ 32
      ∧ t.udp.csr 1 &&& AT91C_UDP_RX_DATA_BK0
          = sys_rx_startup.udp.csr 1 &&& AT91C_UDP_RX_DATA_BK0
      ∧ t.udp.csr 1 &&& AT91C_UDP_RX_DATA_BK1
          = sys_rx_startup.udp.csr 1 &&& AT91C_UDP_RX_DATA_BK1
      ∧ t.usb_state.current_rx_bank = AT91C_UDP_RX_DATA_BK0
      ∧ ∀ u2 : Udp,
          rx_total u2 ≤ (t.usb_state.dr_buffer (rx_buf t.usb_state)).length →
          ∃ t2, usb_read_data 1 { t with udp := u2 } = some t2
            ∧ t2.usb_state.current_rx_bank = AT91C_UDP_RX_DATA_BK1
            ∧ t2.usb_state.current_rx_bank ≠ sys_rx_startup.usb_state.current_rx_bank)
    ∧ sys_rx_startup.udp.csr 1 = 229378
    ∧ (usb_read_data 1 sys_rx_startup).map
          (fun t => (t.udp.csr 1, t.udp.csr 1 &&& AT91C_UDP_RX_DATA_BK0,
            t.usb_state.current_rx_bank))
        = some (229378, AT91C_UDP_RX_DATA_BK0, 2)
    ∧ ((usb_read_data 1 sys_rx_startup).bind (usb_read_data 1)).map
          (fun t => t.usb_state.current_rx_bank)
        = some 64 :=
  ⟨by decide, usb_read_data_bank_zero sys_rx_startup (by decide) (by decide),
    by rfl, by rfl, by rfl⟩

/-! ## C13: three packets without a flush, then a flush -/

theorem usb_read_data_one_packet (s : Sys) (u : Udp) (pkt rest : List Nat)
    (hf : u.fdr 1 = pkt ++ rest) (hc : rx_total u = pkt.length)
    (hfit : pkt.length ≤ (s.usb_state.dr_buffer (rx_buf s.usb_state)).length) :
    ∃ t, usb_read_data 1 { s with udp := u } = some t
      ∧ (t.usb_state.dr_buffer (rx_buf s.usb_state)).take pkt.length
          = pkt.map (fun b => b % 256)
      ∧ (t.usb_state.dr_buffer (rx_buf s.usb_state)).length
          = (s.usb_state.dr_buffer (rx_buf s.usb_state)).length
      ∧ (∀ b, b ≠ rx_buf s.usb_state → t.usb_state.dr_buffer b = s.usb_state.dr_buffer b)
      ∧ t.usb_state.dr_buffer_used (rx_buf s.usb_state) = pkt.length
      ∧ (∀ b, b ≠ rx_buf s.usb_state →
          t.usb_state.dr_buffer_used b = s.usb_state.dr_buffer_used b)
      ∧ t.usb_state.dr_overloaded
          = (if s.usb_state.dr_buffer_used 1 ≠ 0 ∧ s.usb_state.dr_buffer_used 0 > 0 then 1
              else s.usb_state.dr_overloaded) := by
  have hfit1 : rx_total ({ s with udp := u } : Sys).udp
      ≤ (({ s with udp := u } : Sys).usb_state.dr_buffer
          (rx_buf ({ s with udp := u } : Sys).usb_state)).length := by
    show rx_total u ≤ (s.usb_state.dr_buffer (rx_buf s.usb_state)).length
    rw [hc]; exact hfit
  obtain ⟨t, ht, hbuf, hoth, hused, huoth, hov, _⟩ := usb_read_data_one { s with udp := u } hfit1
  have hbuf1 : t.usb_state.dr_buffer (rx_buf s.usb_state)
      = pkt.map (fun b => b % 256)
          ++ (s.usb_state.dr_buffer (rx_buf s.usb_state)).drop pkt.length := by
    have := hbuf
    simp only [hc, hf, fifo_take_append] at this
    exact this
  refine ⟨t, ht, ?_, ?_, hoth, ?_, huoth, hov⟩
  · rw [hbuf1, List.take_left' (by simp)]
  · rw [hbuf1]
    simp only [List.length_append, List.length_map, List.length_drop]
    omega
  · have := hused
    simp only [hc] at this
    exact this

/-- C13: from an empty receive state, let three packets `p1`, `p2`, `p3` that fit the
receive buffers, the first two of non-zero length, be handled by three successive `usb_read_data(1)`
calls with no foreground call in between, whatever else the peripheral states `u1`, `u2`,
`u3` at the three calls hold. The first packet lands in `dr_buffer[1]` with
`dr_buffer_used[1] == n1`; the second in `dr_buffer[0]` with `dr_buffer_used[0] == n2`,
no overrun yet; the third sets `dr_overloaded == 1` and overwrites `dr_buffer[0]`
(`dr_buffer_used[0] == n3`) while `dr_buffer[1]` and `dr_buffer_used[1]` stay as the first
call left them; `usb_flush_buffer` then gives `dr_buffer_used[1] == n3`,
`dr_buffer_used[0] == 0`, `dr_overloaded == 0`, with the third packet in `dr_buffer[1]`.
A byte is stored as the low 8 bits of the FIFO value. -/
theorem three_packets_then_flush (s : Sys) (u1 u2 u3 : Udp) (p1 p2 p3 r1 r2 r3 : List Nat)
    (he0 : s.usb_state.dr_buffer_used 0 = 0) (he1 : s.usb_state.dr_buffer_used 1 = 0)
    (heo : s.usb_state.dr_overloaded = 0)
    (hf1 : u1.fdr 1 = p1 ++ r1) (hc1 : rx_total u1 = p1.length) (hn1 : 0 < p1.length)
    (hf2 : u2.fdr 1 = p2 ++ r2) (hc2 : rx_total u2 = p2.length) (hn2 : 0 < p2.length)
    (hf3 : u3.fdr 1 = p3 ++ r3) (hc3 : rx_total u3 = p3.length)
    (hfit1 : p1.length ≤ (s.usb_state.dr_buffer 1).length)
    (hfit2 : p2.length ≤ (s.usb_state.dr_buffer 0).length)
    (hfit3 : p3.length ≤ (s.usb_state.dr_buffer 0).length)
    (hfit4 : p3.length ≤ (s.usb_state.dr_buffer 1).length) :
    ∃ t1 t2 t3 t4,
      usb_read_data 1 { s with udp := u1 } = some t1
      ∧ (t1.usb_state.dr_buffer 1).take p1.length = p1.map (fun b => b % 256)
      ∧ t1.usb_state.dr_buffer_used 1 = p1.length
      ∧ t1.usb_state.dr_buffer_used 0 = 0
      ∧ t1.usb_state.dr_overloaded = 0
      ∧ usb_read_data 1 { t1 with udp := u2 } = some t2
      ∧ (t2.usb_state.dr_buffer 0).take p2.length = p2.map (fun b => b % 256)
      ∧ t2.usb_state.dr_buffer_used 0 = p2.length
      ∧ t2.usb_state.dr_buffer 1 = t1.usb_state.dr_buffer 1
      ∧ t2.usb_state.dr_buffer_used 1 = p1.length
      ∧ t2.usb_state.dr_overloaded = 0
      ∧ usb_read_data 1 { t2 with udp := u3 } = some t3
      ∧ t3.usb_state.dr_overloaded = 1
      ∧ (t3.usb_state.dr_buffer 0).take p3.length = p3.map (fun b => b % 256)
      ∧ t3.usb_state.dr_buffer_used 0 = p3.length
      ∧ t3.usb_state.dr_buffer 1 = t1.usb_state.dr_buffer 1
      ∧ t3.usb_state.dr_buffer_used 1 = p1.length
      ∧ usb_flush_buffer t3 = some t4
      ∧ t4.usb_state.dr_buffer_used 1 = p3.length
      ∧ t4.usb_state.dr_buffer_used 0 = 0
      ∧ t4.usb_state.dr_overloaded = 0
      ∧ (t4.usb_state.dr_buffer 1).take p3.length = p3.map (fun b => b % 256) := by
  -- first packet: the foreground buffer is free
  have hb1 : rx_buf s.usb_state = 1 := by simp [rx_buf, he1]
  obtain ⟨t1, ht1, hd1, hl1, ho1, hu1, huo1, hov1⟩ :=
    usb_read_data_one_packet s u1 p1 r1 hf1 hc1 (by rw [hb1]; exact hfit1)
  rw [hb1] at hd1 hl1 ho1 hu1 huo1
  have h1u0 : t1.usb_state.dr_buffer_used 0 = 0 := by rw [huo1 0 (by decide), he0]
  have h1ov : t1.usb_state.dr_overloaded = 0 := by rw [hov1]; simp [he1, heo]
  have h1b0 : t1.usb_state.dr_buffer 0 = s.usb_state.dr_buffer 0 := ho1 0 (by decide)
  -- second packet: buffer 1 is taken, buffer 0 is free
  have hu1ne : t1.usb_state.dr_buffer_used 1 ≠ 0 := by rw [hu1]; omega
  have hb2 : rx_buf t1.usb_state = 0 := by simp [rx_buf, hu1ne]
  obtain ⟨t2, ht2, hd2, hl2, ho2, hu2, huo2, hov2⟩ :=
    usb_read_data_one_packet t1 u2 p2 r2 hf2 hc2 (by rw [hb2, h1b0]; exact hfit2)
  rw [hb2] at hd2 hl2 ho2 hu2 huo2
  have h2u1 : t2.usb_state.dr_buffer_used 1 = p1.length := by rw [huo2 1 (by decide), hu1]
  have h2ov : t2.usb_state.dr_overloaded = 0 := by rw [hov2]; simp [h1u0, h1ov]
  have h2b1 : t2.usb_state.dr_buffer 1 = t1.usb_state.dr_buffer 1 := ho2 1 (by decide)
  -- third packet: both buffers are taken
  have hu2ne : t2.usb_state.dr_buffer_used 1 ≠ 0 := by rw [h2u1]; omega
  have hb3 : rx_buf t2.usb_state = 0 := by simp [rx_buf, hu2ne]
  obtain ⟨t3, ht3, hd3, hl3, ho3, hu3, huo3, hov3⟩ :=
    usb_read_data_one_packet t2 u3 p3 r3 hf3 hc3 (by rw [hb3, hl2, h1b0]; exact hfit3)
  rw [hb3] at hd3 hl3 ho3 hu3 huo3
  have h3u1 : t3.usb_state.dr_buffer_used 1 = p1.length := by rw [huo3 1 (by decide), h2u1]
  have h3ov : t3.usb_state.dr_overloaded = 1 := by
    rw [hov3]
    have : t2.usb_state.dr_buffer_used 0 > 0 := by rw [hu2]; exact hn2
    simp [hu2ne, this]
  have h3b1 : t3.usb_state.dr_buffer 1 = t1.usb_state.dr_buffer 1 := by
    rw [ho3 1 (by decide), h2b1]
  -- flush
  have hl30 : (t3.usb_state.dr_buffer 0).length = (s.usb_state.dr_buffer 0).length := by
    rw [hl3, hl2, h1b0]
  have hl31 : (t3.usb_state.dr_buffer 1).length = (s.usb_state.dr_buffer 1).length := by
    rw [h3b1, hl1]
  have hfl := usb_flush_buffer_eq t3 (by rw [hu3, hl30]; exact hfit3)
    (by rw [hu3, hl31]; exact hfit4)
  refine ⟨t1, t2, t3, _, ht1, hd1, hu1, h1u0, h1ov, ht2, hd2, hu2, h2b1, h2u1, h2ov, ht3, h3ov,
    hd3, hu3, h3b1, h3u1, hfl, ?_, ?_, rfl, ?_⟩
  · simp [upd, hu3]
  · simp [upd]
  · simp only [upd, if_true, hu3]
    rw [List.take_left' (by rw [List.length_take, hl30]; omega)]
    exact hd3

/-- C13 with three 10-byte packets and 64-byte buffers: the occupancy counts and the overrun
flag are 10, 10, 1 after the third packet and 10, 0, 0 after the flush. -/
theorem three_packets_then_flush_witness :
    ((sys_init 64).usb_state.dr_buffer_used 0 = 0
      ∧ (sys_init 64).usb_state.dr_buffer_used 1 = 0
      ∧ (sys_init 64).usb_state.dr_overloaded = 0
      ∧ (udp_rx_packet rx_packet_a udp_idle).fdr 1 = rx_packet_a ++ []
      ∧ rx_total (udp_rx_packet rx_packet_a udp_idle) = rx_packet_a.length
      ∧ 0 < rx_packet_a.length
      ∧ (udp_rx_packet rx_packet_b udp_idle).fdr 1 = rx_packet_b ++ []
      ∧ rx_total (udp_rx_packet rx_packet_b udp_idle) = rx_packet_b.length
      ∧ 0 < rx_packet_b.length
      ∧ (udp_rx_packet rx_packet_c udp_idle).fdr 1 = rx_packet_c ++ []
      ∧ rx_total (udp_rx_packet rx_packet_c udp_idle) = rx_packet_c.length
      ∧ rx_packet_a.length ≤ ((sys_init 64).usb_state.dr_buffer 1).length
      ∧ rx_packet_b.length ≤ ((sys_init 64).usb_state.dr_buffer 0).length
      ∧ rx_packet_c.length ≤ ((sys_init 64).usb_state.dr_buffer 0).length
      ∧ rx_packet_c.length ≤ ((sys_init 64).usb_state.dr_buffer 1).length)
    ∧ (∃ t1 t2 t3 t4,
      usb_read_data 1 { sys_init 64 with udp := udp_rx_packet rx_packet_a udp_idle } = some t1
      ∧ (t1.usb_state.dr_buffer 1).take rx_packet_a.length = rx_packet_a.map (fun b => b % 256)
      ∧ t1.usb_state.dr_buffer_used 1 = rx_packet_a.length
      ∧ t1.usb_state.dr_buffer_used 0 = 0
      ∧ t1.usb_state.dr_overloaded = 0
      ∧ usb_read_data 1 { t1 with udp := udp_rx_packet rx_packet_b udp_idle } = some t2
      ∧ (t2.usb_state.dr_buffer 0).take rx_packet_b.length = rx_packet_b.map (fun b => b % 256)
      ∧ t2.usb_state.dr_buffer_used 0 = rx_packet_b.length
      ∧ t2.usb_state.dr_buffer 1 = t1.usb_state.dr_buffer 1
      ∧ t2.usb_state.dr_buffer_used 1 = rx_packet_a.length
      ∧ t2.usb_state.dr_overloaded = 0
      ∧ usb_read_data 1 { t2 with udp := udp_rx_packet rx_packet_c udp_idle } = some t3
      ∧ t3.usb_state.dr_overloaded = 1
      ∧ (t3.usb_state.dr_buffer 0).take rx_packet_c.length = rx_packet_c.map (fun b => b % 256)
      ∧ t3.usb_state.dr_buffer_used 0 = rx_packet_c.length
      ∧ t3.usb_state.dr_buffer 1 = t1.usb_state.dr_buffer 1
      ∧ t3.usb_state.dr_buffer_used 1 = rx_packet_a.length
      ∧ usb_flush_buffer t3 = some t4
      ∧ t4.usb_state.dr_buffer_used 1 = rx_packet_c.length
      ∧ t4.usb_state.dr_buffer_used 0 = 0
      ∧ t4.usb_state.dr_overloaded = 0
      ∧ (t4.usb_state.dr_buffer 1).take rx_packet_c.length = rx_packet_c.map (fun b => b % 256))
    ∧ ((((usb_read_data 1 { sys_init 64 with udp := udp_rx_packet rx_packet_a udp_idle }).bind
          (fun t => usb_read_data 1 { t with udp := udp_rx_packet rx_packet_b udp_idle })).bind
          (fun t => usb_read_data 1 { t with udp := udp_rx_packet rx_packet_c udp_idle })).map
          (fun t => (t.usb_state.dr_buffer_used 1, t.usb_state.dr_buffer_used 0,
            t.usb_state.dr_overloaded))
        = some (10, 10, 1))
    ∧ (((((usb_read_data 1 { sys_init 64 with udp := udp_rx_packet rx_packet_a udp_idle }).bind
          (fun t => usb_read_data 1 { t with udp := udp_rx_packet rx_packet_b udp_idle })).bind
          (fun t => usb_read_data 1 { t with udp := udp_rx_packet rx_packet_c udp_idle })).bind
          usb_flush_buffer).map
          (fun t => (t.usb_state.dr_buffer_used 1, t.usb_state.dr_buffer_used 0,
            t.usb_state.dr_overloaded, (t.usb_state.dr_buffer 1).take 10))
        = some (10, 0, 0, rx_packet_c)) :=
  ⟨by decide,
    three_packets_then_flush (sys_init 64) (udp_rx_packet rx_packet_a udp_idle)
      (udp_rx_packet rx_packet_b udp_idle) (udp_rx_packet rx_packet_c udp_idle)
      rx_packet_a rx_packet_b rx_packet_c [] [] []
      rfl rfl rfl rfl (by decide) (by decide) rfl (by decide) (by decide) rfl (by decide)
      (by decide) (by decide) (by decide) (by decide),
    by rfl, by rfl⟩

/-! ## The log only grows -/

theorem usb_read_setup_packet_log_ext (u : Udp) :
    ∃ rest, (usb_read_setup_packet u).2.log = u.log ++ rest := by
  simp only [usb_read_setup_packet, read_fdr_log, List.append_assoc]
  exact ⟨_, rfl⟩

theorem usb_setup_begin_log_ext (s : Sys) :
    ∃ rest, (usb_setup_begin s).2.udp.log = s.udp.log ++ rest := by
  obtain ⟨r, hr⟩ := usb_read_setup_packet_log_ext s.udp
  unfold usb_setup_begin
  by_cases hd : (usb_read_setup_packet s.udp).1.bm_request_type &&& USB_BMREQUEST_DIR
      = USB_BMREQUEST_D_TO_H
  · simp only [if_pos hd, usb_csr_clear_flag_log, usb_csr_set_flag_log, hr, List.append_assoc]
    exact ⟨_, rfl⟩
  · simp only [if_neg hd, usb_csr_clear_flag_log, hr, List.append_assoc]
    exact ⟨_, rfl⟩

theorem usb_send_data_log_ext (e : Nat) (p : Ptr) (L : Nat) (s : Sys) :
    ∃ rest, (usb_send_data e p L s).udp.log = s.udp.log ++ rest := by
  rw [usb_send_data_log]
  simp only [List.append_assoc]
  exact ⟨_, rfl⟩

theorem usb_wait_txcomp_log (eng : List Nat) (u u1 : Udp)
    (h : usb_wait_txcomp eng u = some u1) : u1.log = u.log := by
  induction eng generalizing u with
  | nil =>
      by_cases hc : u.csr 0 &&& AT91C_UDP_TXCOMP ≠ 0
      · simp only [usb_wait_txcomp, if_pos hc, Option.some.injEq] at h
        rw [← h]
      · simp [usb_wait_txcomp, hc] at h
  | cons v rest ih =>
      by_cases hc : u.csr 0 &&& AT91C_UDP_TXCOMP ≠ 0
      · simp only [usb_wait_txcomp, if_pos hc, Option.some.injEq] at h
        rw [← h]
      · simp only [usb_wait_txcomp, if_neg hc] at h
        exact ih { u with csr := upd u.csr 0 v } h

theorem usb_get_descriptor_log_ext (pk : usb_setup_packet_t) (s t : Sys)
    (h : usb_get_descriptor pk s = some t) : ∃ rest, t.udp.log = s.udp.log ++ rest := by
  unfold usb_get_descriptor at h
  simp only [] at h
  split at h
  · rw [Option.some.injEq] at h
    rw [← h]; exact usb_send_data_log_ext _ _ _ _
  · split at h
    · split at h
      · rw [Option.some.injEq] at h
        rw [← h]
        obtain ⟨r1, h1⟩ := usb_send_data_log_ext 0 ⟨usb_nxtos_full_config, 0⟩
          (MIN usb_nxtos_full_config_w_total_length pk.w_length) s
        obtain ⟨r2, h2⟩ := usb_send_data_log_ext 0 NULL 0
          (usb_send_data 0 ⟨usb_nxtos_full_config, 0⟩
            (MIN usb_nxtos_full_config_w_total_length pk.w_length) s)
        exact ⟨r1 ++ r2, by rw [usb_send_null, h2, h1, List.append_assoc]⟩
      · rw [Option.some.injEq] at h
        rw [← h]; exact usb_send_data_log_ext _ _ _ _
    · split at h
      · split at h
        · rw [Option.some.injEq] at h
          rw [← h]; exact usb_send_data_log_ext _ _ _ _
        · split at h
          · exact absurd h (by simp)
          · rw [Option.some.injEq] at h
            rw [← h]; exact usb_send_data_log_ext _ _ _ _
      · rw [Option.some.injEq] at h
        rw [← h]
        exact ⟨_, usb_send_stall_log s⟩

theorem usb_setup_dispatch_log_ext (pk : usb_setup_packet_t) (s t : Sys)
    (h : usb_setup_dispatch pk s = some t) : ∃ rest, t.udp.log = s.udp.log ++ rest := by
  unfold usb_setup_dispatch at h
  simp only [] at h
  split at h
  · rw [Option.some.injEq] at h
    rw [← h]; exact usb_send_data_log_ext _ _ _ _
  · split at h
    · rw [Option.some.injEq] at h
      rw [← h]; exact usb_send_data_log_ext _ _ _ _
    · split at h
      · split at h
        · exact absurd h (by simp)
        · rename_i u hw
          rw [Option.some.injEq] at h
          rw [← h]
          obtain ⟨r, hr⟩ := usb_send_data_log_ext 0 NULL 0 s
          have hl := usb_wait_txcomp_log _ _ _ hw
          refine ⟨r ++ [Event.csr_clear 0 AT91C_UDP_TXCOMP,
            Event.faddr (AT91C_UDP_FEN ||| pk.w_value),
            Event.glbstate (if pk.w_value > 0 then AT91C_UDP_FADDEN else 0)], ?_⟩
          simp only [Udp.write_glbstate, Udp.write_faddr, usb_csr_clear_flag_log, hl]
          rw [usb_send_null, hr]
          simp
      · split at h
        · exact usb_get_descriptor_log_ext pk s t h
        · split at h
          · rw [Option.some.injEq] at h
            rw [← h]; exact usb_send_data_log_ext _ _ _ _
          · split at h
            · rw [Option.some.injEq] at h
              rw [← h]
              obtain ⟨r, hr⟩ := usb_send_data_log_ext 0 NULL 0
                { s with usb_state := { s.usb_state with
                    current_config := pk.w_value % 256 } }
              refine ⟨r ++ [Event.glbstate (if pk.w_value > 0
                then AT91C_UDP_CONFG ||| AT91C_UDP_FADDEN else AT91C_UDP_FADDEN)], ?_⟩
              simp only [Udp.write_glbstate]
              rw [usb_send_null, hr]
              simp
            · rw [Option.some.injEq] at h
              rw [← h]
              exact ⟨_, usb_send_stall_log s⟩

theorem usb_manage_setup_packet_log_ext (s t : Sys) (h : usb_manage_setup_packet s = some t) :
    ∃ rest, t.udp.log = s.udp.log ++ rest := by
  obtain ⟨r1, h1⟩ := usb_setup_begin_log_ext s
  obtain ⟨r2, h2⟩ := usb_setup_dispatch_log_ext _ _ t h
  exact ⟨r1 ++ r2, by rw [h2, h1, List.append_assoc]⟩

theorem usb_read_data_loop_log_ext (buf n i : Nat) (s t : Sys)
    (h : usb_read_data_loop buf n i s = some t) : ∃ rest, t.udp.log = s.udp.log ++ rest := by
  induction n generalizing i s with
  | zero =>
      simp only [usb_read_data_loop, Option.some.injEq] at h
      exact ⟨[], by rw [← h, List.append_nil]⟩
  | succ n ih =>
      simp only [usb_read_data_loop] at h
      split at h
      · obtain ⟨r, hr⟩ := ih _ _ h
        refine ⟨[Event.fdr_read 1 (s.udp.read_fdr 1).1] ++ r, ?_⟩
        rw [hr]
        simp [Udp.read_fdr]
      · exact absurd h (by simp)

theorem usb_read_data_log_ext (e : Nat) (s t : Sys) (h : usb_read_data e s = some t) :
    ∃ rest, t.udp.log = s.udp.log ++ rest := by
  by_cases he : e = 1
  · subst he
    simp only [usb_read_data, if_true] at h
    split at h
    · exact absurd h (by simp)
    · rename_i s1 hloop
      obtain ⟨r, hr⟩ := usb_read_data_loop_log_ext _ _ _ _ _ hloop
      rw [Option.some.injEq] at h
      rw [← h]
      refine ⟨r ++ [Event.csr_write 1 (s1.udp.csr 1 &&& not32 s1.usb_state.current_rx_bank)], ?_⟩
      simp only [Udp.write_csr, hr]
      simp
  · rw [usb_read_data_other e s he, Option.some.injEq] at h
    rw [← h]
    exact ⟨_, rfl⟩

theorem write_icr_log (u : Udp) (v : Nat) : (u.write_icr v).log = u.log ++ [Event.icr v] := rfl

theorem usb_isr_events_log_ext (s t : Sys) (h : usb_isr_events s = some t) :
    ∃ rest, t.udp.log = s.udp.log ++ rest := by
  revert h
  unfold usb_isr_events
  lift_lets
  intro st0 s1 st1 s2 ep s3 s4 u1 u2 h
  have h1 : ∃ r, s1.udp.log = s.udp.log ++ r := by
    by_cases c : s.udp.isr &&& AT91C_UDP_RXSUSP ≠ 0
    · exact ⟨[Event.icr AT91C_UDP_RXSUSP], by simp only [s1, if_pos c, write_icr_log]⟩
    · exact ⟨[], by simp only [s1, if_neg c, List.append_nil]⟩
  have h2 : ∃ r, s2.udp.log = s1.udp.log ++ r := by
    by_cases c : s1.udp.isr &&& AT91C_UDP_RXRSM ≠ 0
    · exact ⟨[Event.icr AT91C_UDP_RXRSM], by simp only [s2, if_pos c, write_icr_log]⟩
    · exact ⟨[], by simp only [s2, if_neg c, List.append_nil]⟩
  have h3 : ∃ r, s3.udp.log = s2.udp.log ++ r := by
    by_cases c : ep = 0
    · exact ⟨[Event.icr AT91C_UDP_EPINT0], by simp only [s3, if_pos c, write_icr_log]⟩
    · exact ⟨[], by simp only [s3, if_neg c, List.append_nil]⟩
  have h123 : ∃ r, s3.udp.log = s.udp.log ++ r := by
    obtain ⟨r1, e1⟩ := h1
    obtain ⟨r2, e2⟩ := h2
    obtain ⟨r3, e3⟩ := h3
    exact ⟨r1 ++ (r2 ++ r3), by rw [e3, e2, e1]; simp⟩
  obtain ⟨r0, e0⟩ := h123
  have key : ∃ r, t.udp.log = s3.udp.log ++ r := by
    split at h
    · exact usb_manage_setup_packet_log_ext _ _ h
    · split at h
      · split at h
        · rw [Option.some.injEq] at h
          rw [← h]
          obtain ⟨r, hr⟩ := usb_send_data_log_ext ep (s4.usb_state.ds_data ep)
            (s4.usb_state.ds_length ep) s4
          exact ⟨[Event.csr_clear ep AT91C_UDP_TXCOMP] ++ r, by
            rw [hr]; simp only [s4, usb_csr_clear_flag_log, List.append_assoc]⟩
        · rw [Option.some.injEq] at h
          rw [← h]
          exact ⟨[Event.csr_clear ep AT91C_UDP_TXCOMP], by
            simp only [s4, usb_csr_clear_flag_log]⟩
      · split at h
        · exact usb_read_data_log_ext _ _ _ h
        · rw [Option.some.injEq] at h
          rw [← h]
          exact ⟨[Event.icr AT91C_UDP_WAKEUP, Event.icr AT91C_UDP_SOFINT], by
            simp only [u2, u1, write_icr_log, List.append_assoc, List.singleton_append]⟩
  obtain ⟨r, e⟩ := key
  exact ⟨r0 ++ r, by rw [e, e0, List.append_assoc]⟩

theorem usb_isr_endbusres_log_ext (s : Sys) :
    ∃ rest, (usb_isr_endbusres s).udp.log = s.udp.log ++ rest := by
  simp only [usb_isr_endbusres, Udp.write_csr, Udp.write_ier, Udp.write_idr, Udp.write_faddr,
    Udp.write_rstep, Udp.write_icr, List.append_assoc]
  exact ⟨_, rfl⟩

theorem usb_isr_log_ext (s t : Sys) (h : usb_isr s = some t) :
    ∃ rest, t.udp.log = (usb_isr_entry s).udp.log ++ rest := by
  unfold usb_isr at h
  simp only [] at h
  split at h
  · rw [Option.some.injEq] at h
    rw [← h]
    exact usb_isr_endbusres_log_ext _
  · exact usb_isr_events_log_ext _ _ h

/-! ## C19: unsupported requests and the acknowledged stall -/

/-- C19: for every SETUP packet whose bRequest is none of GET_STATUS, CLEAR_FEATURE,
SET_FEATURE, SET_ADDRESS, GET_DESCRIPTOR, GET_CONFIG and SET_CONFIG,
`usb_manage_setup_packet` returns after one more register access past the decoding,
`usb_csr_set_flag(0, AT91C_UDP_FORCESTALL)`: FORCESTALL reads set, TXPKTRDY is not set, no
byte goes to any FIFO, and `current_config`, the send cursors and the receive state are
unchanged. And for every state `s2` with ISOERROR (stall sent) in CSR[0], `usb_isr`
starts by clearing `FORCESTALL | ISOERROR` in CSR[0], both of which then read clear;
whenever it returns, that clearing is the first access it has added to the log. -/
theorem unsupported_request_stalls (s s2 : Sys)
    (h0 : (usb_setup_begin s).1.b_request ≠ USB_BREQUEST_GET_STATUS)
    (h1 : (usb_setup_begin s).1.b_request ≠ USB_BREQUEST_CLEAR_FEATURE)
    (h3 : (usb_setup_begin s).1.b_request ≠ USB_BREQUEST_SET_FEATURE)
    (h5 : (usb_setup_begin s).1.b_request ≠ USB_BREQUEST_SET_ADDRESS)
    (h6 : (usb_setup_begin s).1.b_request ≠ USB_BREQUEST_GET_DESCRIPTOR)
    (h8 : (usb_setup_begin s).1.b_request ≠ USB_BREQUEST_GET_CONFIG)
    (h9 : (usb_setup_begin s).1.b_request ≠ USB_BREQUEST_SET_CONFIG)
    (hiso : s2.udp.csr 0 &&& AT91C_UDP_ISOERROR ≠ 0) :
    (∃ t, usb_manage_setup_packet s = some t
      ∧ t.udp.log = (usb_setup_begin s).2.udp.log ++ [Event.csr_set 0 AT91C_UDP_FORCESTALL]
      ∧ flags_set 0 t.udp.log
          = flags_set 0 s.udp.log
              ++ (if (usb_setup_begin s).1.bm_request_type &&& USB_BMREQUEST_DIR
                    = USB_BMREQUEST_D_TO_H then [AT91C_UDP_DIR] else [])
              ++ [AT91C_UDP_FORCESTALL]
      ∧ (∀ f, fifo_written f t.udp.log = fifo_written f s.udp.log)
      ∧ t.udp.csr 0 &&& AT91C_UDP_FORCESTALL = AT91C_UDP_FORCESTALL
      ∧ t.usb_state.current_config = s.usb_state.current_config
      ∧ t.usb_state.ds_data = s.usb_state.ds_data
      ∧ t.usb_state.ds_length = s.usb_state.ds_length
      ∧ t.usb_state.dr_buffer = s.usb_state.dr_buffer
      ∧ t.usb_state.dr_buffer_used = s.usb_state.dr_buffer_used
      ∧ t.usb_state.dr_overloaded = s.usb_state.dr_overloaded
      ∧ t.usb_state.current_rx_bank = s.usb_state.current_rx_bank)
    ∧ (usb_isr_entry s2).udp
        = usb_csr_clear_flag 0 (AT91C_UDP_FORCESTALL ||| AT91C_UDP_ISOERROR) s2.udp
    ∧ (usb_isr_entry s2).udp.csr 0 &&& AT91C_UDP_FORCESTALL = 0
    ∧ (usb_isr_entry s2).udp.csr 0 &&& AT91C_UDP_ISOERROR = 0
    ∧ ∀ t2, usb_isr s2 = some t2 →
        ∃ rest, t2.udp.log
          = s2.udp.log
              ++ Event.csr_clear 0 (AT91C_UDP_FORCESTALL ||| AT91C_UDP_ISOERROR) :: rest := by
  have hent : (usb_isr_entry s2).udp
      = usb_csr_clear_flag 0 (AT91C_UDP_FORCESTALL ||| AT91C_UDP_ISOERROR) s2.udp := by
    simp only [usb_isr_entry, if_pos hiso]
  refine ⟨⟨_, usb_setup_dispatch_unsupported _ _ h0 h1 h3 h5 h6 h8 h9, usb_send_stall_log _,
    ?_, ?_, usb_csr_set_flag_sync 0 AT91C_UDP_FORCESTALL _, ?_, ?_, ?_, ?_, ?_, ?_, ?_⟩,
    hent, ?_, ?_, ?_⟩
  · rw [usb_send_stall_log, flags_set_append, usb_setup_begin_flags_set]
    simp [flags_set]
  · intro f
    rw [usb_send_stall_log, fifo_written_append, usb_setup_begin_fifo_written]
    simp [fifo_written]
  · simp only [usb_send_stall, usb_setup_begin_usb_state]
  · simp only [usb_send_stall, usb_setup_begin_usb_state]
  · simp only [usb_send_stall, usb_setup_begin_usb_state]
  · simp only [usb_send_stall, usb_setup_begin_usb_state]
  · simp only [usb_send_stall, usb_setup_begin_usb_state]
  · simp only [usb_send_stall, usb_setup_begin_usb_state]
  · simp only [usb_send_stall, usb_setup_begin_usb_state]
  · rw [hent]
    simp only [usb_csr_clear_flag, upd_same]
    exact and_and_of_zero _ _ _ (by decide)
  · rw [hent]
    simp only [usb_csr_clear_flag, upd_same]
    exact and_and_of_zero _ _ _ (by decide)
  · intro t2 ht2
    obtain ⟨r, hr⟩ := usb_isr_log_ext s2 t2 ht2
    refine ⟨r, ?_⟩
    rw [hr, hent, usb_csr_clear_flag_log]
    simp

/-- C19 at SET_INTERFACE (wValue 0, wIndex 0), followed by the interrupt that reports the
stall as sent: FORCESTALL is set by the first and both flags are clear after the second. -/
theorem unsupported_request_stalls_witness :
    ((usb_setup_begin sys_set_interface).1.b_request ≠ USB_BREQUEST_GET_STATUS
      ∧ (usb_setup_begin sys_set_interface).1.b_request ≠ USB_BREQUEST_CLEAR_FEATURE
      ∧ (usb_setup_begin sys_set_interface).1.b_request ≠ USB_BREQUEST_SET_FEATURE
      ∧ (usb_setup_begin sys_set_interface).1.b_request ≠ USB_BREQUEST_SET_ADDRESS
      ∧ (usb_setup_begin sys_set_interface).1.b_request ≠ USB_BREQUEST_GET_DESCRIPTOR
      ∧ (usb_setup_begin sys_set_interface).1.b_request ≠ USB_BREQUEST_GET_CONFIG
      ∧ (usb_setup_begin sys_set_interface).1.b_request ≠ USB_BREQUEST_SET_CONFIG
      ∧ sys_stall_sent.udp.csr 0 &&& AT91C_UDP_ISOERROR ≠ 0)
    ∧ ((∃ t, usb_manage_setup_packet sys_set_interface = some t
      ∧ t.udp.log = (usb_setup_begin sys_set_interface).2.udp.log
          ++ [Event.csr_set 0 AT91C_UDP_FORCESTALL]
      ∧ flags_set 0 t.udp.log
          = flags_set 0 sys_set_interface.udp.log
              ++ (if (usb_setup_begin sys_set_interface).1.bm_request_type &&& USB_BMREQUEST_DIR
                    = USB_BMREQUEST_D_TO_H then [AT91C_UDP_DIR] else [])
              ++ [AT91C_UDP_FORCESTALL]
      ∧ (∀ f, fifo_written f t.udp.log = fifo_written f sys_set_interface.udp.log)
      ∧ t.udp.csr 0 &&& AT91C_UDP_FORCESTALL = AT91C_UDP_FORCESTALL
      ∧ t.usb_state.current_config = sys_set_interface.usb_state.current_config
      ∧ t.usb_state.ds_data = sys_set_interface.usb_state.ds_data
      ∧ t.usb_state.ds_length = sys_set_interface.usb_state.ds_length
      ∧ t.usb_state.dr_buffer = sys_set_interface.usb_state.dr_buffer
      ∧ t.usb_state.dr_buffer_used = sys_set_interface.usb_state.dr_buffer_used
      ∧ t.usb_state.dr_overloaded = sys_set_interface.usb_state.dr_overloaded
      ∧ t.usb_state.current_rx_bank = sys_set_interface.usb_state.current_rx_bank)
    ∧ (usb_isr_entry sys_stall_sent).udp
        = usb_csr_clear_flag 0 (AT91C_UDP_FORCESTALL ||| AT91C_UDP_ISOERROR) sys_stall_sent.udp
    ∧ (usb_isr_entry sys_stall_sent).udp.csr 0 &&& AT91C_UDP_FORCESTALL = 0
    ∧ (usb_isr_entry sys_stall_sent).udp.csr 0 &&& AT91C_UDP_ISOERROR = 0
    ∧ ∀ t2, usb_isr sys_stall_sent = some t2 →
        ∃ rest, t2.udp.log
          = sys_stall_sent.udp.log
              ++ Event.csr_clear 0 (AT91C_UDP_FORCESTALL ||| AT91C_UDP_ISOERROR) :: rest)
    ∧ (usb_isr sys_set_interface).map
          (fun t => t.udp.csr 0 &&& (AT91C_UDP_FORCESTALL ||| AT91C_UDP_TXPKTRDY))
        = some AT91C_UDP_FORCESTALL
    ∧ (usb_isr sys_stall_sent).map
          (fun t => t.udp.csr 0 &&& (AT91C_UDP_FORCESTALL ||| AT91C_UDP_ISOERROR))
        = some 0 :=
  ⟨by decide,
    unsupported_request_stalls sys_set_interface sys_stall_sent (by decide) (by decide)
      (by decide) (by decide) (by decide) (by decide) (by decide) (by decide),
    by rfl, by rfl⟩

/-! ## The TXCOMP continuation on endpoint 0 -/

theorem usb_send_data_isr (e : Nat) (p : Ptr) (L : Nat) (s : Sys) :
    (usb_send_data e p L s).udp.isr = s.udp.isr := by
  simp [usb_send_data, usb_send_data_loop_eq, usb_csr_set_flag, Udp.write_csr]

theorem Ptr.bytes_add (p : Ptr) (a b : Nat) :
    p.bytes (a + b) = p.bytes a ++ (p.add a).bytes b := by
  induction a generalizing p with
  | zero => simp [Ptr.bytes, Ptr.add]
  | succ a ih =>
      rw [Nat.succ_add, Ptr.bytes, ih (p.add 1), Ptr.bytes]
      simp [Ptr.add, Nat.add_comm 1 a, Nat.add_assoc]

theorem txcomp_round_zero (s : Sys) (hq : ep0_quiet s) :
    ∃ t, usb_isr { s with udp := udp_txcomp 0 s.udp } = some t
      ∧ t.usb_state.ds_data 0
          = (s.usb_state.ds_data 0).add (min (s.usb_state.ds_length 0) 8)
      ∧ t.usb_state.ds_length 0
          = s.usb_state.ds_length 0 - min (s.usb_state.ds_length 0) 8
      ∧ fifo_written 0 t.udp.log
          = fifo_written 0 s.udp.log
              ++ (s.usb_state.ds_data 0).bytes (min (s.usb_state.ds_length 0) 8)
      ∧ (∀ f, f ≠ 0 → fifo_written f t.udp.log = fifo_written f s.udp.log)
      ∧ flags_set 0 t.udp.log = flags_set 0 s.udp.log ++ [AT91C_UDP_TXPKTRDY]
      ∧ ep0_quiet t := by
  obtain ⟨hres, hsusp, hrsm, hiso, hset⟩ := hq
  have hc0 : (udp_txcomp 0 s.udp).csr 0
      = (s.udp.csr 0 &&& not32 AT91C_UDP_TXPKTRDY) ||| AT91C_UDP_TXCOMP := by
    simp [udp_txcomp, upd]
  have hi0 : (udp_txcomp 0 s.udp).isr = s.udp.isr ||| (1 <<< 0) := rfl
  have hl0 : (udp_txcomp 0 s.udp).log = s.udp.log := rfl
  have hiso1 : (udp_txcomp 0 s.udp).csr 0 &&& AT91C_UDP_ISOERROR = 0 := by
    rw [hc0]; exact or_and_zero _ _ _ (and_and_zero _ _ _ hiso) (by decide)
  have hset1 : (udp_txcomp 0 s.udp).csr 0 &&& AT91C_UDP_RXSETUP = 0 := by
    rw [hc0]; exact or_and_zero _ _ _ (and_and_zero _ _ _ hset) (by decide)
  have htx1 : (udp_txcomp 0 s.udp).csr 0 &&& AT91C_UDP_TXCOMP ≠ 0 := by
    rw [hc0, or_and_self]; decide
  have hres1 : (udp_txcomp 0 s.udp).isr &&& AT91C_UDP_ENDBUSRES = 0 := by
    rw [hi0]; exact or_and_zero _ _ _ hres (by decide)
  have hsusp1 : (udp_txcomp 0 s.udp).isr &&& AT91C_UDP_RXSUSP = 0 := by
    rw [hi0]; exact or_and_zero _ _ _ hsusp (by decide)
  have hrsm1 : (udp_txcomp 0 s.udp).isr &&& AT91C_UDP_RXRSM = 0 := by
    rw [hi0]; exact or_and_zero _ _ _ hrsm (by decide)
  have hscan : usb_isr_scan (udp_txcomp 0 s.udp).isr NMB_ENDPOINTS 0 = 0 := by
    have : (s.udp.isr ||| 1 <<< 0) &&& (1 <<< 0) ≠ 0 := by rw [or_and_self]; decide
    rw [hi0]
    simp only [usb_isr_scan, NMB_ENDPOINTS, if_pos this]
  have hudp : (usb_isr_entry { s with udp := udp_txcomp 0 s.udp }).udp = udp_txcomp 0 s.udp :=
    usb_isr_entry_udp _ hiso1
  have hev := usb_isr_events_txcomp (usb_isr_entry { s with udp := udp_txcomp 0 s.udp }) 0
    (by rw [hudp]; exact hsusp1) (by rw [hudp]; exact hrsm1) (by rw [hudp]; exact hscan)
    (by decide) (fun _ => by rw [hudp]; exact hset1) (by rw [hudp]; exact htx1)
  rw [hudp] at hev
  have hst : (usb_isr_entry { s with udp := udp_txcomp 0 s.udp }).usb_state.ds_data
        = s.usb_state.ds_data
      ∧ (usb_isr_entry { s with udp := udp_txcomp 0 s.udp }).usb_state.ds_length
        = s.usb_state.ds_length := by
    rw [usb_isr_entry_usb_state]; exact ⟨rfl, rfl⟩
  rw [hst.1, hst.2] at hev
  have hp : packet_size_of 0 (s.usb_state.ds_length 0) = min (s.usb_state.ds_length 0) 8 := by
    rw [packet_size_of_eq]; simp
  refine ⟨_, (usb_isr_of_no_reset _ hres1).trans hev, ?_, ?_, ?_, ?_, ?_, ?_⟩
  · simp [usb_send_data_usb_state, upd, hp]
  · simp [usb_send_data_usb_state, upd, hp]
  · rw [usb_send_data_fifo_written, hp]
    simp [usb_csr_clear_flag_log, Udp.write_icr, hl0, fifo_written_append, fifo_written]
  · intro f hf
    have hf0 : ¬ (0 = f) := fun h => hf h.symm
    rw [usb_send_data_fifo_written, if_neg hf0]
    simp [usb_csr_clear_flag_log, Udp.write_icr, hl0, fifo_written_append, fifo_written]
  · rw [usb_send_data_flags_set]
    simp [usb_csr_clear_flag_log, Udp.write_icr, hl0, flags_set_append, flags_set]
  · have hisr : ∀ m, s.udp.isr &&& m = 0 → (1 <<< 0) &&& m = 0 →
        ((s.udp.isr ||| 1 <<< 0) &&& not32 AT91C_UDP_EPINT0) &&& m = 0 :=
      fun m h1 h2 => and_and_zero _ _ _ (or_and_zero _ _ _ h1 h2)
    have hcsr : ∀ m, s.udp.csr 0 &&& m = 0 → AT91C_UDP_TXCOMP &&& m = 0 →
        AT91C_UDP_TXPKTRDY &&& m = 0 →
        (((((s.udp.csr 0 &&& not32 AT91C_UDP_TXPKTRDY) ||| AT91C_UDP_TXCOMP)
          &&& not32 AT91C_UDP_TXCOMP) ||| AT91C_UDP_TXPKTRDY)
            &&& not32 AT91C_UDP_RX_DATA_BK0) &&& m = 0 :=
      fun m h1 h2 h3 => and_and_zero _ _ _ (or_and_zero _ _ _
        (and_and_zero _ _ _ (or_and_zero _ _ _ (and_and_zero _ _ _ h1) h2)) h3)
    refine ⟨?_, ?_, ?_, ?_, ?_⟩
    · rw [usb_send_data_isr]
      exact hisr _ hres (by decide)
    · rw [usb_send_data_isr]
      exact hisr _ hsusp (by decide)
    · rw [usb_send_data_isr]
      exact hisr _ hrsm (by decide)
    · rw [usb_send_data_csr]
      simp only [upd, if_true, usb_csr_clear_flag, Udp.write_icr, hc0]
      exact hcsr _ hiso (by decide) (by decide)
    · rw [usb_send_data_csr]
      simp only [upd, if_true, usb_csr_clear_flag, Udp.write_icr, hc0]
      exact hcsr _ hset (by decide) (by decide)

theorem Ptr.add_add (p : Ptr) (a b : Nat) : (p.add a).add b = p.add (a + b) := by
  simp [Ptr.add, Nat.add_assoc]

theorem txcomp_rounds_zero (r : Nat) (s : Sys) (p : Ptr) (m : Nat)
    (hq : ep0_quiet s) (hd : s.usb_state.ds_data 0 = p) (hl : s.usb_state.ds_length 0 = m) :
    ∃ t, txcomp_rounds 0 r s = some t
      ∧ fifo_written 0 t.udp.log = fifo_written 0 s.udp.log ++ p.bytes (min m (8 * r))
      ∧ (∀ f, f ≠ 0 → fifo_written f t.udp.log = fifo_written f s.udp.log)
      ∧ flags_set 0 t.udp.log = flags_set 0 s.udp.log ++ List.replicate r AT91C_UDP_TXPKTRDY
      ∧ t.usb_state.ds_data 0 = p.add (min m (8 * r))
      ∧ t.usb_state.ds_length 0 = m - min m (8 * r)
      ∧ ep0_quiet t := by
  induction r generalizing s p m with
  | zero =>
      refine ⟨s, rfl, ?_, fun _ _ => rfl, ?_, ?_, ?_, hq⟩
      · simp [Ptr.bytes]
      · simp
      · simp [hd, Ptr.add]
      · simp [hl]
  | succ r ih =>
      obtain ⟨t1, ht1, hd1, hl1, hw1, ho1, hf1, hq1⟩ := txcomp_round_zero s hq
      rw [hd, hl] at hd1 hw1
      rw [hl] at hl1
      obtain ⟨t, ht, hw, ho, hf, hdd, hll, hqq⟩ := ih t1 _ _ hq1 hd1 hl1
      have hsum : min m 8 + min (m - min m 8) (8 * r) = min m (8 * (r + 1)) := by omega
      refine ⟨t, ?_, ?_, ?_, ?_, ?_, ?_, hqq⟩
      · simp only [txcomp_rounds, ht1, ht]
      · rw [hw, hw1, List.append_assoc, ← Ptr.bytes_add, hsum]
      · intro f hf0
        rw [ho f hf0, ho1 f hf0]
      · rw [hf, hf1, List.append_assoc]
        rfl
      · rw [hdd, Ptr.add_add, hsum]
      · rw [hll]
        omega

/-! ## C15: GET_DESCRIPTOR(DEVICE) -/

theorem MIN_eq_min (x y : Nat) : MIN x y = min x y := by
  unfold MIN
  split <;> omega

theorem usb_setup_dispatch_device (pk : usb_setup_packet_t) (s : Sys)
    (hreq : pk.b_request = USB_BREQUEST_GET_DESCRIPTOR)
    (htype : (pk.w_value &&& USB_WVALUE_TYPE) >>> 8 = USB_DESC_TYPE_DEVICE) :
    usb_setup_dispatch pk s
      = some (usb_send_data 0 ⟨usb_dev_desc, 0⟩ (min 18 pk.w_length) s) := by
  have hb : usb_dev_desc.headD 0 = 18 := by decide
  simp only [usb_setup_dispatch, hreq, usb_get_descriptor, htype, hb, MIN_eq_min]
  simp [USB_BREQUEST_GET_DESCRIPTOR, USB_BREQUEST_GET_STATUS, USB_BREQUEST_CLEAR_FEATURE,
    USB_BREQUEST_SET_FEATURE, USB_BREQUEST_SET_ADDRESS]

theorem read_fdr_csr (u : Udp) (e : Nat) : (u.read_fdr e).2.csr = u.csr := rfl

theorem read_fdr_isr (u : Udp) (e : Nat) : (u.read_fdr e).2.isr = u.isr := rfl

theorem usb_read_setup_packet_csr (u : Udp) : (usb_read_setup_packet u).2.csr = u.csr := by
  simp only [usb_read_setup_packet, read_fdr_csr]

theorem usb_read_setup_packet_isr (u : Udp) : (usb_read_setup_packet u).2.isr = u.isr := by
  simp only [usb_read_setup_packet, read_fdr_isr]

theorem usb_setup_begin_isr (s : Sys) : (usb_setup_begin s).2.udp.isr = s.udp.isr := by
  unfold usb_setup_begin
  by_cases hd : (usb_read_setup_packet s.udp).1.bm_request_type &&& USB_BMREQUEST_DIR
      = USB_BMREQUEST_D_TO_H
  · simp only [if_pos hd, usb_csr_clear_flag, usb_csr_set_flag, usb_read_setup_packet_isr]
  · simp only [if_neg hd, usb_csr_clear_flag, usb_read_setup_packet_isr]

theorem usb_setup_begin_csr_zero (s : Sys) (m : Nat) (hs : s.udp.csr 0 &&& m = 0)
    (hm : AT91C_UDP_DIR &&& m = 0) : (usb_setup_begin s).2.udp.csr 0 &&& m = 0 := by
  unfold usb_setup_begin
  by_cases hd : (usb_read_setup_packet s.udp).1.bm_request_type &&& USB_BMREQUEST_DIR
      = USB_BMREQUEST_D_TO_H
  · simp only [if_pos hd, usb_csr_clear_flag, usb_csr_set_flag, usb_read_setup_packet_csr,
      upd_same]
    exact and_and_zero _ _ _ (or_and_zero _ _ _ hs hm)
  · simp only [if_neg hd, usb_csr_clear_flag, usb_read_setup_packet_csr, upd_same]
    exact and_and_zero _ _ _ hs

theorem usb_setup_begin_rxsetup (s : Sys) :
    (usb_setup_begin s).2.udp.csr 0 &&& AT91C_UDP_RXSETUP = 0 := by
  unfold usb_setup_begin
  exact usb_csr_clear_flag_sync 0 AT91C_UDP_RXSETUP _ (by decide)

theorem usb_dev_desc_bytes (j : Nat) (hj : j ≤ 18) :
    Ptr.bytes ⟨usb_dev_desc, 0⟩ j = usb_dev_desc.take j := by
  have h : ∀ i, i < 19 → Ptr.bytes ⟨usb_dev_desc, 0⟩ i = usb_dev_desc.take i := by decide
  exact h j (by omega)

/-- C15: for every GET_DESCRIPTOR SETUP packet of type DEVICE, every wLength and every
index, taken while nothing else is pending (no bus reset, suspend or resume in UDP_ISR,
no sent stall in CSR[0]): `usb_manage_setup_packet` returns, and after `r` further TXCOMP
interrupts on endpoint 0 the bytes put into the FIFO of endpoint 0 are the first
`min(min(18, wLength), 8 * (r + 1))` bytes of the device descriptor, in `r + 1` packets
(TXPKTRDY set `r + 1` times), so no packet exceeds 8 bytes; nothing goes to another FIFO.
From two rounds on, exactly the first `min(18, wLength)` bytes have been emitted, and
the descriptor is `12 01 00 02 02 00 00 08 94 06 00 FF 00 00 01 02 00 01`. -/
theorem get_device_descriptor_emitted (s : Sys) (r : Nat)
    (hres : s.udp.isr &&& AT91C_UDP_ENDBUSRES = 0)
    (hsusp : s.udp.isr &&& AT91C_UDP_RXSUSP = 0)
    (hrsm : s.udp.isr &&& AT91C_UDP_RXRSM = 0)
    (hiso : s.udp.csr 0 &&& AT91C_UDP_ISOERROR = 0)
    (hreq : (usb_setup_begin s).1.b_request = USB_BREQUEST_GET_DESCRIPTOR)
    (htype : ((usb_setup_begin s).1.w_value &&& USB_WVALUE_TYPE) >>> 8
      = USB_DESC_TYPE_DEVICE) :
    ∃ t0 t, usb_manage_setup_packet s = some t0
      ∧ txcomp_rounds 0 r t0 = some t
      ∧ fifo_written 0 t.udp.log
          = fifo_written 0 s.udp.log
              ++ usb_dev_desc.take (min (min 18 (usb_setup_begin s).1.w_length) (8 * (r + 1)))
      ∧ (∀ f, f ≠ 0 → fifo_written f t.udp.log = fifo_written f s.udp.log)
      ∧ flags_set 0 t.udp.log
          = flags_set 0 (usb_setup_begin s).2.udp.log
              ++ List.replicate (r + 1) AT91C_UDP_TXPKTRDY
      ∧ (2 ≤ r → fifo_written 0 t.udp.log
          = fifo_written 0 s.udp.log
              ++ usb_dev_desc.take (min 18 (usb_setup_begin s).1.w_length))
      ∧ usb_dev_desc
          = [0x12, 0x01, 0x00, 0x02, 0x02, 0x00, 0x00, 0x08, 0x94, 0x06, 0x00, 0xFF,
             0x00, 0x00, 0x01, 0x02, 0x00, 0x01] := by
  have hdisp := usb_setup_dispatch_device (usb_setup_begin s).1 (usb_setup_begin s).2 hreq htype
  have hN : min 18 (usb_setup_begin s).1.w_length ≤ 18 := Nat.min_le_left _ _
  have hp : packet_size_of 0 (min 18 (usb_setup_begin s).1.w_length)
      = min (min 18 (usb_setup_begin s).1.w_length) 8 := by
    rw [packet_size_of_eq]; simp
  -- the state after the first packet
  have hq0 : ep0_quiet (usb_send_data 0 ⟨usb_dev_desc, 0⟩
      (min 18 (usb_setup_begin s).1.w_length) (usb_setup_begin s).2) := by
    have hcsr : ∀ m, (usb_setup_begin s).2.udp.csr 0 &&& m = 0 → AT91C_UDP_TXPKTRDY &&& m = 0 →
        (usb_send_data 0 ⟨usb_dev_desc, 0⟩ (min 18 (usb_setup_begin s).1.w_length)
          (usb_setup_begin s).2).udp.csr 0 &&& m = 0 := by
      intro m h1 h2
      rw [usb_send_data_csr]
      simp only [upd, if_true]
      exact and_and_zero _ _ _ (or_and_zero _ _ _ h1 h2)
    refine ⟨?_, ?_, ?_, ?_, ?_⟩
    · rw [usb_send_data_isr, usb_setup_begin_isr]; exact hres
    · rw [usb_send_data_isr, usb_setup_begin_isr]; exact hsusp
    · rw [usb_send_data_isr, usb_setup_begin_isr]; exact hrsm
    · exact hcsr _ (usb_setup_begin_csr_zero s _ hiso (by decide)) (by decide)
    · exact hcsr _ (usb_setup_begin_rxsetup s) (by decide)
  obtain ⟨t, ht, hw, ho, hf, _, _, _⟩ := txcomp_rounds_zero r _
    ((⟨usb_dev_desc, 0⟩ : Ptr).add (min (min 18 (usb_setup_begin s).1.w_length) 8))
    (min 18 (usb_setup_begin s).1.w_length - min (min 18 (usb_setup_begin s).1.w_length) 8)
    hq0 (by simp [usb_send_data_usb_state, upd, hp])
    (by simp [usb_send_data_usb_state, upd, hp])
  have hsum : min (min 18 (usb_setup_begin s).1.w_length) 8
      + min (min 18 (usb_setup_begin s).1.w_length
          - min (min 18 (usb_setup_begin s).1.w_length) 8) (8 * r)
      = min (min 18 (usb_setup_begin s).1.w_length) (8 * (r + 1)) := by omega
  have hall : fifo_written 0 t.udp.log
      = fifo_written 0 s.udp.log
          ++ usb_dev_desc.take (min (min 18 (usb_setup_begin s).1.w_length) (8 * (r + 1))) := by
    rw [hw, usb_send_data_fifo_written, usb_setup_begin_fifo_written, hp, if_pos rfl,
      List.append_assoc, ← Ptr.bytes_add, hsum, usb_dev_desc_bytes _ (by omega)]
  refine ⟨_, t, hdisp, ht, hall, ?_, ?_, ?_, by decide⟩
  · intro f hf0
    have hf1 : ¬ (0 = f) := fun h => hf0 h.symm
    rw [ho f hf0, usb_send_data_fifo_written, usb_setup_begin_fifo_written, if_neg hf1,
      List.append_nil]
  · rw [hf, usb_send_data_flags_set, if_pos rfl, List.append_assoc]
    rfl
  · intro hr
    rw [hall]
    congr 2
    omega

/-- C15 at wLength = 64 with two TXCOMP rounds: all 18 bytes of the device descriptor. -/
theorem get_device_descriptor_emitted_witness :
    (sys_get_device_64.udp.isr &&& AT91C_UDP_ENDBUSRES = 0
      ∧ sys_get_device_64.udp.isr &&& AT91C_UDP_RXSUSP = 0
      ∧ sys_get_device_64.udp.isr &&& AT91C_UDP_RXRSM = 0
      ∧ sys_get_device_64.udp.csr 0 &&& AT91C_UDP_ISOERROR = 0
      ∧ (usb_setup_begin sys_get_device_64).1.b_request = USB_BREQUEST_GET_DESCRIPTOR
      ∧ ((usb_setup_begin sys_get_device_64).1.w_value &&& USB_WVALUE_TYPE) >>> 8
          = USB_DESC_TYPE_DEVICE)
    ∧ (∃ t0 t, usb_manage_setup_packet sys_get_device_64 = some t0
      ∧ txcomp_rounds 0 2 t0 = some t
      ∧ fifo_written 0 t.udp.log
          = fifo_written 0 sys_get_device_64.udp.log
              ++ usb_dev_desc.take
                  (min (min 18 (usb_setup_begin sys_get_device_64).1.w_length) (8 * (2 + 1)))
      ∧ (∀ f, f ≠ 0 → fifo_written f t.udp.log = fifo_written f sys_get_device_64.udp.log)
      ∧ flags_set 0 t.udp.log
          = flags_set 0 (usb_setup_begin sys_get_device_64).2.udp.log
              ++ List.replicate (2 + 1) AT91C_UDP_TXPKTRDY
      ∧ (2 ≤ 2 → fifo_written 0 t.udp.log
          = fifo_written 0 sys_get_device_64.udp.log
              ++ usb_dev_desc.take (min 18 (usb_setup_begin sys_get_device_64).1.w_length))
      ∧ usb_dev_desc
          = [0x12, 0x01, 0x00, 0x02, 0x02, 0x00, 0x00, 0x08, 0x94, 0x06, 0x00, 0xFF,
             0x00, 0x00, 0x01, 0x02, 0x00, 0x01])
    ∧ ((usb_isr sys_get_device_64).bind (txcomp_rounds 0 2)).map
          (fun t => fifo_written 0 t.udp.log)
        = some [0x12, 0x01, 0x00, 0x02, 0x02, 0x00, 0x00, 0x08, 0x94, 0x06, 0x00, 0xFF,
                0x00, 0x00, 0x01, 0x02, 0x00, 0x01] :=
  ⟨by decide,
    get_device_descriptor_emitted sys_get_device_64 2 (by decide) (by decide) (by decide)
      (by decide) (by decide) (by decide),
    by rfl⟩

/-! ## C12: a bulk send of 150 bytes -/

set_option maxRecDepth 100000 in
/-- C12, as the code behaves: `usb_send(p, 150)` from the start-up state (not suspended,
`ds_length[1] == 0`), followed by one `usb_isr` per TXCOMP on endpoint 1. The call leaves
86 bytes to send and the first interrupt 22, so the packets hold 64, 64 and 22 bytes. After
the two interrupts that follow the first two packets, TXPKTRDY has been set three times on
endpoint 1 and `ds_length[1] == 0`. After the interrupt
for the TXCOMP of the last packet, TXPKTRDY has been set a fourth time, so a further,
zero-length packet has been started, and `usb_can_send()` returns 0. All 150 bytes, in
order, were stored into the FIFO of endpoint 0; the FIFO of endpoint 1 received none. -/
theorem usb_send_150_chain :
    (usb_send send_buffer_150 150 (sys_init 64)).map
        (fun t => (flags_set 1 t.udp.log, t.usb_state.ds_length 1))
      = some ([AT91C_UDP_TXPKTRDY], 86)
    ∧ ((usb_send send_buffer_150 150 (sys_init 64)).bind (txcomp_rounds 1 1)).map
        (fun t => (flags_set 1 t.udp.log, t.usb_state.ds_length 1))
      = some ([AT91C_UDP_TXPKTRDY, AT91C_UDP_TXPKTRDY], 22)
    ∧ ((usb_send send_buffer_150 150 (sys_init 64)).bind (txcomp_rounds 1 2)).map
        (fun t => (flags_set 1 t.udp.log, t.usb_state.ds_length 1, usb_can_send t))
      = some ([AT91C_UDP_TXPKTRDY, AT91C_UDP_TXPKTRDY, AT91C_UDP_TXPKTRDY], 0, 0)
    ∧ ((usb_send send_buffer_150 150 (sys_init 64)).bind (txcomp_rounds 1 3)).map
        (fun t => (flags_set 1 t.udp.log, t.usb_state.ds_length 1, usb_can_send t,
          fifo_written 1 t.udp.log, decide (fifo_written 0 t.udp.log = List.range 150)))
      = some ([AT91C_UDP_TXPKTRDY, AT91C_UDP_TXPKTRDY, AT91C_UDP_TXPKTRDY,
          AT91C_UDP_TXPKTRDY], 0, 0, [], true) := by
  refine ⟨?_, ?_, ?_, ?_⟩
  · rfl
  · rfl
  · rfl
  · rfl


/-! ## C21: loading and decoding the SETUP packet -/

theorem fifo_read_append (e : Nat) (l1 l2 : List Event) :
    fifo_read e (l1 ++ l2) = fifo_read e l1 ++ fifo_read e l2 := by
  simp [fifo_read]

theorem fifo_read_map_fdr_write (e e1 : Nat) (bs : List Nat) :
    fifo_read e (bs.map (Event.fdr_write e1)) = [] := by
  induction bs with
  | nil => simp [fifo_read]
  | cons b bs ih => simp_all [fifo_read]

theorem usb_send_data_fifo_read (e : Nat) (p : Ptr) (L : Nat) (s : Sys) (f : Nat) :
    fifo_read f (usb_send_data e p L s).udp.log = fifo_read f s.udp.log := by
  rw [usb_send_data_log]
  simp only [fifo_read_append, fifo_read_map_fdr_write, List.append_nil]
  simp [fifo_read]

theorem usb_send_stall_fifo_read (s : Sys) (f : Nat) :
    fifo_read f (usb_send_stall s).udp.log = fifo_read f s.udp.log := by
  rw [usb_send_stall_log, fifo_read_append]
  simp [fifo_read]

theorem usb_get_descriptor_fifo_read (pk : usb_setup_packet_t) (s t : Sys) (f : Nat)
    (h : usb_get_descriptor pk s = some t) :
    fifo_read f t.udp.log = fifo_read f s.udp.log := by
  unfold usb_get_descriptor at h
  simp only [] at h
  split at h
  · rw [Option.some.injEq] at h
    rw [← h]; exact usb_send_data_fifo_read _ _ _ _ _
  · split at h
    · split at h
      · rw [Option.some.injEq] at h
        rw [← h, usb_send_null, usb_send_data_fifo_read, usb_send_data_fifo_read]
      · rw [Option.some.injEq] at h
        rw [← h]; exact usb_send_data_fifo_read _ _ _ _ _
    · split at h
      · split at h
        · rw [Option.some.injEq] at h
          rw [← h]; exact usb_send_data_fifo_read _ _ _ _ _
        · split at h
          · exact absurd h (by simp)
          · rw [Option.some.injEq] at h
            rw [← h]; exact usb_send_data_fifo_read _ _ _ _ _
      · rw [Option.some.injEq] at h
        rw [← h]
        exact usb_send_stall_fifo_read s f

theorem usb_setup_dispatch_fifo_read (pk : usb_setup_packet_t) (s t : Sys) (f : Nat)
    (h : usb_setup_dispatch pk s = some t) :
    fifo_read f t.udp.log = fifo_read f s.udp.log := by
  unfold usb_setup_dispatch at h
  simp only [] at h
  split at h
  · rw [Option.some.injEq] at h
    rw [← h]; exact usb_send_data_fifo_read _ _ _ _ _
  · split at h
    · rw [Option.some.injEq] at h
      rw [← h]; exact usb_send_data_fifo_read _ _ _ _ _
    · split at h
      · split at h
        · exact absurd h (by simp)
        · rename_i u hw
          rw [Option.some.injEq] at h
          rw [← h]
          have hl := usb_wait_txcomp_log _ _ _ hw
          simp only [Udp.write_glbstate, Udp.write_faddr, usb_csr_clear_flag_log, hl,
            fifo_read_append, usb_send_null, usb_send_data_fifo_read]
          simp [fifo_read]
      · split at h
        · exact usb_get_descriptor_fifo_read pk s t f h
        · split at h
          · rw [Option.some.injEq] at h
            rw [← h]; exact usb_send_data_fifo_read _ _ _ _ _
          · split at h
            · rw [Option.some.injEq] at h
              rw [← h]
              simp only [Udp.write_glbstate, fifo_read_append, usb_send_null,
                usb_send_data_fifo_read]
              simp [fifo_read]
            · rw [Option.some.injEq] at h
              rw [← h]
              exact usb_send_stall_fifo_read s f

theorem usb_setup_dispatch_returns (pk : usb_setup_packet_t) (s : Sys)
    (ha : pk.b_request ≠ USB_BREQUEST_SET_ADDRESS)
    (hd : pk.b_request ≠ USB_BREQUEST_GET_DESCRIPTOR) :
    ∃ t, usb_setup_dispatch pk s = some t := by
  unfold usb_setup_dispatch
  simp only [if_neg ha, if_neg hd]
  split
  · exact ⟨_, rfl⟩
  · split
    · exact ⟨_, rfl⟩
    · split
      · exact ⟨_, rfl⟩
      · split
        · exact ⟨_, rfl⟩
        · exact ⟨_, rfl⟩

theorem le16_decode (lo hi : Nat) (hlo : lo < 256) (hhi : hi < 256) :
    ((lo &&& 0xFF) ||| (hi <<< 8)) % 65536 = lo ||| (hi <<< 8) := by
  rw [and_ff_eq_mod, Nat.mod_eq_of_lt hlo]
  apply Nat.mod_eq_of_lt
  have h1 : lo < 2 ^ 16 := by omega
  have h2 : hi <<< 8 < 2 ^ 16 := by
    rw [Nat.shiftLeft_eq]
    omega
  exact Nat.or_lt_two_pow h1 h2

theorem usb_read_setup_packet_eq (u : Udp) (b0 b1 b2 b3 b4 b5 b6 b7 : Nat) (rest : List Nat)
    (h : u.fdr 0 = b0 :: b1 :: b2 :: b3 :: b4 :: b5 :: b6 :: b7 :: rest) :
    (usb_read_setup_packet u).1
        = { bm_request_type := b0 % 256, b_request := b1 % 256,
            w_value := ((b2 &&& 0xFF) ||| (b3 <<< 8)) % 65536,
            w_index := ((b4 &&& 0xFF) ||| (b5 <<< 8)) % 65536,
            w_length := ((b6 &&& 0xFF) ||| (b7 <<< 8)) % 65536 }
      ∧ (usb_read_setup_packet u).2.log
        = u.log ++ [Event.fdr_read 0 b0, Event.fdr_read 0 b1, Event.fdr_read 0 b2,
            Event.fdr_read 0 b3, Event.fdr_read 0 b4, Event.fdr_read 0 b5,
            Event.fdr_read 0 b6, Event.fdr_read 0 b7]
      ∧ (usb_read_setup_packet u).2.fdr 0 = rest := by
  simp [usb_read_setup_packet, Udp.read_fdr, h, upd]


theorem usb_setup_begin_eq (s : Sys) (b0 b1 b2 b3 b4 b5 b6 b7 : Nat) (rest : List Nat)
    (h : s.udp.fdr 0 = b0 :: b1 :: b2 :: b3 :: b4 :: b5 :: b6 :: b7 :: rest)
    (h0 : b0 < 256) :
    (usb_setup_begin s).2.udp.log
        = s.udp.log ++ [Event.fdr_read 0 b0, Event.fdr_read 0 b1, Event.fdr_read 0 b2,
            Event.fdr_read 0 b3, Event.fdr_read 0 b4, Event.fdr_read 0 b5,
            Event.fdr_read 0 b6, Event.fdr_read 0 b7]
          ++ (if b0 &&& 0x80 = 0x80 then [Event.csr_set 0 AT91C_UDP_DIR] else [])
          ++ [Event.csr_clear 0 AT91C_UDP_RXSETUP]
      ∧ (usb_setup_begin s).2.udp.fdr 0 = rest
      ∧ (b0 &&& 0x80 = 0x80 →
          (usb_setup_begin s).2.udp.csr 0 &&& AT91C_UDP_DIR = AT91C_UDP_DIR) := by
  obtain ⟨hp, hl, hf⟩ := usb_read_setup_packet_eq s.udp b0 b1 b2 b3 b4 b5 b6 b7 rest h
  have hb : (usb_read_setup_packet s.udp).1.bm_request_type = b0 := by
    rw [hp]
    exact Nat.mod_eq_of_lt h0
  unfold usb_setup_begin
  by_cases hd : b0 &&& 0x80 = 0x80
  · have hd1 : (usb_read_setup_packet s.udp).1.bm_request_type &&& USB_BMREQUEST_DIR
        = USB_BMREQUEST_D_TO_H := by
      rw [hb]; exact hd
    simp only [if_pos hd1, if_pos hd, usb_csr_clear_flag_log, usb_csr_set_flag_log, hl]
    refine ⟨trivial, ?_, ?_⟩
    · simpa [usb_csr_clear_flag, usb_csr_set_flag] using hf
    · intro _
      simp only [usb_csr_clear_flag, usb_csr_set_flag, upd_same]
      rw [and_and_keep _ _ _ (by decide)]
      exact or_and_self _ _
  · have hd1 : ¬ (usb_read_setup_packet s.udp).1.bm_request_type &&& USB_BMREQUEST_DIR
        = USB_BMREQUEST_D_TO_H := by
      rw [hb]; exact hd
    simp only [if_neg hd1, if_neg hd, usb_csr_clear_flag_log, hl, List.append_nil]
    refine ⟨trivial, ?_, ?_⟩
    · simpa [usb_csr_clear_flag] using hf
    · intro hc
      exact absurd hc hd

/-- C21: whenever the FIFO of endpoint 0 holds the bytes `b0, ..., b7` (followed by anything),
`usb_manage_setup_packet` loads exactly these eight bytes from `FDR[0]`, in this order,
before it dispatches, and the packet it dispatches on is `bm_request_type = b0`,
`b_request = b1`, `w_value = b2 | (b3 << 8)`, `w_index = b4 | (b5 << 8)`,
`w_length = b6 | (b7 << 8)`. Its register accesses up to the dispatch are the eight loads,
then `usb_csr_set_flag(0, DIR)` exactly when bit 7 of `b0` is set, then
`usb_csr_clear_flag(0, RXSETUP)`; at the dispatch RXSETUP reads clear in `CSR[0]`, DIR reads
set when bit 7 of `b0` is set, and the FIFO holds what followed the eight bytes. The
dispatch loads nothing more: on every path on which the function returns, stall included,
the loads from `FDR[0]` are the earlier ones followed by `b0, ..., b7`; and it does return for
every request other than SET_ADDRESS and GET_DESCRIPTOR. -/
theorem setup_packet_read_and_decoded (s : Sys) (b0 b1 b2 b3 b4 b5 b6 b7 : Nat)
    (rest : List Nat)
    (hfifo : s.udp.fdr 0 = b0 :: b1 :: b2 :: b3 :: b4 :: b5 :: b6 :: b7 :: rest)
    (h0 : b0 < 256) (h1 : b1 < 256) (h2 : b2 < 256) (h3 : b3 < 256)
    (h4 : b4 < 256) (h5 : b5 < 256) (h6 : b6 < 256) (h7 : b7 < 256) :
    (usb_setup_begin s).1
        = { bm_request_type := b0, b_request := b1, w_value := b2 ||| (b3 <<< 8),
            w_index := b4 ||| (b5 <<< 8), w_length := b6 ||| (b7 <<< 8) }
      ∧ (usb_setup_begin s).2.udp.log
        = s.udp.log ++ [Event.fdr_read 0 b0, Event.fdr_read 0 b1, Event.fdr_read 0 b2,
            Event.fdr_read 0 b3, Event.fdr_read 0 b4, Event.fdr_read 0 b5,
            Event.fdr_read 0 b6, Event.fdr_read 0 b7]
          ++ (if b0 &&& 0x80 = 0x80 then [Event.csr_set 0 AT91C_UDP_DIR] else [])
          ++ [Event.csr_clear 0 AT91C_UDP_RXSETUP]
      ∧ fifo_read 0 (usb_setup_begin s).2.udp.log
        = fifo_read 0 s.udp.log ++ [b0, b1, b2, b3, b4, b5, b6, b7]
      ∧ (usb_setup_begin s).2.udp.fdr 0 = rest
      ∧ (usb_setup_begin s).2.udp.csr 0 &&& AT91C_UDP_RXSETUP = 0
      ∧ (b0 &&& 0x80 = 0x80 →
          (usb_setup_begin s).2.udp.csr 0 &&& AT91C_UDP_DIR = AT91C_UDP_DIR)
      ∧ (∀ t, usb_manage_setup_packet s = some t →
          fifo_read 0 t.udp.log = fifo_read 0 s.udp.log ++ [b0, b1, b2, b3, b4, b5, b6, b7])
      ∧ (b1 ≠ USB_BREQUEST_SET_ADDRESS → b1 ≠ USB_BREQUEST_GET_DESCRIPTOR →
          ∃ t, usb_manage_setup_packet s = some t) := by
  obtain ⟨hp, -, -⟩ := usb_read_setup_packet_eq s.udp b0 b1 b2 b3 b4 b5 b6 b7 rest hfifo
  obtain ⟨hlog, hrest, hdir⟩ := usb_setup_begin_eq s b0 b1 b2 b3 b4 b5 b6 b7 rest hfifo h0
  have hpk : (usb_setup_begin s).1
      = { bm_request_type := b0, b_request := b1, w_value := b2 ||| (b3 <<< 8),
          w_index := b4 ||| (b5 <<< 8), w_length := b6 ||| (b7 <<< 8) } := by
    rw [usb_setup_begin_packet, hp, Nat.mod_eq_of_lt h0, Nat.mod_eq_of_lt h1,
      le16_decode b2 b3 h2 h3, le16_decode b4 b5 h4 h5, le16_decode b6 b7 h6 h7]
  have hread : fifo_read 0 (usb_setup_begin s).2.udp.log
      = fifo_read 0 s.udp.log ++ [b0, b1, b2, b3, b4, b5, b6, b7] := by
    rw [hlog]
    simp only [fifo_read_append]
    split <;> simp [fifo_read]
  refine ⟨hpk, hlog, hread, hrest, usb_setup_begin_rxsetup s, hdir, ?_, ?_⟩
  · intro t ht
    rw [← hread]
    exact usb_setup_dispatch_fifo_read _ _ t 0 ht
  · intro ha hd
    have hb1 : (usb_setup_begin s).1.b_request = b1 := by rw [hpk]
    exact usb_setup_dispatch_returns _ _ (by rw [hb1]; exact ha) (by rw [hb1]; exact hd)

/-- C21 at the SETUP packet SET_INTERFACE (a stall path) and at GET_STATUS for the device
(a device-to-host request): eight loads, then the stall, respectively the direction turned
before RXSETUP is cleared. -/
theorem setup_packet_read_and_decoded_witness :
    (sys_set_interface.udp.fdr 0 = [0x01, 0x0B, 0x00, 0x00, 0x00, 0x00, 0x00, 0x00])
    ∧ ((usb_setup_begin sys_set_interface).1
        = { bm_request_type := 0x01, b_request := 0x0B, w_value := 0x00 ||| (0x00 <<< 8),
            w_index := 0x00 ||| (0x00 <<< 8), w_length := 0x00 ||| (0x00 <<< 8) }
      ∧ (usb_setup_begin sys_set_interface).2.udp.log
        = sys_set_interface.udp.log
          ++ [Event.fdr_read 0 0x01, Event.fdr_read 0 0x0B, Event.fdr_read 0 0x00,
            Event.fdr_read 0 0x00, Event.fdr_read 0 0x00, Event.fdr_read 0 0x00,
            Event.fdr_read 0 0x00, Event.fdr_read 0 0x00]
          ++ (if 0x01 &&& 0x80 = 0x80 then [Event.csr_set 0 AT91C_UDP_DIR] else [])
          ++ [Event.csr_clear 0 AT91C_UDP_RXSETUP]
      ∧ fifo_read 0 (usb_setup_begin sys_set_interface).2.udp.log
        = fifo_read 0 sys_set_interface.udp.log
          ++ [0x01, 0x0B, 0x00, 0x00, 0x00, 0x00, 0x00, 0x00]
      ∧ (usb_setup_begin sys_set_interface).2.udp.fdr 0 = []
      ∧ (usb_setup_begin sys_set_interface).2.udp.csr 0 &&& AT91C_UDP_RXSETUP = 0
      ∧ (0x01 &&& 0x80 = 0x80 →
          (usb_setup_begin sys_set_interface).2.udp.csr 0 &&& AT91C_UDP_DIR = AT91C_UDP_DIR)
      ∧ (∀ t, usb_manage_setup_packet sys_set_interface = some t →
          fifo_read 0 t.udp.log
            = fifo_read 0 sys_set_interface.udp.log
              ++ [0x01, 0x0B, 0x00, 0x00, 0x00, 0x00, 0x00, 0x00])
      ∧ (0x0B ≠ USB_BREQUEST_SET_ADDRESS → 0x0B ≠ USB_BREQUEST_GET_DESCRIPTOR →
          ∃ t, usb_manage_setup_packet sys_set_interface = some t))
    ∧ (usb_manage_setup_packet sys_set_interface).map (fun t => t.udp.log)
        = some [Event.fdr_read 0 0x01, Event.fdr_read 0 0x0B, Event.fdr_read 0 0x00,
            Event.fdr_read 0 0x00, Event.fdr_read 0 0x00, Event.fdr_read 0 0x00,
            Event.fdr_read 0 0x00, Event.fdr_read 0 0x00,
            Event.csr_clear 0 AT91C_UDP_RXSETUP, Event.csr_set 0 AT91C_UDP_FORCESTALL]
    ∧ (usb_setup_begin sys_get_status_device).2.udp.log
        = [Event.fdr_read 0 0x80, Event.fdr_read 0 0x00, Event.fdr_read 0 0x00,
            Event.fdr_read 0 0x00, Event.fdr_read 0 0x00, Event.fdr_read 0 0x00,
            Event.fdr_read 0 0x02, Event.fdr_read 0 0x00,
            Event.csr_set 0 AT91C_UDP_DIR, Event.csr_clear 0 AT91C_UDP_RXSETUP] :=
  ⟨by rfl,
    setup_packet_read_and_decoded sys_set_interface 0x01 0x0B 0x00 0x00 0x00 0x00 0x00 0x00 []
      (by rfl) (by decide) (by decide) (by decide) (by decide) (by decide) (by decide)
      (by decide) (by decide),
    by rfl, by rfl⟩

/-! ## C22: the control-status registers across `usb_send_data` -/

/-- C22, as the code behaves: `usb_send_data(e, p, L)` ends with the plain store
`CSR[0] &= ~RX_DATA_BK0`, made outside the two flag primitives, after
`usb_csr_set_flag(e, TXPKTRDY)`. For every endpoint `e` other than 0 and every state in
which RX_DATA_BK0 is set in `CSR[0]`, the call returns with `CSR[0]` different from its value
before the call: RX_DATA_BK0 has been cleared in it. (The registers `CSR[f]` with `f` neither
`e` nor 0 are unchanged.) -/
theorem usb_send_data_clears_bank0 (e : Nat) (p : Ptr) (L : Nat) (s : Sys)
    (he : e ≠ 0) (hbk : s.udp.csr 0 &&& AT91C_UDP_RX_DATA_BK0 = AT91C_UDP_RX_DATA_BK0) :
    (usb_send_data e p L s).udp.csr 0 = s.udp.csr 0 &&& not32 AT91C_UDP_RX_DATA_BK0
      ∧ (usb_send_data e p L s).udp.csr 0 &&& AT91C_UDP_RX_DATA_BK0 = 0
      ∧ (usb_send_data e p L s).udp.csr 0 ≠ s.udp.csr 0
      ∧ (usb_send_data e p L s).udp.log
          = s.udp.log ++ (p.bytes (packet_size_of e L)).map (Event.fdr_write 0)
              ++ [Event.csr_set e AT91C_UDP_TXPKTRDY]
              ++ [Event.csr_write 0 (s.udp.csr 0 &&& not32 AT91C_UDP_RX_DATA_BK0)]
      ∧ (∀ f, f ≠ e → f ≠ 0 → (usb_send_data e p L s).udp.csr f = s.udp.csr f) := by
  have h0 : (0 : Nat) ≠ e := fun h => he h.symm
  have hc : (usb_send_data e p L s).udp.csr 0
      = s.udp.csr 0 &&& not32 AT91C_UDP_RX_DATA_BK0 := by
    rw [usb_send_data_csr, upd_same, upd_other _ _ _ _ h0]
  have hz : (usb_send_data e p L s).udp.csr 0 &&& AT91C_UDP_RX_DATA_BK0 = 0 := by
    rw [hc, Nat.and_assoc]
    have : not32 AT91C_UDP_RX_DATA_BK0 &&& AT91C_UDP_RX_DATA_BK0 = 0 := by decide
    rw [this, Nat.and_zero]
  refine ⟨hc, hz, ?_, ?_, ?_⟩
  · intro h
    rw [h, hbk] at hz
    exact absurd hz (by decide)
  · rw [usb_send_data_log, upd_other _ _ _ _ h0]
  · intro f hfe hf0
    rw [usb_send_data_csr, upd_other _ _ _ _ hf0, upd_other _ _ _ _ hfe]

/-- C22 at `usb_send_data(1, p, 3)` while a received packet waits in bank 0 of endpoint 0:
`CSR[0]` goes from `EPEDS | RX_DATA_BK0` to `EPEDS`. -/
theorem usb_send_data_clears_bank0_witness :
    ((1 : Nat) ≠ 0
      ∧ sys_bank0_pending.udp.csr 0 &&& AT91C_UDP_RX_DATA_BK0 = AT91C_UDP_RX_DATA_BK0)
    ∧ ((usb_send_data 1 ⟨[10, 20, 30], 0⟩ 3 sys_bank0_pending).udp.csr 0
          = sys_bank0_pending.udp.csr 0 &&& not32 AT91C_UDP_RX_DATA_BK0
      ∧ (usb_send_data 1 ⟨[10, 20, 30], 0⟩ 3 sys_bank0_pending).udp.csr 0
          &&& AT91C_UDP_RX_DATA_BK0 = 0
      ∧ (usb_send_data 1 ⟨[10, 20, 30], 0⟩ 3 sys_bank0_pending).udp.csr 0
          ≠ sys_bank0_pending.udp.csr 0
      ∧ (usb_send_data 1 ⟨[10, 20, 30], 0⟩ 3 sys_bank0_pending).udp.log
          = sys_bank0_pending.udp.log
              ++ (Ptr.bytes ⟨[10, 20, 30], 0⟩ (packet_size_of 1 3)).map (Event.fdr_write 0)
              ++ [Event.csr_set 1 AT91C_UDP_TXPKTRDY]
              ++ [Event.csr_write 0
                    (sys_bank0_pending.udp.csr 0 &&& not32 AT91C_UDP_RX_DATA_BK0)]
      ∧ (∀ f, f ≠ 1 → f ≠ 0 →
          (usb_send_data 1 ⟨[10, 20, 30], 0⟩ 3 sys_bank0_pending).udp.csr f
            = sys_bank0_pending.udp.csr f))
    ∧ sys_bank0_pending.udp.csr 0 = 0x8002
    ∧ (usb_send_data 1 ⟨[10, 20, 30], 0⟩ 3 sys_bank0_pending).udp.csr 0 = 0x8000 :=
  ⟨⟨by decide, by decide⟩,
    usb_send_data_clears_bank0 1 ⟨[10, 20, 30], 0⟩ 3 sys_bank0_pending (by decide) (by decide),
    by rfl, by rfl⟩

/-! ## C23: GLBSTATE and `current_config` after SET_CONFIGURATION -/

/-- C23, as the code behaves: for every SET_CONFIGURATION SETUP packet,
`usb_manage_setup_packet` returns with `current_config == wValue & 0xFF` (the store into
the `U8` field keeps the low byte), while the value it wrote to GLBSTATE has CONFG set
exactly when the whole 16-bit `wValue` is non-zero. So whenever the low byte of `wValue` is
zero and its high byte is not, GLBSTATE has CONFG set although `current_config == 0`. -/
theorem set_config_glbstate_disagrees (s : Sys)
    (hreq : (usb_setup_begin s).1.b_request = USB_BREQUEST_SET_CONFIG)
    (hlow : (usb_setup_begin s).1.w_value % 256 = 0)
    (hnz : (usb_setup_begin s).1.w_value ≠ 0) :
    ∃ t, usb_manage_setup_packet s = some t
      ∧ t.usb_state.current_config = 0
      ∧ t.udp.glbstate = AT91C_UDP_CONFG ||| AT91C_UDP_FADDEN
      ∧ t.udp.glbstate &&& AT91C_UDP_CONFG = AT91C_UDP_CONFG
      ∧ ¬ (t.udp.glbstate &&& AT91C_UDP_CONFG ≠ 0 ↔ t.usb_state.current_config ≠ 0) := by
  obtain ⟨t, ht, hcc, -, -, hg⟩ := usb_manage_setup_packet_set_config s hreq
  have hpos : (usb_setup_begin s).1.w_value > 0 := Nat.pos_of_ne_zero hnz
  rw [if_pos hpos] at hg
  rw [hlow] at hcc
  refine ⟨t, ht, hcc, hg, ?_, ?_⟩
  · rw [hg]; decide
  · rw [hg, hcc]; decide

/-- C23 at SET_CONFIGURATION with wValue 0x0100, taken through `usb_isr` as well:
GLBSTATE becomes `CONFG | FADDEN` (3) and `current_config` stays 0. -/
theorem set_config_glbstate_disagrees_witness :
    ((usb_setup_begin sys_set_config_0x0100).1.b_request = USB_BREQUEST_SET_CONFIG
      ∧ (usb_setup_begin sys_set_config_0x0100).1.w_value % 256 = 0
      ∧ (usb_setup_begin sys_set_config_0x0100).1.w_value ≠ 0)
    ∧ (∃ t, usb_manage_setup_packet sys_set_config_0x0100 = some t
      ∧ t.usb_state.current_config = 0
      ∧ t.udp.glbstate = AT91C_UDP_CONFG ||| AT91C_UDP_FADDEN
      ∧ t.udp.glbstate &&& AT91C_UDP_CONFG = AT91C_UDP_CONFG
      ∧ ¬ (t.udp.glbstate &&& AT91C_UDP_CONFG ≠ 0 ↔ t.usb_state.current_config ≠ 0))
    ∧ (usb_setup_begin sys_set_config_0x0100).1.w_value = 0x0100
    ∧ (usb_isr sys_set_config_0x0100).map
        (fun t => (t.udp.glbstate, t.usb_state.current_config)) = some (3, 0) :=
  ⟨by decide,
    set_config_glbstate_disagrees sys_set_config_0x0100 (by decide) (by decide) (by decide),
    by rfl, by rfl⟩

end Nxtos
